import Mathlib

/-!
# Point-to-point net device with payload compression

A shallow embedding of `PointToPointNetDevice` (ns-3 point-to-point module, extended with
zlib compression of the UDP application payload) and theorems about its framing pipeline.

Conventions of the embedding.

* A byte is a natural number; a `std::string` or a packet payload is a `List Nat`.
* A packet is the list of headers that have been added to it (outermost first) followed
  by the remaining payload bytes. `AddHeader` pushes a header, `RemoveHeader` pops it.
  Reading a header that the packet does not hold at its front fails, as `strip` of the
  HeaderStack fails on a buffer that is too short; the device source checks the result of
  none of these reads, so the failure ends the run with `Fatal.notDeserializable`.
* A failed `NS_ASSERT_MSG` and a null-pointer dereference end the run with a `Fatal`.
  `Receive` dereferences `m_node` in its first loop and `m_channel` in `GetRemote ()`, which
  it evaluates for each callback; a device is `attached` when both are there and the channel
  joins it to one other device.
* The methods return `Except Fatal _`, which forgets the device when a run fails. Where a
  statement is about what a failing run did before it failed, it is about the definitions
  named `..Run`, which follow the same source lines and keep the device; the lemmas named
  `.._run` show that each method returns what its run ends with.
* Trace sources, callbacks, the queue, the channel and the scheduler are collaborators of
  the device: every call made to them is appended to the `trace` of the device, in order.
  Text written to standard output is not modelled.
* Collaborator code that the device source only calls (header sizes, the zlib string
  codec, the data rate, the channel, the error model) is collected in `Env`.
* The device is embedded from `src/ns-3-dev/src/point-to-point/model/`; the namespace
  `TopLevel` holds the functions of `src/point-to-point-net-device.cc`, an earlier state of
  the same file, where a claim is about them.
-/

set_option autoImplicit false

namespace ns3

/-! ## Headers and packets -/

/-- Ways in which a run of the device ends without returning. -/
inductive Fatal
  /-- The `NS_ASSERT_MSG` of `PppToEther`: "PPP Protocol number not defined1!". -/
  | pppProtocolNotDefined1
  /-- The `NS_ASSERT_MSG` of `EtherToPpp`: "PPP Protocol number not defined2!". -/
  | pppProtocolNotDefined2
  /-- The `NS_ASSERT_MSG` of `TransmitStart`: "Must be READY to transmit". -/
  | mustBeReady
  /-- The first `NS_ASSERT_MSG` of `TransmitComplete`: "Must be BUSY if transmitting". -/
  | mustBeBusy
  /-- The second `NS_ASSERT_MSG` of `TransmitComplete`: "m_currentPkt zero". -/
  | currentPktZero
  /-- A null `Ptr` (node, queue or channel) is dereferenced. -/
  | nullPointer
  /-- The first `NS_ASSERT` of `GetRemote`: `m_channel->GetNDevices () == 2`. -/
  | remoteNotTwoDevices
  /-- The last `NS_ASSERT` of `GetRemote`: no device of the channel is another device. -/
  | remoteNotFound
  /-- A header is read from a packet that does not hold it at its front. -/
  | notDeserializable
  /-- The exception `std::out_of_range` thrown by `std::string::substr`. -/
  | outOfRange
  deriving DecidableEq

/-- Modelled from the spec: the link header (`PppHeader`, declared outside the device source),
which "carries a single `protocol` field". -/
structure PppHeader where
  m_protocol : Nat
  deriving DecidableEq

/-- Modelled from the spec: the network header of the HeaderChain (`Ipv4Header`, declared
outside the device source), one of the two headers that "carry a declared-payload-length
field"; the other fields stand for what the device never touches. -/
structure Ipv4Header where
  m_payloadSize : Nat
  m_ttl : Nat
  m_protocol : Nat
  m_source : Nat
  m_destination : Nat
  deriving DecidableEq

/-- Modelled from the spec: the transport header of the HeaderChain (`UdpHeader`, declared
outside the device source), the other header with a declared-payload-length field. -/
structure UdpHeader where
  m_sourcePort : Nat
  m_destinationPort : Nat
  m_payloadSize : Nat
  m_checksum : Nat
  deriving DecidableEq

/-- Modelled from the spec: the sequencing header of the HeaderChain (`SeqTsHeader`, declared
outside the device source). -/
structure SeqTsHeader where
  m_seq : Nat
  m_ts : Nat
  deriving DecidableEq

/-- Modelled from the spec: `Ipv4Header::SetPayloadSize`, which "rewrites that field to
reflect the new payload size". The field is a natural number: its width is fixed by the
header class, outside the device source. -/
def Ipv4Header.SetPayloadSize (h : Ipv4Header) (size : Nat) : Ipv4Header :=
  { h with m_payloadSize := size }

/-- Modelled from the spec: `UdpHeader::ForcePayloadSize`, which "rewrites that field to
reflect the new payload size". The field is a natural number: its width is fixed by the
header class, outside the device source. -/
def UdpHeader.ForcePayloadSize (h : UdpHeader) (payloadSize : Nat) : UdpHeader :=
  { h with m_payloadSize := payloadSize }

/-- Modelled from the spec: a header of the HeaderStack, the "typed, ordered encapsulation of
sub-headers (link header, network header, transport header, sequencing header)". -/
inductive Header
  | ppp (h : PppHeader)
  | ipv4 (h : Ipv4Header)
  | udp (h : UdpHeader)
  | seqTs (h : SeqTsHeader)
  deriving DecidableEq

/-- Modelled from the spec: a frame (`Packet`, declared outside the device source), "produced
by stacking headers around a payload": the headers added so far, outermost first, and the
payload bytes. -/
structure Packet where
  headers : List Header
  payload : List Nat
  deriving DecidableEq

/-- Modelled from the spec: `Create<Packet> (buffer, size)`, a frame holding the given payload
bytes and no header. -/
def Packet.Create (data : List Nat) : Packet :=
  { headers := [], payload := data }

/-- Modelled from the spec: `Packet::AddHeader`, one step of `rebuild`; the header becomes the
outermost one. -/
def Packet.AddHeader (p : Packet) (h : Header) : Packet :=
  { p with headers := h :: p.headers }

/-- Modelled from the spec: `Packet::PeekHeader (ppp)`, which reads the link header without
removing it. -/
def Packet.PeekHeaderPpp (p : Packet) : Except Fatal PppHeader :=
  match p.headers with
  | Header.ppp h :: _ => .ok h
  | _ => .error .notDeserializable

/-- Modelled from the spec: `Packet::RemoveHeader (ppp)`, one step of `strip`, which "removes
sub-headers in encapsulation order, returning each header value". -/
def Packet.RemoveHeaderPpp (p : Packet) : Except Fatal (PppHeader × Packet) :=
  match p.headers with
  | Header.ppp h :: rest => .ok (h, { p with headers := rest })
  | _ => .error .notDeserializable

/-- Modelled from the spec: `Packet::RemoveHeader (ipv4Header)`, one step of `strip`. -/
def Packet.RemoveHeaderIpv4 (p : Packet) : Except Fatal (Ipv4Header × Packet) :=
  match p.headers with
  | Header.ipv4 h :: rest => .ok (h, { p with headers := rest })
  | _ => .error .notDeserializable

/-- Modelled from the spec: `Packet::RemoveHeader (udpHeader)`, one step of `strip`. -/
def Packet.RemoveHeaderUdp (p : Packet) : Except Fatal (UdpHeader × Packet) :=
  match p.headers with
  | Header.udp h :: rest => .ok (h, { p with headers := rest })
  | _ => .error .notDeserializable

/-- Modelled from the spec: `Packet::RemoveHeader (seqTsHeader)`, one step of `strip`. -/
def Packet.RemoveHeaderSeqTs (p : Packet) : Except Fatal (SeqTsHeader × Packet) :=
  match p.headers with
  | Header.seqTs h :: rest => .ok (h, { p with headers := rest })
  | _ => .error .notDeserializable

/-- Modelled from the spec: `Packet::CopyData (buffer, GetSize ())` followed by
`std::string (buffer, buffer + GetSize ())`, "the remaining raw payload bytes" of a frame
whose headers were all stripped. -/
def Packet.CopyData (p : Packet) : Except Fatal (List Nat) :=
  match p.headers with
  | [] => .ok p.payload
  | _ :: _ => .error .notDeserializable

/-! ## Collaborators -/

/-- The state of the transmit state machine. -/
inductive TxMachineState
  | READY
  | BUSY
  deriving DecidableEq

/-- Code the device source calls but does not define. -/
structure Env where
  /-- Result of `PppHeader::GetSerializedSize`. -/
  pppHeaderSize : Nat
  /-- Result of `Ipv4Header::GetSerializedSize`. -/
  ipv4HeaderSize : Nat
  /-- Result of `UdpHeader::GetSerializedSize`. -/
  udpHeaderSize : Nat
  /-- Result of `SeqTsHeader::GetSerializedSize`. -/
  seqTsHeaderSize : Nat
  /-- The string codec called by `Send`. -/
  zlib_compress_string : List Nat → List Nat
  /-- The string codec called by `Receive`. -/
  zlib_decompress_string : List Nat → List Nat
  /-- Method `DataRate::CalculateBytesTxTime` of `m_bps`. -/
  CalculateBytesTxTime : Nat → Nat
  /-- Result of `m_channel->TransmitStart (p, this, txTime)`. -/
  channelTransmitStart : Packet → Nat → Bool
  /-- Result of `m_receiveErrorModel->IsCorrupt (packet)`. -/
  IsCorrupt : Packet → Bool
  /-- Result of `m_channel->GetNDevices ()`. -/
  channelNDevices : Nat
  /-- Whether `m_channel->GetDevice (i)` is this device. -/
  channelDeviceIsThis : Nat → Bool
  /-- The bytes zlib `deflate` produces for an input at `Z_BEST_COMPRESSION` with `Z_FINISH`. -/
  deflate : List Nat → List Nat
  /-- The bytes zlib `inflate` produces for an input. -/
  inflate : List Nat → List Nat

/-- The serialized size of a header. -/
def Header.GetSerializedSize (env : Env) : Header → Nat
  | .ppp _ => env.pppHeaderSize
  | .ipv4 _ => env.ipv4HeaderSize
  | .udp _ => env.udpHeaderSize
  | .seqTs _ => env.seqTsHeaderSize

/-- Modelled from the spec: `Packet::GetSize`; "total length equals the sum of all header
lengths plus payload length". -/
def Packet.GetSize (env : Env) (p : Packet) : Nat :=
  (p.headers.map (Header.GetSerializedSize env)).sum + p.payload.length

/-- Calls made by the device to its collaborators. -/
inductive Event
  | macTxTrace (p : Packet)
  | macTxDropTrace (p : Packet)
  | macPromiscRxTrace (p : Packet)
  | macRxTrace (p : Packet)
  | phyTxBeginTrace (p : Packet)
  | phyTxEndTrace (p : Packet)
  | phyTxDropTrace (p : Packet)
  | phyRxEndTrace (p : Packet)
  | phyRxDropTrace (p : Packet)
  | snifferTrace (p : Packet)
  | promiscSnifferTrace (p : Packet)
  /-- Call `m_queue->Enqueue (p)` and its result. -/
  | enqueue (p : Packet) (accepted : Bool)
  /-- Call `m_queue->Dequeue ()` and its result. -/
  | dequeue (p : Option Packet)
  /-- Call `zlib_compress_string (ucData)`. -/
  | zlibCompress (ucData : List Nat)
  /-- Call `zlib_decompress_string (cData)`. -/
  | zlibDecompress (cData : List Nat)
  /-- Call `Simulator::Schedule (txCompleteTime, TransmitComplete)`. -/
  | schedule (txCompleteTime : Nat)
  /-- Call `m_channel->TransmitStart (p, this, txTime)` and its result. -/
  | channelTransmitStart (p : Packet) (txTime : Nat) (result : Bool)
  /-- Call `m_promiscCallback (this, packet, protocol, ...)`. -/
  | promiscCallback (p : Packet) (protocol : Nat)
  /-- Call `m_rxCallback (this, packet, protocol, GetRemote ())`. -/
  | rxCallback (p : Packet) (protocol : Nat)
  deriving DecidableEq

/-- Modelled from the spec: the transmit queue, an external collaborator with
`enqueue(frame) -> bool` (false on overflow) and `dequeue() -> Option<frame>` (FIFO). -/
structure Queue where
  m_packets : List Packet
  m_maxSize : Nat
  deriving DecidableEq

/-- Modelled from the spec: `enqueue(frame) -> bool`, false on overflow. -/
def Queue.Enqueue (q : Queue) (p : Packet) : Bool × Queue :=
  if q.m_packets.length < q.m_maxSize then
    (true, { q with m_packets := q.m_packets ++ [p] })
  else
    (false, q)

/-- Modelled from the spec: `dequeue() -> Option<frame>`, first in first out. -/
def Queue.Dequeue (q : Queue) : Option Packet × Queue :=
  match q.m_packets with
  | [] => (none, q)
  | p :: rest => (some p, { q with m_packets := rest })

/-! ## The device -/

/-- The fields of `PointToPointNetDevice` read or written by the send and receive paths,
and the trace of calls made to collaborators. -/
structure PointToPointNetDevice where
  m_txMachineState : TxMachineState
  m_currentPkt : Option Packet
  m_linkUp : Bool
  /-- Field `m_queue`; `none` is the null pointer. -/
  m_queue : Option Queue
  /-- Field `m_channel`; `false` is the null pointer. -/
  m_channel : Bool
  /-- Field `m_node`; `false` is the null pointer. -/
  m_node : Bool
  m_tInterframeGap : Nat
  /-- Field `m_receiveErrorModel`; `false` is the null pointer. -/
  m_receiveErrorModel : Bool
  /-- Field `m_promiscCallback`; `false` is the null callback. -/
  m_promiscCallback : Bool
  compress : Bool
  decompress : Bool
  trace : List Event
  deriving DecidableEq

namespace PointToPointNetDevice

/-- Append one collaborator call to the trace. -/
def emit (d : PointToPointNetDevice) (e : Event) : PointToPointNetDevice :=
  { d with trace := d.trace ++ [e] }

/-- Function `PppToEther`: link tag to protocol number. -/
def PppToEther (proto : Nat) : Except Fatal Nat :=
  if proto = 0x0021 then .ok 0x0800
  else if proto = 0x4021 then .ok 0x0800
  else if proto = 0x0057 then .ok 0x86DD
  else .error .pppProtocolNotDefined1

/-- Function `EtherToPpp`: protocol number to link tag. -/
def EtherToPpp (proto : Nat) : Except Fatal Nat :=
  if proto = 0x0800 then .ok 0x0021
  else if proto = 0x0801 then .ok 0x4021
  else if proto = 0x86DD then .ok 0x0057
  else .error .pppProtocolNotDefined2

/-- Method `AddHeader (p, protocolNumber)`: prepend a PPP header with tag
`EtherToPpp (protocolNumber)`. -/
def AddHeader (p : Packet) (protocolNumber : Nat) : Except Fatal Packet :=
  match EtherToPpp protocolNumber with
  | .ok tag => .ok (p.AddHeader (.ppp { m_protocol := tag }))
  | .error e => .error e

/-- Method `ProcessHeader (p, param)`: remove the PPP header and report
`PppToEther` of its tag. -/
def ProcessHeader (p : Packet) : Except Fatal (Packet × Nat) :=
  match p.RemoveHeaderPpp with
  | .ok (ppp, p1) =>
    match PppToEther ppp.m_protocol with
    | .ok param => .ok (p1, param)
    | .error e => .error e
  | .error e => .error e

/-- Method `std::string::substr (pos, count)`. -/
def substr (s : List Nat) (pos count : Nat) : Except Fatal (List Nat) :=
  if pos > s.length then .error .outOfRange else .ok ((s.drop pos).take count)

/-- The characters of the string literal "0x0021" that `Send` puts in front of the data. -/
def protocolString : List Nat := [48, 120, 48, 48, 50, 49]

/-- Method `TransmitStart (p)`. -/
def TransmitStart (env : Env) (d : PointToPointNetDevice) (p : Packet) :
    Except Fatal (Bool × PointToPointNetDevice) :=
  if d.m_txMachineState ≠ .READY then .error .mustBeReady
  else
    let d1 := ({ d with m_txMachineState := .BUSY, m_currentPkt := some p }).emit
      (.phyTxBeginTrace p)
    let txTime := env.CalculateBytesTxTime (p.GetSize env)
    let txCompleteTime := txTime + d1.m_tInterframeGap
    let d2 := d1.emit (.schedule txCompleteTime)
    if d2.m_channel = false then .error .nullPointer
    else
      let result := env.channelTransmitStart p txTime
      let d3 := d2.emit (.channelTransmitStart p txTime result)
      if result = false then .ok (result, d3.emit (.phyTxDropTrace p))
      else .ok (result, d3)

/-- The body of `if (compress == true && ppp.GetProtocol() == 33)` in `Send` of
`src/ns-3-dev/src/point-to-point/model/point-to-point-net-device.cc`: strip the four
headers, put "0x0021" in front of the data, encode, and rebuild the headers around the
encoded data under the PPP tag of protocol number 2049. -/
def SendCompress (env : Env) (d : PointToPointNetDevice) (packet : Packet) :
    Except Fatal (Packet × PointToPointNetDevice) := do
  let (_, packet) ← packet.RemoveHeaderPpp
  let (ipv4Header, packet) ← packet.RemoveHeaderIpv4
  let (udpHeader, packet) ← packet.RemoveHeaderUdp
  let (seqTsHeader, packet) ← packet.RemoveHeaderSeqTs
  let data ← packet.CopyData
  let protocol := protocolString
  let ucData := protocol ++ data
  let cData := env.zlib_compress_string ucData
  let d := d.emit (.zlibCompress ucData)
  let newPacket := Packet.Create cData
  let newPacket := newPacket.AddHeader (.seqTs seqTsHeader)
  let udpHeader := udpHeader.ForcePayloadSize (newPacket.GetSize env)
  let newPacket := newPacket.AddHeader (.udp udpHeader)
  let ipv4Header := ipv4Header.SetPayloadSize (newPacket.GetSize env)
  let newPacket := newPacket.AddHeader (.ipv4 ipv4Header)
  let newPacket ← AddHeader newPacket 2049
  return (newPacket, d)

/-- The end of `Send`, from `m_macTxTrace (packet)` on: offer the frame to the queue and,
when it is accepted and the device is READY, dequeue and start transmitting. -/
def SendEnqueue (env : Env) (d : PointToPointNetDevice) (packet : Packet) :
    Except Fatal (Bool × PointToPointNetDevice) :=
  let d := d.emit (.macTxTrace packet)
  match d.m_queue with
  | none => .error .nullPointer
  | some q =>
    let (accepted, q) := q.Enqueue packet
    let d := ({ d with m_queue := some q }).emit (.enqueue packet accepted)
    if accepted = true then
      if d.m_txMachineState = .READY then
        let (p, q) := q.Dequeue
        let d := ({ d with m_queue := some q }).emit (.dequeue p)
        match p with
        | none => .error .nullPointer
        | some packet =>
          let d := (d.emit (.snifferTrace packet)).emit (.promiscSnifferTrace packet)
          TransmitStart env d packet
      else
        .ok (true, d)
    else
      .ok (false, d.emit (.macTxDropTrace packet))

/-- Method `Send (packet, dest, protocolNumber)` of
`src/ns-3-dev/src/point-to-point/model/point-to-point-net-device.cc`. The destination
address is not used by the method. -/
def Send (env : Env) (d : PointToPointNetDevice) (packet : Packet) (protocolNumber : Nat) :
    Except Fatal (Bool × PointToPointNetDevice) := do
  if d.m_linkUp = false then
    return (false, d.emit (.macTxDropTrace packet))
  let packet ← AddHeader packet protocolNumber
  let ppp ← packet.PeekHeaderPpp
  let (packet, d) ←
    if d.compress = true ∧ ppp.m_protocol = 33 then SendCompress env d packet
    else pure (packet, d)
  SendEnqueue env d packet

/-- The body of `if (decompress == true && ppp.GetProtocol() == 16417)` in `Receive` of
`src/ns-3-dev/src/point-to-point/model/point-to-point-net-device.cc`: strip the four
headers, decode the data, drop its first six characters, and rebuild the headers around
the rest under the PPP tag of protocol number 2048. -/
def ReceiveDecompress (env : Env) (d : PointToPointNetDevice) (packet : Packet) :
    Except Fatal (Packet × PointToPointNetDevice) := do
  let (_, packet) ← packet.RemoveHeaderPpp
  let (ipv4Header, packet) ← packet.RemoveHeaderIpv4
  let (udpHeader, packet) ← packet.RemoveHeaderUdp
  let (seqTsHeader, packet) ← packet.RemoveHeaderSeqTs
  let cData ← packet.CopyData
  let ucData := env.zlib_decompress_string cData
  let d := d.emit (.zlibDecompress cData)
  let protocolData ← substr ucData 0 6
  let originalData ← substr ucData protocolData.length ucData.length
  let newPacket := Packet.Create originalData
  let newPacket := newPacket.AddHeader (.seqTs seqTsHeader)
  let udpHeader := udpHeader.ForcePayloadSize (newPacket.GetSize env)
  let newPacket := newPacket.AddHeader (.udp udpHeader)
  let ipv4Header := ipv4Header.SetPayloadSize (newPacket.GetSize env)
  let newPacket := newPacket.AddHeader (.ipv4 ipv4Header)
  let newPacket ← AddHeader newPacket 2048
  return (newPacket, d)

/-- Method `GetRemote ()`, the same in both source files: the address of the other device
of the channel, here the index of that device in the channel. -/
def GetRemote (env : Env) (d : PointToPointNetDevice) : Except Fatal Nat :=
  if d.m_channel = false then .error .nullPointer
  else if env.channelNDevices ≠ 2 then .error .remoteNotTwoDevices
  else
    match (List.range env.channelNDevices).find? (fun i => !env.channelDeviceIsThis i) with
    | some i => .ok i
    | none => .error .remoteNotFound

/-- Method `Receive (packet)` of
`src/ns-3-dev/src/point-to-point/model/point-to-point-net-device.cc`. The method begins
with a loop over `GetNode ()->GetNDevices ()`, of which the dereference of `m_node` is
kept; `GetRemote ()` is evaluated for each of the two callbacks. -/
def Receive (env : Env) (d : PointToPointNetDevice) (packet : Packet) :
    Except Fatal PointToPointNetDevice := do
  if d.m_node = false then
    Except.error Fatal.nullPointer
  else
  if d.m_receiveErrorModel = true ∧ env.IsCorrupt packet = true then
    return d.emit (.phyRxDropTrace packet)
  let ppp ← packet.PeekHeaderPpp
  let (packet, d) ←
    if d.decompress = true ∧ ppp.m_protocol = 16417 then ReceiveDecompress env d packet
    else pure (packet, d)
  let d := ((d.emit (.snifferTrace packet)).emit (.promiscSnifferTrace packet)).emit
    (.phyRxEndTrace packet)
  let originalPacket := packet
  let (packet, protocol) ← ProcessHeader packet
  let d ←
    if d.m_promiscCallback = true then do
      let d := d.emit (.macPromiscRxTrace originalPacket)
      let _ ← GetRemote env d
      pure (d.emit (.promiscCallback packet protocol))
    else pure d
  let d := d.emit (.macRxTrace originalPacket)
  let _ ← GetRemote env d
  return d.emit (.rxCallback packet protocol)

/-- The device is aggregated to a node and attached to a channel that joins it to one other
device: `m_node` and `m_channel` are set and `GetRemote ()` finds the other device. -/
def attached (env : Env) (d : PointToPointNetDevice) : Prop :=
  d.m_node = true ∧ d.m_channel = true ∧ env.channelNDevices = 2 ∧
    (env.channelDeviceIsThis 0 = false ∨ env.channelDeviceIsThis 1 = false)

/-- Whether a list of headers is an IPv4, a UDP and a SeqTs header and nothing else. -/
def isHeaderChain : List Header → Bool
  | [.ipv4 _, .udp _, .seqTs _] => true
  | _ => false

/-- The frames `Receive` takes as far as its callback: a PPP header comes first, `PppToEther`
accepts its tag, and when the decompression branch is taken the IPv4, UDP and SeqTs headers
follow it and nothing else. -/
def deliverable (d : PointToPointNetDevice) (packet : Packet) : Bool :=
  match packet.headers with
  | .ppp ppp :: rest =>
    match PppToEther ppp.m_protocol with
    | .ok _ => !(d.decompress && ppp.m_protocol == 16417) || isHeaderChain rest
    | .error _ => false
  | _ => false

end PointToPointNetDevice

/-! ## The codec pair defined in the source -/

/-- The bytes of a character array read as a C string: those before the first NUL. -/
def cString (s : List Nat) : List Nat :=
  s.takeWhile (fun c => c != 0)

/-- A character array of `cap` bytes with initial content `init` after `out` was written
from its start. -/
def writeBuffer (cap : Nat) (init out : List Nat) : List Nat :=
  (out ++ init.drop out.length).take cap

/-- Function `compressData (ucData)`. `bInit` is the content of the local array
`b[1106]` on entry. Reading `b` as a C string stops at the end of the array. -/
def compressData (env : Env) (bInit : List Nat) (ucData : List Nat) : List Nat :=
  -- strcpy(a, ucData.c_str())
  let a := cString ucData ++ [0]
  -- defstream.avail_in = strlen(a)+1, defstream.avail_out = sizeof(b)
  let avail_in := (cString a).length + 1
  let b := writeBuffer 1106 bInit (env.deflate (a.take avail_in))
  -- return std::string(b)
  cString b

/-- Function `decompressData (cData)`. `bInit` and `cInit` are the contents of the local
arrays `b[1106]` and `c[1106]` on entry. Reading `c` as a C string stops at the end of
the array. -/
def decompressData (env : Env) (bInit cInit : List Nat) (cData : List Nat) : List Nat :=
  -- strcpy(b, cData.c_str())
  let b := writeBuffer 1106 bInit (cString cData ++ [0])
  -- defstream.next_out = b: the offset of next_out in b
  let next_out := 0
  -- infstream.avail_in = (char*)defstream.next_out - b
  let avail_in := next_out - 0
  let c := writeBuffer 1106 cInit (env.inflate (b.take avail_in))
  -- return std::string(c)
  cString c

/-! ## Reading the trace -/

/-- The frames offered to the transmit queue (`m_queue->Enqueue`), in order. -/
def offeredToQueue (trace : List Event) : List Packet :=
  trace.filterMap (fun e => match e with
    | .enqueue p _ => some p
    | _ => none)

/-- The inputs of the calls to `zlib_compress_string`, in order. -/
def encodeCalls (trace : List Event) : List (List Nat) :=
  trace.filterMap (fun e => match e with
    | .zlibCompress x => some x
    | _ => none)

/-! ## Concrete collaborators and inputs -/

/-- An environment with the header sizes of ns-3 (PPP 2, IPv4 20, UDP 8, SeqTs 12 bytes), a
given string codec, eight time units per byte, a channel that accepts every frame and joins
this device (its device 0) to one other device, and an error model that flags none. -/
def exampleEnv (encode decode : List Nat → List Nat) : Env :=
  { pppHeaderSize := 2
    ipv4HeaderSize := 20
    udpHeaderSize := 8
    seqTsHeaderSize := 12
    zlib_compress_string := encode
    zlib_decompress_string := decode
    CalculateBytesTxTime := fun n => 8 * n
    channelTransmitStart := fun _ _ => true
    IsCorrupt := fun _ => false
    channelNDevices := 2
    channelDeviceIsThis := fun i => i == 0
    deflate := id
    inflate := id }

/-- A device on its node with the link up, READY, an empty queue of capacity 100, no error
model and no promiscuous callback. -/
def exampleDevice (compress decompress : Bool) : PointToPointNetDevice :=
  { m_txMachineState := .READY
    m_currentPkt := none
    m_linkUp := true
    m_queue := some { m_packets := [], m_maxSize := 100 }
    m_channel := true
    m_node := true
    m_tInterframeGap := 0
    m_receiveErrorModel := false
    m_promiscCallback := false
    compress := compress
    decompress := decompress
    trace := [] }

/-- An IPv4 header declaring `size` payload bytes. -/
def exampleIpv4 (size : Nat) : Ipv4Header :=
  { m_payloadSize := size, m_ttl := 64, m_protocol := 17, m_source := 1, m_destination := 2 }

/-- A UDP header declaring `size` payload bytes. -/
def exampleUdp (size : Nat) : UdpHeader :=
  { m_sourcePort := 49153, m_destinationPort := 9, m_payloadSize := size, m_checksum := 0 }

/-- A SeqTs header. -/
def exampleSeqTs : SeqTsHeader :=
  { m_seq := 7, m_ts := 2000 }

/-- A UDP datagram as the IPv4 layer hands it to `Send`: IPv4, UDP and SeqTs headers with
matching declared sizes around `data`. -/
def exampleDatagram (data : List Nat) : Packet :=
  { headers := [.ipv4 (exampleIpv4 (8 + 12 + data.length)),
      .udp (exampleUdp (12 + data.length)), .seqTs exampleSeqTs]
    payload := data }

/-! ## The transmit state machine -/

namespace PointToPointNetDevice

/-- Method `TransmitComplete ()`: the completion event scheduled by `TransmitStart`. -/
def TransmitComplete (env : Env) (d : PointToPointNetDevice) :
    Except Fatal PointToPointNetDevice :=
  if d.m_txMachineState ≠ .BUSY then .error .mustBeBusy
  else
    let d := { d with m_txMachineState := .READY }
    match d.m_currentPkt with
    | none => .error .currentPktZero
    | some currentPkt =>
      let d := d.emit (.phyTxEndTrace currentPkt)
      let d := { d with m_currentPkt := none }
      match d.m_queue with
      | none => .error .nullPointer
      | some q =>
        let (p, q) := q.Dequeue
        let d := ({ d with m_queue := some q }).emit (.dequeue p)
        match p with
        | none => .ok d
        | some p =>
          let d := (d.emit (.snifferTrace p)).emit (.promiscSnifferTrace p)
          match TransmitStart env d p with
          | .ok (_, d) => .ok d
          | .error e => .error e

end PointToPointNetDevice

/-- The protocol maps of the second source file, `src/point-to-point-net-device.cc`. -/
def TopLevel.PppToEther (proto : Nat) : Except Fatal Nat :=
  if proto = 0x0021 then .ok 0x0800
  else if proto = 0x4021 then .ok 0x0800
  else if proto = 0x0057 then .ok 0x86DD
  else .error .pppProtocolNotDefined1

/-- Function `EtherToPpp` of `src/point-to-point-net-device.cc`. -/
def TopLevel.EtherToPpp (proto : Nat) : Except Fatal Nat :=
  if proto = 0x0800 then .ok 0x0021
  else if proto = 0x0801 then .ok 0x4021
  else if proto = 0x86DD then .ok 0x0057
  else .error .pppProtocolNotDefined2

/-! ## More readings of the trace -/

/-- The frames on which the receive drop trace `m_phyRxDropTrace` fired, in order. -/
def rxDrops (trace : List Event) : List Packet :=
  trace.filterMap (fun e => match e with
    | .phyRxDropTrace p => some p
    | _ => none)

/-- The frames and protocol numbers handed to the receive callback `m_rxCallback`. -/
def rxCallbacks (trace : List Event) : List (Packet × Nat) :=
  trace.filterMap (fun e => match e with
    | .rxCallback p protocol => some (p, protocol)
    | _ => none)

/-- The frames and protocol numbers handed to the promiscuous callback. -/
def promiscCallbacks (trace : List Event) : List (Packet × Nat) :=
  trace.filterMap (fun e => match e with
    | .promiscCallback p protocol => some (p, protocol)
    | _ => none)

/-- The frames on which the transmit drop trace `m_macTxDropTrace` fired, in order. -/
def txDrops (trace : List Event) : List Packet :=
  trace.filterMap (fun e => match e with
    | .macTxDropTrace p => some p
    | _ => none)

/-- The delays of the completion events given to `Simulator::Schedule`, in order. -/
def scheduledEvents (trace : List Event) : List Nat :=
  trace.filterMap (fun e => match e with
    | .schedule txCompleteTime => some txCompleteTime
    | _ => none)

/-- The frames and durations handed to the channel, with its answers, in order. -/
def channelCalls (trace : List Event) : List (Packet × Nat × Bool) :=
  trace.filterMap (fun e => match e with
    | .channelTransmitStart p txTime result => some (p, txTime, result)
    | _ => none)

/-- The inputs of the calls to `zlib_decompress_string`, in order. -/
def decodeCalls (trace : List Event) : List (List Nat) :=
  trace.filterMap (fun e => match e with
    | .zlibDecompress x => some x
    | _ => none)

/-- The effect of one collaborator call on the transmit slot: `m_phyTxBeginTrace` is fired
by `TransmitStart` when it puts a frame in `m_currentPkt`, `m_phyTxEndTrace` by
`TransmitComplete` when it takes the frame out. The result is `none` when a frame is put in
an occupied slot or taken out of an empty one. -/
def slotStep (occupied : Bool) : Event → Option Bool
  | .phyTxBeginTrace _ => if occupied then none else some true
  | .phyTxEndTrace _ => if occupied then some false else none
  | _ => some occupied

/-- Whether the transmit slot is occupied at the end of a trace that starts with the slot
empty; `none` when at some instant of the trace a second frame was put in the slot. -/
def transmitSlot (trace : List Event) : Option Bool :=
  trace.foldl (fun o e => o.bind (fun occupied => slotStep occupied e)) (some false)

/-- The IPv4, UDP and SeqTs headers as the rebuild sequence of `Send` and `Receive` leaves
them around a new payload: the UDP size is set from the SeqTs header and the payload, the
IPv4 size from the UDP header, the SeqTs header and the payload. -/
def rebuiltChain (env : Env) (ipv4Header : Ipv4Header) (udpHeader : UdpHeader)
    (seqTsHeader : SeqTsHeader) (payload : List Nat) : List Header :=
  [.ipv4 (ipv4Header.SetPayloadSize
      (env.udpHeaderSize + env.seqTsHeaderSize + payload.length)),
    .udp (udpHeader.ForcePayloadSize (env.seqTsHeaderSize + payload.length)),
    .seqTs seqTsHeader]

/-! ## The life of a device -/

/-- A device and the number of its scheduled completion events that have fired. -/
structure Simulation where
  device : PointToPointNetDevice
  fired : Nat

/-- What happens to a device: the upper layer calls `Send`, or the simulator fires a
completion event. -/
inductive Action
  | send (packet : Packet) (protocolNumber : Nat)
  | complete

/-- A completion event can fire only when one was scheduled and has not fired yet. -/
def Simulation.enabled (s : Simulation) : Action → Prop
  | .send _ _ => True
  | .complete => s.fired < (scheduledEvents s.device.trace).length

/-- One action on the device. -/
def Simulation.step (env : Env) (s : Simulation) : Action → Except Fatal Simulation
  | .send packet protocolNumber =>
    match PointToPointNetDevice.Send env s.device packet protocolNumber with
    | .ok (_, d) => .ok { device := d, fired := s.fired }
    | .error e => .error e
  | .complete =>
    match PointToPointNetDevice.TransmitComplete env s.device with
    | .ok d => .ok { device := d, fired := s.fired + 1 }
    | .error e => .error e

/-- The device as its constructor and configuration leave it: READY, no current frame, an
empty queue if one is set, no call made yet. Link, channel, callbacks and the two
compression flags are as configured. -/
def constructed (d : PointToPointNetDevice) : Prop :=
  d.m_txMachineState = .READY ∧ d.m_currentPkt = none ∧
    (∀ q, d.m_queue = some q → q.m_packets = []) ∧ d.trace = []

/-- The states a constructed device reaches by `Send` calls and firings of scheduled
completion events, in any order. -/
inductive Reachable (env : Env) : Simulation → Prop
  | start (d : PointToPointNetDevice) : constructed d → Reachable env { device := d, fired := 0 }
  | next (s s' : Simulation) (a : Action) :
      Reachable env s → s.enabled a → s.step env a = .ok s' → Reachable env s'

/-! ## Disposal -/

namespace PointToPointNetDevice

/-- Method `DoDispose ()`: the pointers the device holds are released. `m_txMachineState`
is not touched, and a completion event that is pending stays scheduled. -/
def DoDispose (d : PointToPointNetDevice) : PointToPointNetDevice :=
  { d with
    m_node := false
    m_channel := false
    m_receiveErrorModel := false
    m_currentPkt := none
    m_queue := none }

end PointToPointNetDevice

/-! ## Runs that keep the device at a failure

The methods above return `Except.error` when a run ends in a failure, and the device is
then lost. The definitions of this section follow the same source lines and keep the device
as the run left it, with the calls made up to the failure in its trace. -/

/-- How a run of a method ended: the device as the run left it, and the value returned or
the failure that ended the run. -/
structure Ended (α : Type) where
  device : PointToPointNetDevice
  result : Except Fatal α

/-- The result of a run without the device at a failure. -/
def Ended.toExcept {α : Type} (r : Ended α) : Except Fatal (α × PointToPointNetDevice) :=
  match r.result with
  | .ok a => .ok (a, r.device)
  | .error e => .error e

/-- The device a run of a `void` method returns, if it returns. -/
def Ended.toDevice (r : Ended Unit) : Except Fatal PointToPointNetDevice :=
  match r.result with
  | .ok _ => .ok r.device
  | .error e => .error e

namespace PointToPointNetDevice

/-- Method `TransmitStart (p)`, keeping the device at a failure. -/
def TransmitStartRun (env : Env) (d : PointToPointNetDevice) (p : Packet) : Ended Bool :=
  if d.m_txMachineState ≠ .READY then ⟨d, .error .mustBeReady⟩
  else
    let d1 := ({ d with m_txMachineState := .BUSY, m_currentPkt := some p }).emit
      (.phyTxBeginTrace p)
    let txTime := env.CalculateBytesTxTime (p.GetSize env)
    let txCompleteTime := txTime + d1.m_tInterframeGap
    let d2 := d1.emit (.schedule txCompleteTime)
    if d2.m_channel = false then ⟨d2, .error .nullPointer⟩
    else
      let result := env.channelTransmitStart p txTime
      let d3 := d2.emit (.channelTransmitStart p txTime result)
      if result = false then ⟨d3.emit (.phyTxDropTrace p), .ok result⟩
      else ⟨d3, .ok result⟩

/-- Method `TransmitComplete ()`, keeping the device at a failure. -/
def TransmitCompleteRun (env : Env) (d : PointToPointNetDevice) : Ended Unit :=
  if d.m_txMachineState ≠ .BUSY then ⟨d, .error .mustBeBusy⟩
  else
    let d := { d with m_txMachineState := .READY }
    match d.m_currentPkt with
    | none => ⟨d, .error .currentPktZero⟩
    | some currentPkt =>
      let d := d.emit (.phyTxEndTrace currentPkt)
      let d := { d with m_currentPkt := none }
      match d.m_queue with
      | none => ⟨d, .error .nullPointer⟩
      | some q =>
        let (p, q) := q.Dequeue
        let d := ({ d with m_queue := some q }).emit (.dequeue p)
        match p with
        | none => ⟨d, .ok ()⟩
        | some p =>
          let d := (d.emit (.snifferTrace p)).emit (.promiscSnifferTrace p)
          let started := TransmitStartRun env d p
          match started.result with
          | .ok _ => ⟨started.device, .ok ()⟩
          | .error e => ⟨started.device, .error e⟩

/-- The compression branch of `Send`, keeping the device at a failure. -/
def SendCompressRun (env : Env) (d : PointToPointNetDevice) (packet : Packet) :
    Ended Packet :=
  match packet.RemoveHeaderPpp with
  | .error e => ⟨d, .error e⟩
  | .ok (_, packet) =>
  match packet.RemoveHeaderIpv4 with
  | .error e => ⟨d, .error e⟩
  | .ok (ipv4Header, packet) =>
  match packet.RemoveHeaderUdp with
  | .error e => ⟨d, .error e⟩
  | .ok (udpHeader, packet) =>
  match packet.RemoveHeaderSeqTs with
  | .error e => ⟨d, .error e⟩
  | .ok (seqTsHeader, packet) =>
  match packet.CopyData with
  | .error e => ⟨d, .error e⟩
  | .ok data =>
    let protocol := protocolString
    let ucData := protocol ++ data
    let cData := env.zlib_compress_string ucData
    let d := d.emit (.zlibCompress ucData)
    let newPacket := Packet.Create cData
    let newPacket := newPacket.AddHeader (.seqTs seqTsHeader)
    let udpHeader := udpHeader.ForcePayloadSize (newPacket.GetSize env)
    let newPacket := newPacket.AddHeader (.udp udpHeader)
    let ipv4Header := ipv4Header.SetPayloadSize (newPacket.GetSize env)
    let newPacket := newPacket.AddHeader (.ipv4 ipv4Header)
    match AddHeader newPacket 2049 with
    | .error e => ⟨d, .error e⟩
    | .ok newPacket => ⟨d, .ok newPacket⟩

/-- The end of `Send`, from `m_macTxTrace (packet)` on, keeping the device at a failure. -/
def SendEnqueueRun (env : Env) (d : PointToPointNetDevice) (packet : Packet) : Ended Bool :=
  let d := d.emit (.macTxTrace packet)
  match d.m_queue with
  | none => ⟨d, .error .nullPointer⟩
  | some q =>
    let (accepted, q) := q.Enqueue packet
    let d := ({ d with m_queue := some q }).emit (.enqueue packet accepted)
    if accepted = true then
      if d.m_txMachineState = .READY then
        let (p, q) := q.Dequeue
        let d := ({ d with m_queue := some q }).emit (.dequeue p)
        match p with
        | none => ⟨d, .error .nullPointer⟩
        | some packet =>
          let d := (d.emit (.snifferTrace packet)).emit (.promiscSnifferTrace packet)
          TransmitStartRun env d packet
      else
        ⟨d, .ok true⟩
    else
      ⟨d.emit (.macTxDropTrace packet), .ok false⟩

/-- Method `Send (packet, dest, protocolNumber)`, keeping the device at a failure. -/
def SendRun (env : Env) (d : PointToPointNetDevice) (packet : Packet)
    (protocolNumber : Nat) : Ended Bool :=
  if d.m_linkUp = false then ⟨d.emit (.macTxDropTrace packet), .ok false⟩
  else
    match AddHeader packet protocolNumber with
    | .error e => ⟨d, .error e⟩
    | .ok packet =>
      match packet.PeekHeaderPpp with
      | .error e => ⟨d, .error e⟩
      | .ok ppp =>
        let branch : Ended Packet :=
          if d.compress = true ∧ ppp.m_protocol = 33 then SendCompressRun env d packet
          else ⟨d, .ok packet⟩
        match branch.result with
        | .error e => ⟨branch.device, .error e⟩
        | .ok packet => SendEnqueueRun env branch.device packet

/-- The decompression branch of `Receive`, keeping the device at a failure. -/
def ReceiveDecompressRun (env : Env) (d : PointToPointNetDevice) (packet : Packet) :
    Ended Packet :=
  match packet.RemoveHeaderPpp with
  | .error e => ⟨d, .error e⟩
  | .ok (_, packet) =>
  match packet.RemoveHeaderIpv4 with
  | .error e => ⟨d, .error e⟩
  | .ok (ipv4Header, packet) =>
  match packet.RemoveHeaderUdp with
  | .error e => ⟨d, .error e⟩
  | .ok (udpHeader, packet) =>
  match packet.RemoveHeaderSeqTs with
  | .error e => ⟨d, .error e⟩
  | .ok (seqTsHeader, packet) =>
  match packet.CopyData with
  | .error e => ⟨d, .error e⟩
  | .ok cData =>
    let ucData := env.zlib_decompress_string cData
    let d := d.emit (.zlibDecompress cData)
    match substr ucData 0 6 with
    | .error e => ⟨d, .error e⟩
    | .ok protocolData =>
    match substr ucData protocolData.length ucData.length with
    | .error e => ⟨d, .error e⟩
    | .ok originalData =>
      let newPacket := Packet.Create originalData
      let newPacket := newPacket.AddHeader (.seqTs seqTsHeader)
      let udpHeader := udpHeader.ForcePayloadSize (newPacket.GetSize env)
      let newPacket := newPacket.AddHeader (.udp udpHeader)
      let ipv4Header := ipv4Header.SetPayloadSize (newPacket.GetSize env)
      let newPacket := newPacket.AddHeader (.ipv4 ipv4Header)
      match AddHeader newPacket 2048 with
      | .error e => ⟨d, .error e⟩
      | .ok newPacket => ⟨d, .ok newPacket⟩

/-- Method `Receive (packet)`, keeping the device at a failure. -/
def ReceiveRun (env : Env) (d : PointToPointNetDevice) (packet : Packet) : Ended Unit :=
  if d.m_node = false then ⟨d, .error .nullPointer⟩
  else if d.m_receiveErrorModel = true ∧ env.IsCorrupt packet = true then
    ⟨d.emit (.phyRxDropTrace packet), .ok ()⟩
  else
    match packet.PeekHeaderPpp with
    | .error e => ⟨d, .error e⟩
    | .ok ppp =>
      let branch : Ended Packet :=
        if d.decompress = true ∧ ppp.m_protocol = 16417 then
          ReceiveDecompressRun env d packet
        else ⟨d, .ok packet⟩
      match branch.result with
      | .error e => ⟨branch.device, .error e⟩
      | .ok packet =>
        let d := ((branch.device.emit (.snifferTrace packet)).emit
          (.promiscSnifferTrace packet)).emit (.phyRxEndTrace packet)
        let originalPacket := packet
        match ProcessHeader packet with
        | .error e => ⟨d, .error e⟩
        | .ok (packet, protocol) =>
          let promisc : Ended Unit :=
            if d.m_promiscCallback = true then
              let d := d.emit (.macPromiscRxTrace originalPacket)
              match GetRemote env d with
              | .error e => ⟨d, .error e⟩
              | .ok _ => ⟨d.emit (.promiscCallback packet protocol), .ok ()⟩
            else ⟨d, .ok ()⟩
          match promisc.result with
          | .error e => ⟨promisc.device, .error e⟩
          | .ok _ =>
            let d := promisc.device.emit (.macRxTrace originalPacket)
            match GetRemote env d with
            | .error e => ⟨d, .error e⟩
            | .ok _ => ⟨d.emit (.rxCallback packet protocol), .ok ()⟩

end PointToPointNetDevice

/-! ## The second source file

`src/point-to-point-net-device.cc` differs from the file embedded above in the bodies of the
compression branch of `Send` and of the decompression branch of `Receive`; the rest of the
two methods, `TransmitStart` and `TransmitComplete` are the same text. -/

namespace TopLevel

/-- The serialized headers of a frame, outermost first. What a header serializes to is a
parameter. -/
def serializeHeaders (serialize : Header → List Nat) : List Header → List Nat
  | [] => []
  | h :: rest => serialize h ++ serializeHeaders serialize rest

/-- Modelled from the spec: `Packet::CopyData (buffer, GetSize ())` followed by
`std::string (buffer, buffer + GetSize ())` on a frame that may still hold headers: the
bytes of the frame, the serialized headers first and the payload after them. -/
def CopyData (serialize : Header → List Nat) (p : Packet) : List Nat :=
  serializeHeaders serialize p.headers ++ p.payload

/-- The expression `size-1100` of `Send`, where `size` is a `uint32_t`: the difference is
taken modulo 2^32. -/
def payloadStart (size : Nat) : Nat :=
  (size + 2 ^ 32 - 1100) % 2 ^ 32

/-- Method `AddHeader (p, protocolNumber)` of `src/point-to-point-net-device.cc`. -/
def AddHeader (p : Packet) (protocolNumber : Nat) : Except Fatal Packet :=
  match EtherToPpp protocolNumber with
  | .ok tag => .ok (p.AddHeader (.ppp { m_protocol := tag }))
  | .error e => .error e

/-- Method `ProcessHeader (p, param)` of `src/point-to-point-net-device.cc`. -/
def ProcessHeader (p : Packet) : Except Fatal (Packet × Nat) :=
  match p.RemoveHeaderPpp with
  | .ok (ppp, p1) =>
    match PppToEther ppp.m_protocol with
    | .ok param => .ok (p1, param)
    | .error e => .error e
  | .error e => .error e

/-- The body of `if (compress == true && ppp.GetProtocol() == 33)` in `Send` of
`src/point-to-point-net-device.cc`: remove the PPP header, take `substr (size-1100, size)`
of the bytes that remain, put "0x0021" in front, deflate the result as a C string into an
array of the same size, read the array back as a C string, and put the IPv4, UDP and SeqTs
headers of the packet, as they are, and the PPP tag of protocol number 2049 around it.
`compressedInit` is the content of `compressed_char_array` on entry. -/
def SendCompress (env : Env) (serialize : Header → List Nat) (compressedInit : List Nat)
    (packet : Packet) : Except Fatal Packet := do
  let (_, packet) ← packet.RemoveHeaderPpp
  -- uint32_t size = packet->CopyData(buffer, packet->GetSize ())
  let str := CopyData serialize packet
  let size := str.length % 2 ^ 32
  let str2 ← PointToPointNetDevice.substr str (payloadStart size) size
  let str2 := PointToPointNetDevice.protocolString ++ str2
  let n := str2.length
  -- strcpy(uncompressed_char_array, str2.c_str())
  let uncompressed_char_array := cString str2 ++ [0]
  -- defstream.avail_in = strlen(uncompressed_char_array)+1
  let avail_in := (cString uncompressed_char_array).length + 1
  -- defstream.avail_out = sizeof(compressed_char_array)
  let compressed_char_array :=
    writeBuffer (n + 1) compressedInit (env.deflate (uncompressed_char_array.take avail_in))
  -- std::string str3 = compressed_char_array
  let str3 := cString compressed_char_array
  let p := Packet.Create str3
  let (ipHeader, packet) ← packet.RemoveHeaderIpv4
  let (udpHeader, packet) ← packet.RemoveHeaderUdp
  let (seqtsHeader, _) ← packet.RemoveHeaderSeqTs
  let p := p.AddHeader (.seqTs seqtsHeader)
  let p := p.AddHeader (.udp udpHeader)
  let p := p.AddHeader (.ipv4 ipHeader)
  AddHeader p 2049

/-- Method `Send (packet, dest, protocolNumber)` of `src/point-to-point-net-device.cc`. -/
def Send (env : Env) (serialize : Header → List Nat) (compressedInit : List Nat)
    (d : PointToPointNetDevice) (packet : Packet) (protocolNumber : Nat) :
    Except Fatal (Bool × PointToPointNetDevice) := do
  if d.m_linkUp = false then
    return (false, d.emit (.macTxDropTrace packet))
  let packet ← AddHeader packet protocolNumber
  let ppp ← packet.PeekHeaderPpp
  let packet ←
    if d.compress = true ∧ ppp.m_protocol = 33 then
      SendCompress env serialize compressedInit packet
    else pure packet
  PointToPointNetDevice.SendEnqueue env d packet

/-- The body of `if (decompress == true && ppp.GetProtocol() == 16417)` in `Receive` of
`src/point-to-point-net-device.cc`: strip the four headers, repeat the bytes that remain
five times ("should be uncompressed data"), and put the IPv4, UDP and SeqTs headers, as they
are, and the PPP tag of protocol number 2048 around the result. -/
def ReceiveDecompress (serialize : Header → List Nat) (packet : Packet) :
    Except Fatal Packet := do
  let (_, packet) ← packet.RemoveHeaderPpp
  let (ipv4Header, packet) ← packet.RemoveHeaderIpv4
  let (udpHeader, packet) ← packet.RemoveHeaderUdp
  let (seqtsHeader, packet) ← packet.RemoveHeaderSeqTs
  let str := CopyData serialize packet
  -- str2 = str + str + str + str + str
  let str2 := str ++ str ++ str ++ str ++ str
  let puc := Packet.Create str2
  let puc := puc.AddHeader (.seqTs seqtsHeader)
  let puc := puc.AddHeader (.udp udpHeader)
  let puc := puc.AddHeader (.ipv4 ipv4Header)
  AddHeader puc 2048

/-- Method `Receive (packet)` of `src/point-to-point-net-device.cc`, with the dereference of
`m_node` by its first loop and `GetRemote ()` evaluated for each of the two callbacks. -/
def Receive (env : Env) (serialize : Header → List Nat) (d : PointToPointNetDevice)
    (packet : Packet) : Except Fatal PointToPointNetDevice := do
  if d.m_node = false then
    Except.error Fatal.nullPointer
  else
  if d.m_receiveErrorModel = true ∧ env.IsCorrupt packet = true then
    return d.emit (.phyRxDropTrace packet)
  let ppp ← packet.PeekHeaderPpp
  let packet ←
    if d.decompress = true ∧ ppp.m_protocol = 16417 then ReceiveDecompress serialize packet
    else pure packet
  let d := ((d.emit (.snifferTrace packet)).emit (.promiscSnifferTrace packet)).emit
    (.phyRxEndTrace packet)
  let originalPacket := packet
  let (packet, protocol) ← ProcessHeader packet
  let d ←
    if d.m_promiscCallback = true then do
      let d := d.emit (.macPromiscRxTrace originalPacket)
      let _ ← PointToPointNetDevice.GetRemote env d
      pure (d.emit (.promiscCallback packet protocol))
    else pure d
  let d := d.emit (.macRxTrace originalPacket)
  let _ ← PointToPointNetDevice.GetRemote env d
  return d.emit (.rxCallback packet protocol)

end TopLevel

/-! ## Frames on their way through the queue -/

/-- The frames the transmit queue accepted (`m_queue->Enqueue` returned true), in order. -/
def acceptedByQueue (trace : List Event) : List Packet :=
  trace.filterMap (fun e => match e with
    | .enqueue p true => some p
    | _ => none)

/-- The frames handed to the channel by `TransmitStart`, in order. -/
def handedToChannel (trace : List Event) : List Packet :=
  trace.filterMap (fun e => match e with
    | .channelTransmitStart p _ _ => some p
    | _ => none)

/-- The frames on which the transmit drop trace `m_phyTxDropTrace` fired, in order. -/
def phyTxDrops (trace : List Event) : List Packet :=
  trace.filterMap (fun e => match e with
    | .phyTxDropTrace p => some p
    | _ => none)

/-- The frames waiting in the transmit queue of a device. -/
def PointToPointNetDevice.queued (d : PointToPointNetDevice) : List Packet :=
  match d.m_queue with
  | some q => q.m_packets
  | none => []

/-! ## More concrete inputs -/

/-- A serialization of the headers for concrete inputs: as many zero bytes as the header is
long in ns-3 (PPP 2, IPv4 20, UDP 8, SeqTs 12 bytes). -/
def exampleSerialize : Header → List Nat
  | .ppp _ => List.replicate 2 0
  | .ipv4 _ => List.replicate 20 0
  | .udp _ => List.replicate 8 0
  | .seqTs _ => List.replicate 12 0

/-- A payload of 1100 bytes, the size the application of the repository sends: 1099 times
the letter a, then the letter b. -/
def examplePayload : List Nat :=
  List.replicate 1099 97 ++ [98]

/-! ## Lemmas about the operations -/

namespace PointToPointNetDevice

@[simp] theorem emit_trace (d : PointToPointNetDevice) (e : Event) :
    (d.emit e).trace = d.trace ++ [e] := rfl
@[simp] theorem emit_m_queue (d : PointToPointNetDevice) (e : Event) :
    (d.emit e).m_queue = d.m_queue := rfl
@[simp] theorem emit_m_txMachineState (d : PointToPointNetDevice) (e : Event) :
    (d.emit e).m_txMachineState = d.m_txMachineState := rfl
@[simp] theorem emit_m_channel (d : PointToPointNetDevice) (e : Event) :
    (d.emit e).m_channel = d.m_channel := rfl
@[simp] theorem emit_m_promiscCallback (d : PointToPointNetDevice) (e : Event) :
    (d.emit e).m_promiscCallback = d.m_promiscCallback := rfl

@[simp] theorem emit_m_node (d : PointToPointNetDevice) (e : Event) :
    (d.emit e).m_node = d.m_node := rfl

/-- On an attached device `GetRemote ()` returns, with the same value for every device
that holds the same channel. -/
theorem GetRemote_attached (env : Env) (d : PointToPointNetDevice) (hatt : attached env d) :
    ∃ r, ∀ d' : PointToPointNetDevice, d'.m_channel = d.m_channel →
      GetRemote env d' = .ok r := by
  obtain ⟨-, hch, h2, hother⟩ := hatt
  have hr : List.range 2 = [0, 1] := rfl
  by_cases h0 : env.channelDeviceIsThis 0 = false
  · refine ⟨0, fun d' hd' => ?_⟩
    unfold GetRemote
    rw [hd', hch, h2, hr]
    simp [List.find?, h0]
  · have h1 : env.channelDeviceIsThis 1 = false := by
      rcases hother with h | h
      · exact absurd h h0
      · exact h
    refine ⟨1, fun d' hd' => ?_⟩
    unfold GetRemote
    rw [hd', hch, h2, hr]
    simp at h0
    simp [List.find?, h0, h1]

/-- The compression branch on a frame of PPP, IPv4, UDP and SeqTs headers around `data`. -/
theorem SendCompress_frame (env : Env) (d : PointToPointNetDevice) (ppp : PppHeader)
    (ipv4Header : Ipv4Header) (udpHeader : UdpHeader) (seqTsHeader : SeqTsHeader)
    (data : List Nat) :
    SendCompress env d
        ⟨[.ppp ppp, .ipv4 ipv4Header, .udp udpHeader, .seqTs seqTsHeader], data⟩ =
      .ok (⟨[.ppp ⟨0x4021⟩,
            .ipv4 (ipv4Header.SetPayloadSize (env.udpHeaderSize + env.seqTsHeaderSize +
              (env.zlib_compress_string (protocolString ++ data)).length)),
            .udp (udpHeader.ForcePayloadSize (env.seqTsHeaderSize +
              (env.zlib_compress_string (protocolString ++ data)).length)),
            .seqTs seqTsHeader],
          env.zlib_compress_string (protocolString ++ data)⟩,
        d.emit (.zlibCompress (protocolString ++ data))) := by
  simp [SendCompress, Packet.RemoveHeaderPpp, Packet.RemoveHeaderIpv4, Packet.RemoveHeaderUdp,
    Packet.RemoveHeaderSeqTs, Packet.CopyData, Packet.Create, Packet.AddHeader, Packet.GetSize,
    Header.GetSerializedSize, AddHeader, EtherToPpp, bind, Except.bind, pure, Except.pure,
    Nat.add_assoc]

/-- The first six characters: `substr (0, 6)` never throws. -/
theorem substr_head (s : List Nat) : substr s 0 6 = .ok (s.take 6) := by
  simp [substr]

/-- The rest after the first six characters: the second `substr` of `Receive` never throws. -/
theorem substr_tail (s : List Nat) : substr s (s.take 6).length s.length = .ok (s.drop 6) := by
  unfold substr
  have h : ¬ (s.take 6).length > s.length := by simp [List.length_take]
  rw [if_neg h]
  congr 1
  rw [List.take_of_length_le (by simp)]
  simp only [List.length_take]
  rcases Nat.le_total 6 s.length with h6 | h6
  · rw [Nat.min_eq_left h6]
  · rw [Nat.min_eq_right h6, List.drop_of_length_le (Nat.le_refl _), List.drop_of_length_le h6]

/-- The decompression branch on a frame of PPP, IPv4, UDP and SeqTs headers around `cData`. -/
theorem ReceiveDecompress_frame (env : Env) (d : PointToPointNetDevice) (ppp : PppHeader)
    (ipv4Header : Ipv4Header) (udpHeader : UdpHeader) (seqTsHeader : SeqTsHeader)
    (cData : List Nat) :
    ReceiveDecompress env d
        ⟨[.ppp ppp, .ipv4 ipv4Header, .udp udpHeader, .seqTs seqTsHeader], cData⟩ =
      .ok (⟨[.ppp ⟨0x0021⟩,
            .ipv4 (ipv4Header.SetPayloadSize (env.udpHeaderSize + env.seqTsHeaderSize +
              ((env.zlib_decompress_string cData).drop 6).length)),
            .udp (udpHeader.ForcePayloadSize (env.seqTsHeaderSize +
              ((env.zlib_decompress_string cData).drop 6).length)),
            .seqTs seqTsHeader],
          (env.zlib_decompress_string cData).drop 6⟩,
        d.emit (.zlibDecompress cData)) := by
  simp only [ReceiveDecompress, Packet.RemoveHeaderPpp, Packet.RemoveHeaderIpv4,
    Packet.RemoveHeaderUdp, Packet.RemoveHeaderSeqTs, Packet.CopyData, bind, Except.bind,
    substr_head, substr_tail]
  simp [Packet.Create, Packet.AddHeader, Packet.GetSize,
    Header.GetSerializedSize, AddHeader, EtherToPpp, pure, Except.pure,
    Nat.add_assoc]

/-- The result of `TransmitStart` on a READY device with a channel. -/
theorem TransmitStart_ready (env : Env) (d : PointToPointNetDevice) (p : Packet)
    (hr : d.m_txMachineState = .READY) (hch : d.m_channel = true) :
    TransmitStart env d p =
      .ok (env.channelTransmitStart p (env.CalculateBytesTxTime (p.GetSize env)),
        { d with
          m_txMachineState := .BUSY
          m_currentPkt := some p
          trace := d.trace ++
            [.phyTxBeginTrace p,
              .schedule (env.CalculateBytesTxTime (p.GetSize env) + d.m_tInterframeGap),
              .channelTransmitStart p (env.CalculateBytesTxTime (p.GetSize env))
                (env.channelTransmitStart p (env.CalculateBytesTxTime (p.GetSize env)))] ++
            (if env.channelTransmitStart p (env.CalculateBytesTxTime (p.GetSize env)) = false
              then [.phyTxDropTrace p] else []) }) := by
  cases hres : env.channelTransmitStart p (env.CalculateBytesTxTime (p.GetSize env)) <;>
    simp [TransmitStart, emit, hr, hch, hres]

/-- A returning `TransmitStart` was entered READY and with a channel. -/
theorem TransmitStart_ok (env : Env) (d : PointToPointNetDevice) (p : Packet) (r : Bool)
    (d' : PointToPointNetDevice) (h : TransmitStart env d p = .ok (r, d')) :
    d.m_txMachineState = .READY ∧ d.m_channel = true := by
  by_cases hr : d.m_txMachineState = .READY
  · by_cases hch : d.m_channel = true
    · exact ⟨hr, hch⟩
    · simp [TransmitStart, emit, hr, hch] at h
  · simp [TransmitStart, hr] at h

/-- A returning `TransmitStart` offers nothing to the queue and calls no codec. -/
theorem TransmitStart_trace (env : Env) (d : PointToPointNetDevice) (p : Packet) (r : Bool)
    (d' : PointToPointNetDevice) (h : TransmitStart env d p = .ok (r, d')) :
    offeredToQueue d'.trace = offeredToQueue d.trace ∧
      encodeCalls d'.trace = encodeCalls d.trace := by
  obtain ⟨hr, hch⟩ := TransmitStart_ok env d p r d' h
  rw [TransmitStart_ready env d p hr hch] at h
  injection h with h
  injection h with h1 h2
  subst h2
  split <;> simp [offeredToQueue, encodeCalls, List.filterMap_append]

/-- The end of `Send` offers exactly its frame to the queue and calls no codec. -/
theorem SendEnqueue_trace (env : Env) (d : PointToPointNetDevice) (g : Packet) (r : Bool)
    (d' : PointToPointNetDevice) (h : SendEnqueue env d g = .ok (r, d')) :
    offeredToQueue d'.trace = offeredToQueue d.trace ++ [g] ∧
      encodeCalls d'.trace = encodeCalls d.trace := by
  unfold SendEnqueue at h
  simp only [emit_m_queue] at h
  split at h
  · cases h
  · split at h
    · split at h
      · split at h
        · cases h
        · have := TransmitStart_trace _ _ _ _ _ h
          simpa [offeredToQueue, encodeCalls, List.filterMap_append] using this
      · injection h with h
        injection h with h1 h2
        subst h2
        simp [offeredToQueue, encodeCalls, List.filterMap_append]
    · injection h with h
      injection h with h1 h2
      subst h2
      simp [offeredToQueue, encodeCalls, List.filterMap_append]

/-- The end of `Send` returns when the queue exists and a READY device has a channel. -/
theorem SendEnqueue_returns (env : Env) (d : PointToPointNetDevice) (g : Packet) (q : Queue)
    (hq : d.m_queue = some q) (hch : d.m_txMachineState = .READY → d.m_channel = true) :
    ∃ r d', SendEnqueue env d g = .ok (r, d') := by
  unfold SendEnqueue
  simp only [emit_m_queue, hq]
  by_cases hlt : q.m_packets.length < q.m_maxSize
  · simp only [Queue.Enqueue, hlt, if_true]
    by_cases hr : d.m_txMachineState = .READY
    · simp only [emit_m_txMachineState, hr, if_true]
      cases hp : q.m_packets with
      | nil =>
        simp only [Queue.Dequeue, hp, List.nil_append]
        exact ⟨_, _, TransmitStart_ready _ _ _ (by simp [hr]) (by simp [hch hr])⟩
      | cons a l =>
        simp only [Queue.Dequeue, hp, List.cons_append]
        exact ⟨_, _, TransmitStart_ready _ _ _ (by simp [hr]) (by simp [hch hr])⟩
    · simp only [emit_m_txMachineState, hr, if_false]
      exact ⟨_, _, rfl⟩
  · simp only [Queue.Enqueue, hlt, if_false]
    exact ⟨_, _, rfl⟩

/-- The stages of `Send` when the link is up. -/
theorem Send_linkUp (env : Env) (d : PointToPointNetDevice) (packet : Packet)
    (protocolNumber : Nat) (hup : d.m_linkUp = true) :
    Send env d packet protocolNumber =
      match EtherToPpp protocolNumber with
      | .error e => .error e
      | .ok tag =>
        if d.compress = true ∧ tag = 33 then
          match SendCompress env d (packet.AddHeader (.ppp ⟨tag⟩)) with
          | .error e => .error e
          | .ok (g, d1) => SendEnqueue env d1 g
        else SendEnqueue env d (packet.AddHeader (.ppp ⟨tag⟩)) := by
  cases htag : EtherToPpp protocolNumber with
  | error e => simp [Send, hup, AddHeader, htag, bind, Except.bind, pure, Except.pure]
  | ok tag =>
    by_cases hc : d.compress = true ∧ tag = 33
    · cases hsc : SendCompress env d (packet.AddHeader (.ppp ⟨tag⟩)) with
      | error e =>
        simp [Send, hup, AddHeader, htag, bind, Except.bind, pure, Except.pure,
          Packet.PeekHeaderPpp, Packet.AddHeader, hc] at hsc ⊢
        simp [hsc]
      | ok v =>
        simp [Send, hup, AddHeader, htag, bind, Except.bind, pure, Except.pure,
          Packet.PeekHeaderPpp, Packet.AddHeader, hc] at hsc ⊢
        simp [hsc]
    · simp only [Send, hup, AddHeader, htag, bind, Except.bind, pure, Except.pure,
        Packet.PeekHeaderPpp, Packet.AddHeader, hc, if_false]
      simp

/-- The example device is attached in the example environment. -/
theorem exampleDevice_attached (encode decode : List Nat → List Nat)
    (compress decompress : Bool) :
    attached (exampleEnv encode decode) (exampleDevice compress decompress) :=
  ⟨rfl, rfl, rfl, Or.inr rfl⟩

/-- Without its node `Receive` ends in a null pointer, whatever the frame. -/
theorem Receive_no_node (env : Env) (d : PointToPointNetDevice) (packet : Packet)
    (h : d.m_node = false) : Receive env d packet = .error .nullPointer := by
  simp [Receive, h]

/-- A disposed device has no node: `Receive` ends in a null pointer. -/
theorem Receive_disposed (env : Env) (d : PointToPointNetDevice) (packet : Packet) :
    Receive env (DoDispose d) packet = .error .nullPointer :=
  Receive_no_node env (DoDispose d) packet rfl

/-- Without its channel `GetRemote` ends in a null pointer. -/
theorem GetRemote_no_channel (env : Env) (d : PointToPointNetDevice)
    (h : d.m_channel = false) : GetRemote env d = .error .nullPointer := by
  simp [GetRemote, h]

/-- On a device with its node and without its channel, `Receive` of a frame that is not
flagged and does not take the decompression branch ends in the null pointer of `GetRemote`:
no callback is reached. -/
theorem Receive_no_channel (env : Env) (d : PointToPointNetDevice) (tag protocol : Nat)
    (headers : List Header) (payload : List Nat) (hnode : d.m_node = true)
    (hch : d.m_channel = false)
    (hnc : ¬ (d.m_receiveErrorModel = true ∧
      env.IsCorrupt ⟨.ppp ⟨tag⟩ :: headers, payload⟩ = true))
    (hbranch : ¬ (d.decompress = true ∧ tag = 16417))
    (hproto : PppToEther tag = .ok protocol) :
    Receive env d ⟨.ppp ⟨tag⟩ :: headers, payload⟩ = .error .nullPointer := by
  have hgr : ∀ d' : PointToPointNetDevice, d'.m_channel = d.m_channel →
      GetRemote env d' = .error .nullPointer :=
    fun d' hd' => GetRemote_no_channel env d' (hd'.trans hch)
  cases hp : d.m_promiscCallback <;>
    simp [Receive, hnode, hnc, hbranch, Packet.PeekHeaderPpp, ProcessHeader, emit,
      Packet.RemoveHeaderPpp, hproto, hp, hgr, bind, Except.bind, pure, Except.pure]

/-- The result of `Receive` on an attached device when the frame is not corrupt and the
decompression branch is not taken. -/
theorem Receive_pass (env : Env) (d : PointToPointNetDevice) (tag protocol : Nat)
    (headers : List Header) (payload : List Nat) (hatt : attached env d)
    (hnc : d.m_receiveErrorModel = false ∨
      env.IsCorrupt ⟨.ppp ⟨tag⟩ :: headers, payload⟩ = false)
    (hbranch : ¬ (d.decompress = true ∧ tag = 16417))
    (hproto : PppToEther tag = .ok protocol) :
    Receive env d ⟨.ppp ⟨tag⟩ :: headers, payload⟩ =
      .ok { d with
        trace := d.trace ++
          [.snifferTrace ⟨.ppp ⟨tag⟩ :: headers, payload⟩,
            .promiscSnifferTrace ⟨.ppp ⟨tag⟩ :: headers, payload⟩,
            .phyRxEndTrace ⟨.ppp ⟨tag⟩ :: headers, payload⟩] ++
          (if d.m_promiscCallback = true then
            [.macPromiscRxTrace ⟨.ppp ⟨tag⟩ :: headers, payload⟩,
              .promiscCallback ⟨headers, payload⟩ protocol]
           else []) ++
          [.macRxTrace ⟨.ppp ⟨tag⟩ :: headers, payload⟩,
            .rxCallback ⟨headers, payload⟩ protocol] } := by
  have hnc' : ¬ (d.m_receiveErrorModel = true ∧
      env.IsCorrupt ⟨.ppp ⟨tag⟩ :: headers, payload⟩ = true) := by
    rintro ⟨h1, h2⟩
    rcases hnc with h | h
    · simp [h1] at h
    · simp [h2] at h
  obtain ⟨r, hr⟩ := GetRemote_attached env d hatt
  have hnode : d.m_node = true := hatt.1
  cases hp : d.m_promiscCallback <;>
    simp [Receive, hnode, hnc', hbranch, Packet.PeekHeaderPpp, ProcessHeader, emit,
      Packet.RemoveHeaderPpp, hproto, bind, Except.bind, pure, Except.pure, hp, hr]

/-- The compression branch returns only on frames of PPP, IPv4, UDP and SeqTs headers. -/
theorem SendCompress_ok_shape (env : Env) (d : PointToPointNetDevice) (p g : Packet)
    (d1 : PointToPointNetDevice) (h : SendCompress env d p = .ok (g, d1)) :
    ∃ t i u s, p = ⟨[.ppp t, .ipv4 i, .udp u, .seqTs s], p.payload⟩ := by
  rcases p with ⟨hs, data⟩
  rcases hs with _ | ⟨h1, hs⟩
  · simp [SendCompress, Packet.RemoveHeaderPpp, bind, Except.bind] at h
  cases h1 <;> first
    | (simp [SendCompress, Packet.RemoveHeaderPpp, bind, Except.bind] at h; done)
    | skip
  rcases hs with _ | ⟨h2, hs⟩
  · simp [SendCompress, Packet.RemoveHeaderPpp, Packet.RemoveHeaderIpv4, bind, Except.bind] at h
  cases h2 <;> first
    | (simp [SendCompress, Packet.RemoveHeaderPpp, Packet.RemoveHeaderIpv4, bind,
        Except.bind] at h; done)
    | skip
  rcases hs with _ | ⟨h3, hs⟩
  · simp [SendCompress, Packet.RemoveHeaderPpp, Packet.RemoveHeaderIpv4,
      Packet.RemoveHeaderUdp, bind, Except.bind] at h
  cases h3 <;> first
    | (simp [SendCompress, Packet.RemoveHeaderPpp, Packet.RemoveHeaderIpv4,
        Packet.RemoveHeaderUdp, bind, Except.bind] at h; done)
    | skip
  rcases hs with _ | ⟨h4, hs⟩
  · simp [SendCompress, Packet.RemoveHeaderPpp, Packet.RemoveHeaderIpv4,
      Packet.RemoveHeaderUdp, Packet.RemoveHeaderSeqTs, bind, Except.bind] at h
  cases h4 <;> first
    | (simp [SendCompress, Packet.RemoveHeaderPpp, Packet.RemoveHeaderIpv4,
        Packet.RemoveHeaderUdp, Packet.RemoveHeaderSeqTs, bind, Except.bind] at h; done)
    | skip
  rcases hs with _ | ⟨h5, hs⟩
  · exact ⟨_, _, _, _, rfl⟩
  · simp [SendCompress, Packet.RemoveHeaderPpp, Packet.RemoveHeaderIpv4,
      Packet.RemoveHeaderUdp, Packet.RemoveHeaderSeqTs, Packet.CopyData, bind,
      Except.bind] at h

/-- The decompression branch returns only on frames of PPP, IPv4, UDP and SeqTs headers. -/
theorem ReceiveDecompress_ok_shape (env : Env) (d : PointToPointNetDevice) (p g : Packet)
    (d1 : PointToPointNetDevice) (h : ReceiveDecompress env d p = .ok (g, d1)) :
    ∃ t i u s, p = ⟨[.ppp t, .ipv4 i, .udp u, .seqTs s], p.payload⟩ := by
  rcases p with ⟨hs, data⟩
  rcases hs with _ | ⟨h1, hs⟩
  · simp [ReceiveDecompress, Packet.RemoveHeaderPpp, bind, Except.bind] at h
  cases h1 <;> first
    | (simp [ReceiveDecompress, Packet.RemoveHeaderPpp, bind, Except.bind] at h; done)
    | skip
  rcases hs with _ | ⟨h2, hs⟩
  · simp [ReceiveDecompress, Packet.RemoveHeaderPpp, Packet.RemoveHeaderIpv4, bind,
      Except.bind] at h
  cases h2 <;> first
    | (simp [ReceiveDecompress, Packet.RemoveHeaderPpp, Packet.RemoveHeaderIpv4, bind,
        Except.bind] at h; done)
    | skip
  rcases hs with _ | ⟨h3, hs⟩
  · simp [ReceiveDecompress, Packet.RemoveHeaderPpp, Packet.RemoveHeaderIpv4,
      Packet.RemoveHeaderUdp, bind, Except.bind] at h
  cases h3 <;> first
    | (simp [ReceiveDecompress, Packet.RemoveHeaderPpp, Packet.RemoveHeaderIpv4,
        Packet.RemoveHeaderUdp, bind, Except.bind] at h; done)
    | skip
  rcases hs with _ | ⟨h4, hs⟩
  · simp [ReceiveDecompress, Packet.RemoveHeaderPpp, Packet.RemoveHeaderIpv4,
      Packet.RemoveHeaderUdp, Packet.RemoveHeaderSeqTs, bind, Except.bind] at h
  cases h4 <;> first
    | (simp [ReceiveDecompress, Packet.RemoveHeaderPpp, Packet.RemoveHeaderIpv4,
        Packet.RemoveHeaderUdp, Packet.RemoveHeaderSeqTs, bind, Except.bind] at h; done)
    | skip
  rcases hs with _ | ⟨h5, hs⟩
  · exact ⟨_, _, _, _, rfl⟩
  · simp [ReceiveDecompress, Packet.RemoveHeaderPpp, Packet.RemoveHeaderIpv4,
      Packet.RemoveHeaderUdp, Packet.RemoveHeaderSeqTs, Packet.CopyData, bind,
      Except.bind] at h

/-- The two ways in which `Send` with the link up returns: through the compression branch or past it. -/
theorem Send_ok_cases (env : Env) (d : PointToPointNetDevice) (packet : Packet)
    (protocolNumber : Nat) (r : Bool) (d' : PointToPointNetDevice)
    (hup : d.m_linkUp = true) (h : Send env d packet protocolNumber = .ok (r, d')) :
    ∃ tag, EtherToPpp protocolNumber = .ok tag ∧
      ((d.compress = true ∧ tag = 33 ∧ ∃ x g,
          g.PeekHeaderPpp = .ok ⟨0x4021⟩ ∧ g.payload = env.zlib_compress_string x ∧
          offeredToQueue d'.trace = offeredToQueue d.trace ++ [g] ∧
          encodeCalls d'.trace = encodeCalls d.trace ++ [x]) ∨
       (¬ (d.compress = true ∧ tag = 33) ∧
          offeredToQueue d'.trace =
            offeredToQueue d.trace ++ [⟨.ppp ⟨tag⟩ :: packet.headers, packet.payload⟩] ∧
          encodeCalls d'.trace = encodeCalls d.trace)) := by
  rw [Send_linkUp env d _ _ hup] at h
  cases htag : EtherToPpp protocolNumber with
  | error e => simp [htag] at h
  | ok tag =>
    refine ⟨tag, rfl, ?_⟩
    simp only [htag] at h
    by_cases hc : d.compress = true ∧ tag = 33
    · left
      rw [if_pos hc] at h
      cases hsc : SendCompress env d (packet.AddHeader (.ppp ⟨tag⟩)) with
      | error e => simp [hsc] at h
      | ok v =>
        obtain ⟨g, d1⟩ := v
        simp only [hsc] at h
        obtain ⟨t, i, u, s, hshape⟩ := SendCompress_ok_shape _ _ _ _ _ hsc
        rw [hshape, SendCompress_frame] at hsc
        injection hsc with hsc
        injection hsc with hg hd1
        have ht := SendEnqueue_trace _ _ _ _ _ h
        rw [← hd1] at ht
        refine ⟨hc.1, hc.2, protocolString ++ (packet.AddHeader (.ppp ⟨tag⟩)).payload, g,
          by rw [← hg]; rfl, by rw [← hg], ?_, ?_⟩
        · simpa [offeredToQueue, List.filterMap_append] using ht.1
        · simpa [encodeCalls, List.filterMap_append] using ht.2
    · right
      rw [if_neg hc] at h
      exact ⟨hc, SendEnqueue_trace _ _ _ _ _ h⟩

/-- The three protocol numbers `EtherToPpp` accepts and their tags. -/
theorem EtherToPpp_ok (proto tag : Nat) (h : EtherToPpp proto = .ok tag) :
    (proto = 0x0800 ∧ tag = 0x0021) ∨ (proto = 0x0801 ∧ tag = 0x4021) ∨
      (proto = 0x86DD ∧ tag = 0x0057) := by
  unfold EtherToPpp at h
  split_ifs at h with h1 h2 h3
  · injection h with h; omega
  · injection h with h; omega
  · injection h with h; omega

end PointToPointNetDevice

/-- Function `decompressData` gives `inflate` no input (`avail_in` is 0), so its result does
not depend on its argument. -/
theorem decompressData_const (env : Env) (bInit cInit x y : List Nat) :
    decompressData env bInit cInit x = decompressData env bInit cInit y := by
  simp [decompressData]

/-! ## The claims -/

namespace PointToPointNetDevice

/-- Claim C1: frame round trip (ns-3-dev version). Let `f` be a frame made of a PPP header
with tag 0x0021, an IPv4 header, a UDP header, a SeqTs header and a payload `data`, valid in
that the declared sizes of the IPv4 and UDP headers are the numbers of bytes that follow
them. If the codec satisfies `decode (encode x) = x`, then the
compression branch of `Send` turns `f` into a frame `g`, and the decompression branch of
`Receive` turns `g` back into `f`: same link tag, same header values, declared sizes
included, and same payload bytes. -/
theorem frame_round_trip (env : Env) (ds dr : PointToPointNetDevice)
    (ipv4Header : Ipv4Header) (udpHeader : UdpHeader) (seqTsHeader : SeqTsHeader)
    (data : List Nat)
    (hcodec : ∀ x, env.zlib_decompress_string (env.zlib_compress_string x) = x)
    (hipv4 : ipv4Header.m_payloadSize =
      env.udpHeaderSize + env.seqTsHeaderSize + data.length)
    (hudp : udpHeader.m_payloadSize = env.seqTsHeaderSize + data.length) :
    ∃ g ds' dr',
      SendCompress env ds
          ⟨[.ppp ⟨0x0021⟩, .ipv4 ipv4Header, .udp udpHeader, .seqTs seqTsHeader], data⟩ =
        .ok (g, ds') ∧
      ReceiveDecompress env dr g =
        .ok (⟨[.ppp ⟨0x0021⟩, .ipv4 ipv4Header, .udp udpHeader, .seqTs seqTsHeader], data⟩,
          dr') := by
  refine ⟨_, _, dr.emit (.zlibDecompress (env.zlib_compress_string (protocolString ++ data))),
    SendCompress_frame env ds _ _ _ _ _, ?_⟩
  rw [ReceiveDecompress_frame, hcodec]
  have hdrop : (protocolString ++ data).drop 6 = data := by simp [protocolString]
  rw [hdrop]
  have e1 : (ipv4Header.SetPayloadSize (env.udpHeaderSize + env.seqTsHeaderSize +
      (env.zlib_compress_string (protocolString ++ data)).length)).SetPayloadSize
      (env.udpHeaderSize + env.seqTsHeaderSize + data.length) = ipv4Header := by
    cases ipv4Header
    simp only [Ipv4Header.SetPayloadSize] at hipv4 ⊢
    simp [hipv4]
  have e2 : (udpHeader.ForcePayloadSize (env.seqTsHeaderSize +
      (env.zlib_compress_string (protocolString ++ data)).length)).ForcePayloadSize
      (env.seqTsHeaderSize + data.length) = udpHeader := by
    cases udpHeader
    simp only [UdpHeader.ForcePayloadSize] at hudp ⊢
    simp [hudp]
  rw [e1, e2]

/-- Witness of C1: the frame around the payload "hi" with the reversing codec. -/
theorem frame_round_trip_witness :
    (∀ x, (exampleEnv List.reverse List.reverse).zlib_decompress_string
      ((exampleEnv List.reverse List.reverse).zlib_compress_string x) = x) ∧
    ∃ g ds' dr',
      SendCompress (exampleEnv List.reverse List.reverse) (exampleDevice true false)
          ⟨[.ppp ⟨0x0021⟩, .ipv4 (exampleIpv4 22), .udp (exampleUdp 14), .seqTs exampleSeqTs],
            [104, 105]⟩ = .ok (g, ds') ∧
      ReceiveDecompress (exampleEnv List.reverse List.reverse) (exampleDevice false true) g =
        .ok (⟨[.ppp ⟨0x0021⟩, .ipv4 (exampleIpv4 22), .udp (exampleUdp 14),
          .seqTs exampleSeqTs], [104, 105]⟩, dr') :=
  ⟨fun x => List.reverse_reverse x,
    frame_round_trip (exampleEnv List.reverse List.reverse) (exampleDevice true false)
      (exampleDevice false true) (exampleIpv4 22) (exampleUdp 14) exampleSeqTs [104, 105]
      (fun x => List.reverse_reverse x) rfl rfl⟩

end PointToPointNetDevice

/-- Claim C2 (refuted on the code): the codec pair `compressData`, `decompressData` of the
source does not round-trip. Whatever zlib computes and whatever the local arrays hold on
entry, some payload of size 1 to 1106 is not returned by
`decompressData (compressData p)`: the one-byte payloads "a" and "b" cannot both be, since
`decompressData` passes zero input bytes to `inflate` and so never reads its argument. -/
theorem codec_round_trip_fails :
    ¬ ∃ (env : Env) (bInit bInit' cInit : List Nat),
      ∀ p : List Nat, 1 ≤ p.length → p.length ≤ 1106 →
        decompressData env bInit' cInit (compressData env bInit p) = p := by
  rintro ⟨env, bInit, bInit', cInit, h⟩
  have ha := h [97] (by decide) (by decide)
  have hb := h [98] (by decide) (by decide)
  rw [decompressData_const env bInit' cInit _ (compressData env bInit [98]), hb] at ha
  exact absurd ha (by decide)

namespace PointToPointNetDevice

/-- Claim C3: outbound rewrite (ns-3-dev version). With the link up, compress enabled and
protocol number 0x0800, `Send` on a packet of IPv4, UDP and SeqTs headers around `data`
returns, and the one frame it offers to the transmit queue is, in order, a PPP header with
tag 0x4021, the original IPv4, UDP and SeqTs headers with the two declared sizes rewritten,
and the payload `encode ("0x0021" ++ data)`. -/
theorem send_compress_offers (env : Env) (d : PointToPointNetDevice) (q : Queue)
    (ipv4Header : Ipv4Header) (udpHeader : UdpHeader) (seqTsHeader : SeqTsHeader)
    (data : List Nat)
    (hup : d.m_linkUp = true) (hc : d.compress = true) (hq : d.m_queue = some q)
    (hch : d.m_txMachineState = .READY → d.m_channel = true) :
    ∃ r d',
      Send env d ⟨[.ipv4 ipv4Header, .udp udpHeader, .seqTs seqTsHeader], data⟩ 0x0800 =
        .ok (r, d') ∧
      offeredToQueue d'.trace = offeredToQueue d.trace ++
        [⟨[.ppp ⟨0x4021⟩,
            .ipv4 (ipv4Header.SetPayloadSize (env.udpHeaderSize + env.seqTsHeaderSize +
              (env.zlib_compress_string (protocolString ++ data)).length)),
            .udp (udpHeader.ForcePayloadSize (env.seqTsHeaderSize +
              (env.zlib_compress_string (protocolString ++ data)).length)),
            .seqTs seqTsHeader],
          env.zlib_compress_string (protocolString ++ data)⟩] := by
  have hs : Send env d ⟨[.ipv4 ipv4Header, .udp udpHeader, .seqTs seqTsHeader], data⟩ 0x0800 =
      SendEnqueue env (d.emit (.zlibCompress (protocolString ++ data)))
        ⟨[.ppp ⟨0x4021⟩,
            .ipv4 (ipv4Header.SetPayloadSize (env.udpHeaderSize + env.seqTsHeaderSize +
              (env.zlib_compress_string (protocolString ++ data)).length)),
            .udp (udpHeader.ForcePayloadSize (env.seqTsHeaderSize +
              (env.zlib_compress_string (protocolString ++ data)).length)),
            .seqTs seqTsHeader],
          env.zlib_compress_string (protocolString ++ data)⟩ := by
    rw [Send_linkUp env d _ _ hup]
    simp [hc, EtherToPpp, Packet.AddHeader, SendCompress_frame]
  obtain ⟨r, d', h⟩ := SendEnqueue_returns env (d.emit (.zlibCompress (protocolString ++ data)))
    ⟨[.ppp ⟨0x4021⟩,
        .ipv4 (ipv4Header.SetPayloadSize (env.udpHeaderSize + env.seqTsHeaderSize +
          (env.zlib_compress_string (protocolString ++ data)).length)),
        .udp (udpHeader.ForcePayloadSize (env.seqTsHeaderSize +
          (env.zlib_compress_string (protocolString ++ data)).length)),
        .seqTs seqTsHeader],
      env.zlib_compress_string (protocolString ++ data)⟩ q (by simpa using hq)
    (by simpa using hch)
  refine ⟨r, d', hs.trans h, ?_⟩
  have := (SendEnqueue_trace _ _ _ _ _ h).1
  simpa [offeredToQueue, List.filterMap_append] using this

/-- Witness of C3: the datagram around "hi" with the reversing codec. -/
theorem send_compress_offers_witness :
    ∃ r d',
      Send (exampleEnv List.reverse List.reverse) (exampleDevice true false)
        (exampleDatagram [104, 105]) 0x0800 = .ok (r, d') ∧
      offeredToQueue d'.trace =
        [⟨[.ppp ⟨0x4021⟩, .ipv4 (exampleIpv4 28), .udp (exampleUdp 20), .seqTs exampleSeqTs],
          [105, 104, 49, 50, 48, 48, 120, 48]⟩] :=
  send_compress_offers (exampleEnv List.reverse List.reverse) (exampleDevice true false)
    ⟨[], 100⟩ (exampleIpv4 22) (exampleUdp 14) exampleSeqTs [104, 105] rfl rfl rfl
    (fun _ => rfl)

/-- Claim C5: inbound rewrite (ns-3-dev version). For a frame with PPP tag 0x4021 that the
error model does not flag, received with decompress enabled by a device that has its node
and its channel (without them `Receive` ends in a null pointer), `Receive` returns; the frame
handed to the receive callback has the payload `decode (received payload)` without its
first six bytes, under the received IPv4, UDP and SeqTs headers (outermost first, declared
sizes recomputed), the protocol reported is 0x0800, and the frame traced before delivery
carries the plain tag 0x0021. -/
theorem receive_decompress_delivers (env : Env) (d : PointToPointNetDevice)
    (ipv4Header : Ipv4Header) (udpHeader : UdpHeader) (seqTsHeader : SeqTsHeader)
    (cData : List Nat) (hatt : attached env d)
    (hnc : d.m_receiveErrorModel = false ∨
      env.IsCorrupt
        ⟨[.ppp ⟨0x4021⟩, .ipv4 ipv4Header, .udp udpHeader, .seqTs seqTsHeader], cData⟩ = false)
    (hdec : d.decompress = true) :
    let payload := (env.zlib_decompress_string cData).drop 6
    let chain : List Header :=
      [.ipv4 (ipv4Header.SetPayloadSize
          (env.udpHeaderSize + env.seqTsHeaderSize + payload.length)),
        .udp (udpHeader.ForcePayloadSize (env.seqTsHeaderSize + payload.length)),
        .seqTs seqTsHeader]
    let traced : Packet := ⟨.ppp ⟨0x0021⟩ :: chain, payload⟩
    let delivered : Packet := ⟨chain, payload⟩
    ∃ d',
      Receive env d
          ⟨[.ppp ⟨0x4021⟩, .ipv4 ipv4Header, .udp udpHeader, .seqTs seqTsHeader], cData⟩ =
        .ok d' ∧
      d'.trace = d.trace ++
        [.zlibDecompress cData, .snifferTrace traced, .promiscSnifferTrace traced,
          .phyRxEndTrace traced] ++
        (if d.m_promiscCallback = true then
          [.macPromiscRxTrace traced, .promiscCallback delivered 0x0800]
         else []) ++
        [.macRxTrace traced, .rxCallback delivered 0x0800] := by
  have hnc' : ¬ (d.m_receiveErrorModel = true ∧ env.IsCorrupt
      ⟨[.ppp ⟨0x4021⟩, .ipv4 ipv4Header, .udp udpHeader, .seqTs seqTsHeader], cData⟩ = true) := by
    rintro ⟨h1, h2⟩
    rcases hnc with h | h
    · simp [h1] at h
    · simp [h2] at h
  obtain ⟨r, hr⟩ := GetRemote_attached env d hatt
  have hnode : d.m_node = true := hatt.1
  cases hp : d.m_promiscCallback <;>
    simp [Receive, hnode, hnc', hdec, Packet.PeekHeaderPpp, ReceiveDecompress_frame,
      ProcessHeader, Packet.RemoveHeaderPpp, PppToEther, bind, Except.bind, pure, Except.pure,
      hp, hr, emit]

/-- Witness of C5: the compressed frame of "hi" with the reversing codec. -/
theorem receive_decompress_delivers_witness :
    (exampleDevice false true).decompress = true ∧
    ∃ d',
      Receive (exampleEnv List.reverse List.reverse) (exampleDevice false true)
          ⟨[.ppp ⟨0x4021⟩, .ipv4 (exampleIpv4 28), .udp (exampleUdp 20), .seqTs exampleSeqTs],
            [105, 104, 49, 50, 48, 48, 120, 48]⟩ = .ok d' ∧
      d'.trace =
        [.zlibDecompress [105, 104, 49, 50, 48, 48, 120, 48],
          .snifferTrace ⟨[.ppp ⟨0x0021⟩, .ipv4 (exampleIpv4 22), .udp (exampleUdp 14),
            .seqTs exampleSeqTs], [104, 105]⟩,
          .promiscSnifferTrace ⟨[.ppp ⟨0x0021⟩, .ipv4 (exampleIpv4 22), .udp (exampleUdp 14),
            .seqTs exampleSeqTs], [104, 105]⟩,
          .phyRxEndTrace ⟨[.ppp ⟨0x0021⟩, .ipv4 (exampleIpv4 22), .udp (exampleUdp 14),
            .seqTs exampleSeqTs], [104, 105]⟩,
          .macRxTrace ⟨[.ppp ⟨0x0021⟩, .ipv4 (exampleIpv4 22), .udp (exampleUdp 14),
            .seqTs exampleSeqTs], [104, 105]⟩,
          .rxCallback ⟨[.ipv4 (exampleIpv4 22), .udp (exampleUdp 14),
            .seqTs exampleSeqTs], [104, 105]⟩ 0x0800] :=
  ⟨rfl,
    receive_decompress_delivers (exampleEnv List.reverse List.reverse)
      (exampleDevice false true) (exampleIpv4 28) (exampleUdp 20) exampleSeqTs
      [105, 104, 49, 50, 48, 48, 120, 48] (exampleDevice_attached _ _ _ _) (Or.inl rfl) rfl⟩

/-- Claim C6: inbound pass-through. For a frame that the error model does not flag and
whose PPP tag is 0x0021 or 0x0057, or 0x4021 while decompress is disabled, received by a
device that has its node and its channel (without them `Receive` ends in a null pointer),
`Receive` returns; the frame handed to the callbacks is the received frame with exactly the PPP
header removed, the protocol reported is `PppToEther tag`, and for tag 0x4021 it is
0x0800. -/
theorem receive_pass_through (env : Env) (d : PointToPointNetDevice) (tag : Nat)
    (headers : List Header) (payload : List Nat) (hatt : attached env d)
    (hnc : d.m_receiveErrorModel = false ∨
      env.IsCorrupt ⟨.ppp ⟨tag⟩ :: headers, payload⟩ = false)
    (htag : tag = 0x0021 ∨ tag = 0x0057 ∨ (tag = 0x4021 ∧ d.decompress = false)) :
    let received : Packet := ⟨.ppp ⟨tag⟩ :: headers, payload⟩
    let delivered : Packet := ⟨headers, payload⟩
    ∃ d' protocol,
      PppToEther tag = .ok protocol ∧
      (tag = 0x4021 → protocol = 0x0800) ∧
      Receive env d received = .ok d' ∧
      d'.trace = d.trace ++
        [.snifferTrace received, .promiscSnifferTrace received, .phyRxEndTrace received] ++
        (if d.m_promiscCallback = true then
          [.macPromiscRxTrace received, .promiscCallback delivered protocol]
         else []) ++
        [.macRxTrace received, .rxCallback delivered protocol] := by
  intro received delivered
  rcases htag with h | h | ⟨h, hd⟩
  · exact ⟨_, 0x0800, by rw [h]; rfl, fun _ => rfl,
      Receive_pass env d tag _ headers payload hatt hnc (by omega) (by rw [h]; rfl), rfl⟩
  · exact ⟨_, 0x86DD, by rw [h]; rfl, fun h2 => by omega,
      Receive_pass env d tag _ headers payload hatt hnc (by omega) (by rw [h]; rfl), rfl⟩
  · exact ⟨_, 0x0800, by rw [h]; rfl, fun _ => rfl,
      Receive_pass env d tag _ headers payload hatt hnc (by simp [hd]) (by rw [h]; rfl), rfl⟩

/-- Witness of C6, scenario C: a frame tagged 0x4021 received with decompression disabled. -/
theorem receive_pass_through_witness :
    ∃ d' protocol,
      PppToEther 0x4021 = .ok protocol ∧
      (0x4021 = 0x4021 → protocol = 0x0800) ∧
      Receive (exampleEnv List.reverse List.reverse) (exampleDevice false false)
          ⟨[.ppp ⟨0x4021⟩, .ipv4 (exampleIpv4 28), .udp (exampleUdp 20), .seqTs exampleSeqTs],
            [105, 104, 49, 50, 48, 48, 120, 48]⟩ = .ok d' ∧
      d'.trace =
        [.snifferTrace ⟨[.ppp ⟨0x4021⟩, .ipv4 (exampleIpv4 28), .udp (exampleUdp 20),
            .seqTs exampleSeqTs], [105, 104, 49, 50, 48, 48, 120, 48]⟩,
          .promiscSnifferTrace ⟨[.ppp ⟨0x4021⟩, .ipv4 (exampleIpv4 28), .udp (exampleUdp 20),
            .seqTs exampleSeqTs], [105, 104, 49, 50, 48, 48, 120, 48]⟩,
          .phyRxEndTrace ⟨[.ppp ⟨0x4021⟩, .ipv4 (exampleIpv4 28), .udp (exampleUdp 20),
            .seqTs exampleSeqTs], [105, 104, 49, 50, 48, 48, 120, 48]⟩,
          .macRxTrace ⟨[.ppp ⟨0x4021⟩, .ipv4 (exampleIpv4 28), .udp (exampleUdp 20),
            .seqTs exampleSeqTs], [105, 104, 49, 50, 48, 48, 120, 48]⟩,
          .rxCallback ⟨[.ipv4 (exampleIpv4 28), .udp (exampleUdp 20),
            .seqTs exampleSeqTs], [105, 104, 49, 50, 48, 48, 120, 48]⟩ protocol] :=
  receive_pass_through (exampleEnv List.reverse List.reverse) (exampleDevice false false)
    0x4021 [.ipv4 (exampleIpv4 28), .udp (exampleUdp 20), .seqTs exampleSeqTs]
    [105, 104, 49, 50, 48, 48, 120, 48] (exampleDevice_attached _ _ _ _) (Or.inl rfl)
    (Or.inr (Or.inr ⟨rfl, rfl⟩))

/-- Counterexample to C7 as stated: with the ns-3 header sizes, a 200-byte payload encoded
to 40 bytes leaves the compression branch with the UDP payload size 52 (the 12 bytes of
the SeqTs header and the 40 bytes of data), which is not 40 + 8, also when the 8 bytes of
the UDP header are added to it. -/
theorem udp_length_counterexample :
    ∃ g d' u,
      SendCompress (exampleEnv (fun _ => List.replicate 40 0) id) (exampleDevice true false)
          ⟨[.ppp ⟨0x0021⟩, .ipv4 (exampleIpv4 220), .udp (exampleUdp 212),
            .seqTs exampleSeqTs], List.replicate 200 65⟩ = .ok (g, d') ∧
      g.payload.length = 40 ∧
      g.headers = [.ppp ⟨0x4021⟩, .ipv4 (exampleIpv4 60), .udp u, .seqTs exampleSeqTs] ∧
      u.m_payloadSize = 52 ∧
      u.m_payloadSize ≠ 40 + (exampleEnv (fun _ => List.replicate 40 0) id).udpHeaderSize ∧
      u.m_payloadSize + (exampleEnv (fun _ => List.replicate 40 0) id).udpHeaderSize ≠
        40 + (exampleEnv (fun _ => List.replicate 40 0) id).udpHeaderSize :=
  ⟨_, _, _, SendCompress_frame _ _ _ _ _ _ _, rfl, rfl, rfl, by decide, by decide⟩

/-- Claim C7, amended: every frame rewritten by the compression branch of `Send` carries
the tag 0x4021, and the declared payload size of its UDP header is the size of the SeqTs
header plus the length `n` of the encoded payload, the number of bytes that follow the UDP
header; it is not derived from the original payload length. -/
theorem send_compress_udp_size (env : Env) (d : PointToPointNetDevice) (f g : Packet)
    (d' : PointToPointNetDevice) (h : SendCompress env d f = .ok (g, d')) :
    ∃ i u s, g.headers = [.ppp ⟨0x4021⟩, .ipv4 i, .udp u, .seqTs s] ∧
      u.m_payloadSize = env.seqTsHeaderSize + g.payload.length := by
  obtain ⟨t, i, u, s, hshape⟩ := SendCompress_ok_shape _ _ _ _ _ h
  rw [hshape, SendCompress_frame] at h
  injection h with h
  injection h with hg hd1
  subst hg
  exact ⟨_, _, _, rfl, rfl⟩

/-- Witness of C7 amended: 200 bytes encoded to 40 bytes, UDP payload size 12 + 40. -/
theorem send_compress_udp_size_witness :
    SendCompress (exampleEnv (fun _ => List.replicate 40 0) id) (exampleDevice true false)
        ⟨[.ppp ⟨0x0021⟩, .ipv4 (exampleIpv4 220), .udp (exampleUdp 212),
          .seqTs exampleSeqTs], List.replicate 200 65⟩ =
      .ok (⟨[.ppp ⟨0x4021⟩, .ipv4 (exampleIpv4 60), .udp (exampleUdp 52),
          .seqTs exampleSeqTs], List.replicate 40 0⟩,
        (exampleDevice true false).emit
          (.zlibCompress (protocolString ++ List.replicate 200 65))) ∧
    ∃ i u s,
      [Header.ppp ⟨0x4021⟩, .ipv4 (exampleIpv4 60), .udp (exampleUdp 52),
          .seqTs exampleSeqTs] = [.ppp ⟨0x4021⟩, .ipv4 i, .udp u, .seqTs s] ∧
      u.m_payloadSize = 12 + 40 :=
  ⟨rfl, send_compress_udp_size (exampleEnv (fun _ => List.replicate 40 0) id)
    (exampleDevice true false)
    ⟨[.ppp ⟨0x0021⟩, .ipv4 (exampleIpv4 220), .udp (exampleUdp 212),
      .seqTs exampleSeqTs], List.replicate 200 65⟩
    ⟨[.ppp ⟨0x4021⟩, .ipv4 (exampleIpv4 60), .udp (exampleUdp 52),
      .seqTs exampleSeqTs], List.replicate 40 0⟩
    ((exampleDevice true false).emit
      (.zlibCompress (protocolString ++ List.replicate 200 65))) rfl⟩

/-- Claim C8: length recomputation (ns-3-dev version). On every frame of PPP, IPv4, UDP and
SeqTs headers the compression branch of `Send` and the decompression branch of `Receive`
return a rebuilt frame with the headers of the input frame in the same order (PPP, IPv4,
UDP, SeqTs from the outside: stripped in that order, re-added SeqTs first and PPP last),
and the declared payload size of its IPv4 header is the number of bytes that follow the IPv4
header (UDP header, SeqTs header and new payload), whatever the length of the new payload.
A branch returns on no other frame. -/
theorem rebuild_ipv4_size (env : Env) (d : PointToPointNetDevice) (t : PppHeader)
    (i : Ipv4Header) (u : UdpHeader) (s : SeqTsHeader) (data : List Nat) :
    (∃ n m c,
      SendCompress env d ⟨[.ppp t, .ipv4 i, .udp u, .seqTs s], data⟩ =
        .ok (⟨[.ppp ⟨0x4021⟩, .ipv4 (i.SetPayloadSize n), .udp (u.ForcePayloadSize m),
          .seqTs s], c⟩, d.emit (.zlibCompress (protocolString ++ data))) ∧
      c = env.zlib_compress_string (protocolString ++ data) ∧
      (i.SetPayloadSize n).m_payloadSize =
        Packet.GetSize env ⟨[.udp (u.ForcePayloadSize m), .seqTs s], c⟩ ∧
      (i.SetPayloadSize n).m_payloadSize =
        env.udpHeaderSize + env.seqTsHeaderSize + c.length) ∧
    (∃ n m c,
      ReceiveDecompress env d ⟨[.ppp t, .ipv4 i, .udp u, .seqTs s], data⟩ =
        .ok (⟨[.ppp ⟨0x0021⟩, .ipv4 (i.SetPayloadSize n), .udp (u.ForcePayloadSize m),
          .seqTs s], c⟩, d.emit (.zlibDecompress data)) ∧
      c = (env.zlib_decompress_string data).drop 6 ∧
      (i.SetPayloadSize n).m_payloadSize =
        Packet.GetSize env ⟨[.udp (u.ForcePayloadSize m), .seqTs s], c⟩ ∧
      (i.SetPayloadSize n).m_payloadSize =
        env.udpHeaderSize + env.seqTsHeaderSize + c.length) ∧
    (∀ f g d', SendCompress env d f = .ok (g, d') ∨ ReceiveDecompress env d f = .ok (g, d') →
      ∃ t t' i u s n m,
        f.headers = [.ppp t, .ipv4 i, .udp u, .seqTs s] ∧
        g.headers = [.ppp t', .ipv4 (i.SetPayloadSize n), .udp (u.ForcePayloadSize m),
          .seqTs s] ∧
        (i.SetPayloadSize n).m_payloadSize =
          Packet.GetSize env ⟨[.udp (u.ForcePayloadSize m), .seqTs s], g.payload⟩) := by
  refine ⟨⟨_, _, _, SendCompress_frame env d t i u s data, rfl, ?_, ?_⟩,
    ⟨_, _, _, ReceiveDecompress_frame env d t i u s data, rfl, ?_, ?_⟩, ?_⟩
  · simp only [Ipv4Header.SetPayloadSize, Packet.GetSize, Header.GetSerializedSize,
      List.map_cons, List.map_nil, List.sum_cons, List.sum_nil]
    omega
  · simp only [Ipv4Header.SetPayloadSize]
  · simp only [Ipv4Header.SetPayloadSize, Packet.GetSize, Header.GetSerializedSize,
      List.map_cons, List.map_nil, List.sum_cons, List.sum_nil]
    omega
  · simp only [Ipv4Header.SetPayloadSize]
  · intro f g d' h
    rcases h with h | h
    · obtain ⟨t, i, u, s, hshape⟩ := SendCompress_ok_shape _ _ _ _ _ h
      rw [hshape, SendCompress_frame] at h
      injection h with h
      injection h with hg hd1
      subst hg
      refine ⟨t, _, i, u, s, _, _, by rw [hshape], rfl, ?_⟩
      simp only [Ipv4Header.SetPayloadSize, Packet.GetSize, Header.GetSerializedSize,
        List.map_cons, List.map_nil, List.sum_cons, List.sum_nil]
      omega
    · obtain ⟨t, i, u, s, hshape⟩ := ReceiveDecompress_ok_shape _ _ _ _ _ h
      rw [hshape, ReceiveDecompress_frame] at h
      injection h with h
      injection h with hg hd1
      subst hg
      refine ⟨t, _, i, u, s, _, _, by rw [hshape], rfl, ?_⟩
      simp only [Ipv4Header.SetPayloadSize, Packet.GetSize, Header.GetSerializedSize,
        List.map_cons, List.map_nil, List.sum_cons, List.sum_nil]
      omega

/-- Witness of C8: the frame around "hi" in the compression branch, and the frame it
becomes in the decompression branch. -/
theorem rebuild_ipv4_size_witness :
    (SendCompress (exampleEnv List.reverse List.reverse) (exampleDevice true false)
        ⟨[.ppp ⟨0x0021⟩, .ipv4 (exampleIpv4 22), .udp (exampleUdp 14),
          .seqTs exampleSeqTs], [104, 105]⟩ =
      .ok (⟨[.ppp ⟨0x4021⟩, .ipv4 (exampleIpv4 28), .udp (exampleUdp 20),
          .seqTs exampleSeqTs], [105, 104, 49, 50, 48, 48, 120, 48]⟩,
        (exampleDevice true false).emit
          (.zlibCompress [48, 120, 48, 48, 50, 49, 104, 105]))) ∧
    (ReceiveDecompress (exampleEnv List.reverse List.reverse) (exampleDevice false true)
        ⟨[.ppp ⟨0x4021⟩, .ipv4 (exampleIpv4 28), .udp (exampleUdp 20),
          .seqTs exampleSeqTs], [105, 104, 49, 50, 48, 48, 120, 48]⟩ =
      .ok (⟨[.ppp ⟨0x0021⟩, .ipv4 (exampleIpv4 22), .udp (exampleUdp 14),
          .seqTs exampleSeqTs], [104, 105]⟩,
        (exampleDevice false true).emit
          (.zlibDecompress [105, 104, 49, 50, 48, 48, 120, 48]))) ∧
    (∃ n m c,
      SendCompress (exampleEnv List.reverse List.reverse) (exampleDevice true false)
          ⟨[.ppp ⟨0x0021⟩, .ipv4 (exampleIpv4 22), .udp (exampleUdp 14),
            .seqTs exampleSeqTs], [104, 105]⟩ =
        .ok (⟨[.ppp ⟨0x4021⟩, .ipv4 ((exampleIpv4 22).SetPayloadSize n),
            .udp ((exampleUdp 14).ForcePayloadSize m), .seqTs exampleSeqTs], c⟩,
          (exampleDevice true false).emit (.zlibCompress (protocolString ++ [104, 105]))) ∧
      c = (exampleEnv List.reverse List.reverse).zlib_compress_string
        (protocolString ++ [104, 105]) ∧
      ((exampleIpv4 22).SetPayloadSize n).m_payloadSize =
        Packet.GetSize (exampleEnv List.reverse List.reverse)
          ⟨[.udp ((exampleUdp 14).ForcePayloadSize m), .seqTs exampleSeqTs], c⟩ ∧
      ((exampleIpv4 22).SetPayloadSize n).m_payloadSize =
        (exampleEnv List.reverse List.reverse).udpHeaderSize +
          (exampleEnv List.reverse List.reverse).seqTsHeaderSize + c.length) ∧
    (∃ n m c,
      ReceiveDecompress (exampleEnv List.reverse List.reverse) (exampleDevice false true)
          ⟨[.ppp ⟨0x4021⟩, .ipv4 (exampleIpv4 28), .udp (exampleUdp 20),
            .seqTs exampleSeqTs], [105, 104, 49, 50, 48, 48, 120, 48]⟩ =
        .ok (⟨[.ppp ⟨0x0021⟩, .ipv4 ((exampleIpv4 28).SetPayloadSize n),
            .udp ((exampleUdp 20).ForcePayloadSize m), .seqTs exampleSeqTs], c⟩,
          (exampleDevice false true).emit
            (.zlibDecompress [105, 104, 49, 50, 48, 48, 120, 48])) ∧
      c = ((exampleEnv List.reverse List.reverse).zlib_decompress_string
        [105, 104, 49, 50, 48, 48, 120, 48]).drop 6 ∧
      ((exampleIpv4 28).SetPayloadSize n).m_payloadSize =
        Packet.GetSize (exampleEnv List.reverse List.reverse)
          ⟨[.udp ((exampleUdp 20).ForcePayloadSize m), .seqTs exampleSeqTs], c⟩ ∧
      ((exampleIpv4 28).SetPayloadSize n).m_payloadSize =
        (exampleEnv List.reverse List.reverse).udpHeaderSize +
          (exampleEnv List.reverse List.reverse).seqTsHeaderSize + c.length) ∧
    ∃ t t' i u s n m,
      [Header.ppp ⟨0x4021⟩, .ipv4 (exampleIpv4 28), .udp (exampleUdp 20),
          .seqTs exampleSeqTs] = [.ppp t, .ipv4 i, .udp u, .seqTs s] ∧
      [Header.ppp ⟨0x0021⟩, .ipv4 (exampleIpv4 22), .udp (exampleUdp 14),
          .seqTs exampleSeqTs] =
        [.ppp t', .ipv4 (i.SetPayloadSize n), .udp (u.ForcePayloadSize m), .seqTs s] ∧
      (i.SetPayloadSize n).m_payloadSize =
        Packet.GetSize (exampleEnv List.reverse List.reverse)
          ⟨[.udp (u.ForcePayloadSize m), .seqTs s], [104, 105]⟩ :=
  ⟨rfl, rfl,
    (rebuild_ipv4_size (exampleEnv List.reverse List.reverse) (exampleDevice true false)
      ⟨0x0021⟩ (exampleIpv4 22) (exampleUdp 14) exampleSeqTs [104, 105]).1,
    (rebuild_ipv4_size (exampleEnv List.reverse List.reverse) (exampleDevice false true)
      ⟨0x4021⟩ (exampleIpv4 28) (exampleUdp 20) exampleSeqTs
      [105, 104, 49, 50, 48, 48, 120, 48]).2.1,
    (rebuild_ipv4_size (exampleEnv List.reverse List.reverse) (exampleDevice false true)
      ⟨0x4021⟩ (exampleIpv4 28) (exampleUdp 20) exampleSeqTs
      [105, 104, 49, 50, 48, 48, 120, 48]).2.2
      ⟨[.ppp ⟨0x4021⟩, .ipv4 (exampleIpv4 28), .udp (exampleUdp 20),
        .seqTs exampleSeqTs], [105, 104, 49, 50, 48, 48, 120, 48]⟩
      ⟨[.ppp ⟨0x0021⟩, .ipv4 (exampleIpv4 22), .udp (exampleUdp 14),
        .seqTs exampleSeqTs], [104, 105]⟩
      ((exampleDevice false true).emit
        (.zlibDecompress [105, 104, 49, 50, 48, 48, 120, 48]))
      (Or.inr rfl)⟩

/-- Claim C9: protocol-tag closure. Every `Send` with the link up that returns (in
particular with compress enabled) has offered exactly one frame to the transmit queue, and
its PPP tag is 0x0021, 0x4021, 0x0057 or the compressed IPv6 tag, whatever value the
latter has. -/
theorem send_tag_closure (env : Env) (d : PointToPointNetDevice) (packet : Packet)
    (protocolNumber compressedIpv6Tag : Nat) (r : Bool) (d' : PointToPointNetDevice)
    (hup : d.m_linkUp = true)
    (h : Send env d packet protocolNumber = .ok (r, d')) :
    ∃ g tag,
      offeredToQueue d'.trace = offeredToQueue d.trace ++ [g] ∧
      g.PeekHeaderPpp = .ok ⟨tag⟩ ∧
      (tag = 0x0021 ∨ tag = 0x4021 ∨ tag = 0x0057 ∨ tag = compressedIpv6Tag) := by
  obtain ⟨tag, htag, hcase⟩ := Send_ok_cases env d packet protocolNumber r d' hup h
  rcases hcase with ⟨_, _, x, g, hpeek, _, hoff, _⟩ | ⟨_, hoff, _⟩
  · exact ⟨g, 0x4021, hoff, hpeek, Or.inr (Or.inl rfl)⟩
  · refine ⟨_, tag, hoff, rfl, ?_⟩
    rcases EtherToPpp_ok _ _ htag with ⟨_, h⟩ | ⟨_, h⟩ | ⟨_, h⟩
    · exact Or.inl h
    · exact Or.inr (Or.inl h)
    · exact Or.inr (Or.inr (Or.inl h))

/-- Witness of C9: an IPv6 protocol number with compress enabled. -/
theorem send_tag_closure_witness :
    (exampleDevice true false).compress = true ∧
    ∃ r d',
      Send (exampleEnv List.reverse List.reverse) (exampleDevice true false)
        (exampleDatagram [104, 105]) 0x86DD = .ok (r, d') ∧
      ∃ g tag,
        offeredToQueue d'.trace = offeredToQueue (exampleDevice true false).trace ++ [g] ∧
        g.PeekHeaderPpp = .ok ⟨tag⟩ ∧
        (tag = 0x0021 ∨ tag = 0x4021 ∨ tag = 0x0057 ∨ tag = 0x4057) :=
  ⟨rfl, _, _, rfl, send_tag_closure (exampleEnv List.reverse List.reverse)
    (exampleDevice true false) (exampleDatagram [104, 105]) 0x86DD 0x4057 _ _ rfl rfl⟩

/-- Counterexample to C10 as stated: `Send` with the accepted protocol number 0x0801
offers a frame with the compressed tag 0x4021 around the payload of the caller, the codec
not having been called. -/
theorem compressed_tag_plain_payload_counterexample :
    ∃ r d' g,
      Send (exampleEnv List.reverse List.reverse) (exampleDevice true false)
        (exampleDatagram [104, 105]) 0x0801 = .ok (r, d') ∧
      offeredToQueue d'.trace = [g] ∧
      g.PeekHeaderPpp = .ok ⟨0x4021⟩ ∧
      g = ⟨.ppp ⟨0x4021⟩ :: (exampleDatagram [104, 105]).headers, [104, 105]⟩ ∧
      encodeCalls d'.trace = [] :=
  ⟨_, _, _, rfl, rfl, rfl, rfl, rfl⟩

/-- Claim C10, amended: for every protocol number other than 0x0801 and both values of
compress, the frame a returning `Send` with the link up offers to the queue has the tag
0x4021 if and only if `Send` called the codec and the payload of the frame is the result
of that call. -/
theorem send_tag_unambiguous (env : Env) (d : PointToPointNetDevice) (packet : Packet)
    (protocolNumber : Nat) (r : Bool) (d' : PointToPointNetDevice)
    (hup : d.m_linkUp = true) (hproto : protocolNumber ≠ 0x0801)
    (h : Send env d packet protocolNumber = .ok (r, d')) :
    ∃ g tag,
      offeredToQueue d'.trace = offeredToQueue d.trace ++ [g] ∧
      g.PeekHeaderPpp = .ok ⟨tag⟩ ∧
      (tag = 0x4021 ↔
        ∃ x, encodeCalls d'.trace = encodeCalls d.trace ++ [x] ∧
          g.payload = env.zlib_compress_string x) := by
  obtain ⟨tag, htag, hcase⟩ := Send_ok_cases env d packet protocolNumber r d' hup h
  rcases hcase with ⟨_, _, x, g, hpeek, hpay, hoff, henc⟩ | ⟨_, hoff, henc⟩
  · exact ⟨g, 0x4021, hoff, hpeek, fun _ => ⟨x, henc, hpay⟩, fun _ => rfl⟩
  · refine ⟨_, tag, hoff, rfl, ?_, ?_⟩
    · intro h4
      rcases EtherToPpp_ok _ _ htag with ⟨_, h⟩ | ⟨h, _⟩ | ⟨_, h⟩
      · omega
      · exact absurd h hproto
      · omega
    · rintro ⟨x, hx, _⟩
      rw [henc] at hx
      have := congrArg List.length hx
      simp at this

/-- Witness of C10 amended: protocol 0x0800 with compress enabled. -/
theorem send_tag_unambiguous_witness :
    ∃ r d',
      Send (exampleEnv List.reverse List.reverse) (exampleDevice true false)
        (exampleDatagram [104, 105]) 0x0800 = .ok (r, d') ∧
      ∃ g tag,
        offeredToQueue d'.trace = offeredToQueue (exampleDevice true false).trace ++ [g] ∧
        g.PeekHeaderPpp = .ok ⟨tag⟩ ∧
        (tag = 0x4021 ↔
          ∃ x, encodeCalls d'.trace = encodeCalls (exampleDevice true false).trace ++ [x] ∧
            g.payload = (exampleEnv List.reverse List.reverse).zlib_compress_string x) :=
  ⟨_, _, rfl, send_tag_unambiguous (exampleEnv List.reverse List.reverse)
    (exampleDevice true false) (exampleDatagram [104, 105]) 0x0800 _ _ rfl (by decide) rfl⟩

end PointToPointNetDevice

/-! ## Lemmas about the protocol maps, the receive path and the state machine -/

/-- The transmit slot after more calls: the calls are folded from the slot reached so far. -/
theorem transmitSlot_append (t es : List Event) :
    transmitSlot (t ++ es) =
      es.foldl (fun o e => o.bind (fun occupied => slotStep occupied e)) (transmitSlot t) := by
  simp [transmitSlot, List.foldl_append]

namespace PointToPointNetDevice

/-- The tags `PppToEther` accepts and their protocol numbers. -/
theorem PppToEther_ok_iff (proto v : Nat) :
    PppToEther proto = .ok v ↔
      (proto = 0x0021 ∧ v = 0x0800) ∨ (proto = 0x4021 ∧ v = 0x0800) ∨
        (proto = 0x0057 ∧ v = 0x86DD) := by
  unfold PppToEther
  split_ifs with h1 h2 h3 <;> simp [Except.ok.injEq] <;> omega

/-- The protocol numbers `EtherToPpp` accepts and their tags. -/
theorem EtherToPpp_ok_iff (proto v : Nat) :
    EtherToPpp proto = .ok v ↔
      (proto = 0x0800 ∧ v = 0x0021) ∨ (proto = 0x0801 ∧ v = 0x4021) ∨
        (proto = 0x86DD ∧ v = 0x0057) := by
  unfold EtherToPpp
  split_ifs with h1 h2 h3 <;> simp [Except.ok.injEq] <;> omega

/-- The result of `Receive` on a frame the error model flags, on a device with its node:
one drop trace, whatever the frame. -/
theorem Receive_corrupt (env : Env) (d : PointToPointNetDevice) (packet : Packet)
    (hnode : d.m_node = true)
    (hm : d.m_receiveErrorModel = true) (hc : env.IsCorrupt packet = true) :
    Receive env d packet = .ok (d.emit (.phyRxDropTrace packet)) := by
  simp [Receive, hnode, hm, hc, pure, Except.pure]

/-- The result of `Receive` when the decompression branch is taken on a frame of PPP, IPv4,
UDP and SeqTs headers. -/
theorem Receive_decompress (env : Env) (d : PointToPointNetDevice)
    (ipv4Header : Ipv4Header) (udpHeader : UdpHeader) (seqTsHeader : SeqTsHeader)
    (cData : List Nat) (hatt : attached env d)
    (hnc : ¬ (d.m_receiveErrorModel = true ∧ env.IsCorrupt
      ⟨[.ppp ⟨0x4021⟩, .ipv4 ipv4Header, .udp udpHeader, .seqTs seqTsHeader], cData⟩ = true))
    (hdec : d.decompress = true) :
    Receive env d
        ⟨[.ppp ⟨0x4021⟩, .ipv4 ipv4Header, .udp udpHeader, .seqTs seqTsHeader], cData⟩ =
      .ok { d with
        trace := d.trace ++
          [.zlibDecompress cData,
            .snifferTrace ⟨.ppp ⟨0x0021⟩ :: rebuiltChain env ipv4Header udpHeader seqTsHeader
              ((env.zlib_decompress_string cData).drop 6),
              (env.zlib_decompress_string cData).drop 6⟩,
            .promiscSnifferTrace ⟨.ppp ⟨0x0021⟩ ::
              rebuiltChain env ipv4Header udpHeader seqTsHeader
                ((env.zlib_decompress_string cData).drop 6),
              (env.zlib_decompress_string cData).drop 6⟩,
            .phyRxEndTrace ⟨.ppp ⟨0x0021⟩ :: rebuiltChain env ipv4Header udpHeader seqTsHeader
              ((env.zlib_decompress_string cData).drop 6),
              (env.zlib_decompress_string cData).drop 6⟩] ++
          (if d.m_promiscCallback = true then
            [.macPromiscRxTrace ⟨.ppp ⟨0x0021⟩ ::
                rebuiltChain env ipv4Header udpHeader seqTsHeader
                  ((env.zlib_decompress_string cData).drop 6),
                (env.zlib_decompress_string cData).drop 6⟩,
              .promiscCallback ⟨rebuiltChain env ipv4Header udpHeader seqTsHeader
                  ((env.zlib_decompress_string cData).drop 6),
                (env.zlib_decompress_string cData).drop 6⟩ 0x0800]
           else []) ++
          [.macRxTrace ⟨.ppp ⟨0x0021⟩ :: rebuiltChain env ipv4Header udpHeader seqTsHeader
              ((env.zlib_decompress_string cData).drop 6),
              (env.zlib_decompress_string cData).drop 6⟩,
            .rxCallback ⟨rebuiltChain env ipv4Header udpHeader seqTsHeader
                ((env.zlib_decompress_string cData).drop 6),
              (env.zlib_decompress_string cData).drop 6⟩ 0x0800] } := by
  obtain ⟨r, hr⟩ := GetRemote_attached env d hatt
  have hnode : d.m_node = true := hatt.1
  cases hp : d.m_promiscCallback <;>
    simp [Receive, hnode, hnc, hdec, Packet.PeekHeaderPpp, ReceiveDecompress_frame,
      ProcessHeader, Packet.RemoveHeaderPpp, PppToEther, bind, Except.bind, pure, Except.pure,
      hp, emit, rebuiltChain, hr]

/-- The end of `Send` when the queue refuses the frame. -/
theorem SendEnqueue_refused (env : Env) (d : PointToPointNetDevice) (g : Packet) (q : Queue)
    (hq : d.m_queue = some q) (hfull : ¬ q.m_packets.length < q.m_maxSize) :
    SendEnqueue env d g =
      .ok (false, { d with
        trace := d.trace ++ [.macTxTrace g, .enqueue g false, .macTxDropTrace g] }) := by
  rcases d with ⟨st, cur, up, mq, ch, gap, em, pc, c, dc, tr⟩
  simp only at hq
  subst hq
  simp [SendEnqueue, emit, Queue.Enqueue, hfull]

/-- The end of `Send` when the queue accepts the frame and the device is BUSY. -/
theorem SendEnqueue_busy (env : Env) (d : PointToPointNetDevice) (g : Packet) (q : Queue)
    (hq : d.m_queue = some q) (hacc : q.m_packets.length < q.m_maxSize)
    (hbusy : d.m_txMachineState = .BUSY) :
    SendEnqueue env d g =
      .ok (true, { d with
        m_queue := some { q with m_packets := q.m_packets ++ [g] }
        trace := d.trace ++ [.macTxTrace g, .enqueue g true] }) := by
  simp [SendEnqueue, emit, Queue.Enqueue, hacc, hq, hbusy]

/-- The end of `Send` when the queue accepts the frame and the device is READY: the head of
the queue is dequeued and transmitted. -/
theorem SendEnqueue_ready (env : Env) (d : PointToPointNetDevice) (g head : Packet)
    (rest : List Packet) (q : Queue)
    (hq : d.m_queue = some q) (hacc : q.m_packets.length < q.m_maxSize)
    (hready : d.m_txMachineState = .READY) (hch : d.m_channel = true)
    (hhead : q.m_packets ++ [g] = head :: rest) :
    SendEnqueue env d g =
      .ok (env.channelTransmitStart head (env.CalculateBytesTxTime (head.GetSize env)),
        { d with
          m_txMachineState := .BUSY
          m_currentPkt := some head
          m_queue := some { q with m_packets := rest }
          trace := d.trace ++
            [.macTxTrace g, .enqueue g true, .dequeue (some head), .snifferTrace head,
              .promiscSnifferTrace head, .phyTxBeginTrace head,
              .schedule (env.CalculateBytesTxTime (head.GetSize env) + d.m_tInterframeGap),
              .channelTransmitStart head (env.CalculateBytesTxTime (head.GetSize env))
                (env.channelTransmitStart head
                  (env.CalculateBytesTxTime (head.GetSize env)))] ++
            (if env.channelTransmitStart head
                (env.CalculateBytesTxTime (head.GetSize env)) = false
              then [.phyTxDropTrace head] else []) }) := by
  unfold SendEnqueue
  simp only [emit_m_queue, hq, Queue.Enqueue, hacc, if_true, emit_m_txMachineState, hready,
    Queue.Dequeue, hhead]
  rw [TransmitStart_ready _ _ _ (by simp [hready]) (by simp [hch])]
  simp [emit]

/-- The three ways in which the end of `Send` returns. -/
theorem SendEnqueue_ok_cases (env : Env) (d d' : PointToPointNetDevice) (g : Packet)
    (r : Bool) (h : SendEnqueue env d g = .ok (r, d')) :
    ∃ q, d.m_queue = some q ∧
      ((¬ q.m_packets.length < q.m_maxSize) ∨
       (q.m_packets.length < q.m_maxSize ∧ d.m_txMachineState = .BUSY) ∨
       (q.m_packets.length < q.m_maxSize ∧ d.m_txMachineState = .READY ∧
         d.m_channel = true ∧ ∃ head rest, q.m_packets ++ [g] = head :: rest)) := by
  cases hq : d.m_queue with
  | none => simp [SendEnqueue, hq] at h
  | some q =>
    refine ⟨q, rfl, ?_⟩
    by_cases hacc : q.m_packets.length < q.m_maxSize
    · right
      cases hst : d.m_txMachineState with
      | BUSY => exact Or.inl ⟨hacc, rfl⟩
      | READY =>
        right
        have hne : ∃ head rest, q.m_packets ++ [g] = head :: rest := by
          cases hp : q.m_packets with
          | nil => exact ⟨g, [], rfl⟩
          | cons a l => exact ⟨a, l ++ [g], rfl⟩
        obtain ⟨head, rest, hhead⟩ := hne
        refine ⟨hacc, rfl, ?_, head, rest, hhead⟩
        unfold SendEnqueue at h
        simp only [emit_m_queue, hq, Queue.Enqueue, hacc, if_true, emit_m_txMachineState,
          hst, Queue.Dequeue, hhead] at h
        have := (TransmitStart_ok _ _ _ _ _ h).2
        simpa using this
    · exact Or.inl hacc

/-- A returning `Send` with the link up has run its end on the device, after at most one codec
call. -/
theorem Send_ok_enqueue (env : Env) (d d' : PointToPointNetDevice) (packet : Packet)
    (protocolNumber : Nat) (r : Bool) (hup : d.m_linkUp = true)
    (h : Send env d packet protocolNumber = .ok (r, d')) :
    ∃ g pre, (pre = [] ∨ ∃ x, pre = [Event.zlibCompress x]) ∧
      SendEnqueue env { d with trace := d.trace ++ pre } g = .ok (r, d') := by
  rw [Send_linkUp env d _ _ hup] at h
  cases htag : EtherToPpp protocolNumber with
  | error e => simp [htag] at h
  | ok tag =>
    simp only [htag] at h
    by_cases hc : d.compress = true ∧ tag = 33
    · rw [if_pos hc] at h
      cases hsc : SendCompress env d (packet.AddHeader (.ppp ⟨tag⟩)) with
      | error e => simp [hsc] at h
      | ok v =>
        obtain ⟨g, d1⟩ := v
        simp only [hsc] at h
        obtain ⟨t, i, u, s, hshape⟩ := SendCompress_ok_shape _ _ _ _ _ hsc
        rw [hshape, SendCompress_frame] at hsc
        injection hsc with hsc
        injection hsc with hg hd1
        rw [← hd1] at h
        exact ⟨g, [.zlibCompress (protocolString ++ (packet.AddHeader (.ppp ⟨tag⟩)).payload)],
          Or.inr ⟨_, rfl⟩, h⟩
    · rw [if_neg hc] at h
      refine ⟨packet.AddHeader (.ppp ⟨tag⟩), [], Or.inl rfl, ?_⟩
      simpa using h

/-- The result of `Send` when the link is down. -/
theorem Send_linkDown (env : Env) (d : PointToPointNetDevice) (packet : Packet)
    (protocolNumber : Nat) (hdown : d.m_linkUp = false) :
    Send env d packet protocolNumber = .ok (false, d.emit (.macTxDropTrace packet)) := by
  simp [Send, hdown, pure, Except.pure]

/-- With the link up, an accepted protocol number and, in the compression branch, a packet of
IPv4, UDP and SeqTs headers, `Send` reaches its end. -/
theorem Send_eq_enqueue (env : Env) (d : PointToPointNetDevice) (packet : Packet)
    (protocolNumber tag : Nat) (hup : d.m_linkUp = true)
    (htag : EtherToPpp protocolNumber = .ok tag)
    (hshape : ¬ (d.compress = true ∧ tag = 0x0021) ∨
      ∃ i u s, packet.headers = [.ipv4 i, .udp u, .seqTs s]) :
    ∃ g pre, (pre = [] ∨ ∃ x, pre = [Event.zlibCompress x]) ∧
      Send env d packet protocolNumber =
        SendEnqueue env { d with trace := d.trace ++ pre } g := by
  rw [Send_linkUp env d _ _ hup, htag]
  by_cases hc : d.compress = true ∧ tag = 33
  · rcases hshape with h | ⟨i, u, s, hs⟩
    · exact absurd hc h
    · rcases packet with ⟨hdrs, payload⟩
      simp only at hs
      subst hs
      refine ⟨⟨.ppp ⟨0x4021⟩ :: rebuiltChain env i u s
          (env.zlib_compress_string (protocolString ++ payload)),
          env.zlib_compress_string (protocolString ++ payload)⟩,
        [.zlibCompress (protocolString ++ payload)], Or.inr ⟨_, rfl⟩, ?_⟩
      simp only [if_pos hc, Packet.AddHeader, SendCompress_frame]
      rfl
  · refine ⟨packet.AddHeader (.ppp ⟨tag⟩), [], Or.inl rfl, ?_⟩
    simp [hc]

/-- The result of `TransmitComplete` when the queue is empty. -/
theorem TransmitComplete_idle (env : Env) (d : PointToPointNetDevice) (cur : Packet)
    (q : Queue) (hbusy : d.m_txMachineState = .BUSY) (hcur : d.m_currentPkt = some cur)
    (hq : d.m_queue = some q) (hempty : q.m_packets = []) :
    TransmitComplete env d =
      .ok { d with
        m_txMachineState := .READY
        m_currentPkt := none
        m_queue := some q
        trace := d.trace ++ [.phyTxEndTrace cur, .dequeue none] } := by
  simp [TransmitComplete, hbusy, hcur, hq, emit, Queue.Dequeue, hempty]

/-- The result of `TransmitComplete` when the queue holds a frame. -/
theorem TransmitComplete_next (env : Env) (d : PointToPointNetDevice) (cur head : Packet)
    (rest : List Packet) (q : Queue) (hbusy : d.m_txMachineState = .BUSY)
    (hcur : d.m_currentPkt = some cur) (hq : d.m_queue = some q)
    (hhead : q.m_packets = head :: rest) (hch : d.m_channel = true) :
    TransmitComplete env d =
      .ok { d with
        m_txMachineState := .BUSY
        m_currentPkt := some head
        m_queue := some { q with m_packets := rest }
        trace := d.trace ++
          [.phyTxEndTrace cur, .dequeue (some head), .snifferTrace head,
            .promiscSnifferTrace head, .phyTxBeginTrace head,
            .schedule (env.CalculateBytesTxTime (head.GetSize env) + d.m_tInterframeGap),
            .channelTransmitStart head (env.CalculateBytesTxTime (head.GetSize env))
              (env.channelTransmitStart head
                (env.CalculateBytesTxTime (head.GetSize env)))] ++
          (if env.channelTransmitStart head
              (env.CalculateBytesTxTime (head.GetSize env)) = false
            then [.phyTxDropTrace head] else []) } := by
  unfold TransmitComplete
  simp only [hbusy, ne_eq, not_true_eq_false, if_false, hcur, emit_m_queue, hq, Queue.Dequeue,
    hhead]
  rw [TransmitStart_ready _ _ _ (by simp) (by simp [hch])]
  simp [emit]

/-- The two ways in which `TransmitComplete` returns. -/
theorem TransmitComplete_ok_cases (env : Env) (d d' : PointToPointNetDevice)
    (h : TransmitComplete env d = .ok d') :
    d.m_txMachineState = .BUSY ∧ ∃ cur q, d.m_currentPkt = some cur ∧ d.m_queue = some q ∧
      (q.m_packets = [] ∨ ∃ head rest, q.m_packets = head :: rest ∧ d.m_channel = true) := by
  by_cases hbusy : d.m_txMachineState = .BUSY
  · refine ⟨hbusy, ?_⟩
    cases hcur : d.m_currentPkt with
    | none => simp [TransmitComplete, hbusy, hcur] at h
    | some cur =>
      cases hq : d.m_queue with
      | none => simp [TransmitComplete, hbusy, hcur, hq] at h
      | some q =>
        refine ⟨cur, q, rfl, rfl, ?_⟩
        cases hp : q.m_packets with
        | nil => exact Or.inl rfl
        | cons head rest =>
          refine Or.inr ⟨head, rest, rfl, ?_⟩
          unfold TransmitComplete at h
          simp only [hbusy, ne_eq, not_true_eq_false, if_false, hcur, emit_m_queue, hq,
            Queue.Dequeue, hp] at h
          split at h
          · rename_i r d2 heq
            have := (TransmitStart_ok _ _ _ _ _ heq).2
            simpa using this
          · cases h
  · simp [TransmitComplete, hbusy] at h

/-- What a returning `Send` does to the transmit state machine: nothing, or one start of a
transmission on a READY device. -/
theorem Send_effect (env : Env) (d d' : PointToPointNetDevice) (packet : Packet)
    (protocolNumber : Nat) (r : Bool)
    (h : Send env d packet protocolNumber = .ok (r, d')) :
    (d'.m_txMachineState = d.m_txMachineState ∧ d'.m_currentPkt = d.m_currentPkt ∧
      scheduledEvents d'.trace = scheduledEvents d.trace ∧
      transmitSlot d'.trace = transmitSlot d.trace) ∨
    (d.m_txMachineState = .READY ∧ d'.m_txMachineState = .BUSY ∧
      (∃ head, d'.m_currentPkt = some head) ∧
      (∃ t, scheduledEvents d'.trace = scheduledEvents d.trace ++ [t]) ∧
      transmitSlot d'.trace =
        (transmitSlot d.trace).bind (fun occupied => if occupied then none else some true)) := by
  by_cases hup : d.m_linkUp = true
  · obtain ⟨g, pre, hpre, he⟩ := Send_ok_enqueue env d d' packet protocolNumber r hup h
    obtain ⟨q, hq, hcase⟩ := SendEnqueue_ok_cases _ _ _ _ _ he
    simp only at hq
    rcases hcase with hfull | ⟨hacc, hbusy⟩ | ⟨hacc, hready, hch, head, rest, hhead⟩
    · left
      rw [SendEnqueue_refused env { d with trace := d.trace ++ pre } g q hq hfull] at he
      injection he with he
      injection he with hr hd
      subst hd
      rcases hpre with rfl | ⟨x, rfl⟩ <;>
        simp [scheduledEvents, List.filterMap_append, transmitSlot_append, slotStep]
    · left
      rw [SendEnqueue_busy env { d with trace := d.trace ++ pre } g q hq hacc hbusy] at he
      injection he with he
      injection he with hr hd
      subst hd
      rcases hpre with rfl | ⟨x, rfl⟩ <;>
        simp [scheduledEvents, List.filterMap_append, transmitSlot_append, slotStep]
    · right
      rw [SendEnqueue_ready env { d with trace := d.trace ++ pre } g head rest q hq hacc hready
        hch hhead] at he
      injection he with he
      injection he with hr hd
      subst hd
      simp only at hready
      refine ⟨hready, rfl, ⟨head, rfl⟩,
        ⟨env.CalculateBytesTxTime (head.GetSize env) + d.m_tInterframeGap, ?_⟩, ?_⟩
      · rcases hpre with rfl | ⟨x, rfl⟩ <;> split <;>
          simp [scheduledEvents, List.filterMap_append]
      · cases hslot : transmitSlot d.trace with
        | none =>
          rcases hpre with rfl | ⟨x, rfl⟩ <;> split <;>
            simp [transmitSlot_append, slotStep, hslot]
        | some o =>
          rcases hpre with rfl | ⟨x, rfl⟩ <;> split <;> cases o <;>
            simp [transmitSlot_append, slotStep, hslot]
  · left
    have hdown : d.m_linkUp = false := by simpa using hup
    rw [Send_linkDown env d packet protocolNumber hdown] at h
    injection h with h
    injection h with hr hd
    subst hd
    simp [scheduledEvents, List.filterMap_append, transmitSlot_append, slotStep, emit]

/-- What a returning `TransmitComplete` does to the transmit state machine. -/
theorem TransmitComplete_effect (env : Env) (d d' : PointToPointNetDevice)
    (h : TransmitComplete env d = .ok d') :
    d.m_txMachineState = .BUSY ∧ (∃ cur, d.m_currentPkt = some cur) ∧
    ((d'.m_txMachineState = .READY ∧ d'.m_currentPkt = none ∧
        scheduledEvents d'.trace = scheduledEvents d.trace ∧
        transmitSlot d'.trace =
          (transmitSlot d.trace).bind (fun occupied => if occupied then some false else none)) ∨
     (d'.m_txMachineState = .BUSY ∧ (∃ head, d'.m_currentPkt = some head) ∧
        (∃ t, scheduledEvents d'.trace = scheduledEvents d.trace ++ [t]) ∧
        transmitSlot d'.trace =
          (transmitSlot d.trace).bind
            (fun occupied => if occupied then some true else none))) := by
  obtain ⟨hbusy, cur, q, hcur, hq, hcase⟩ := TransmitComplete_ok_cases env d d' h
  refine ⟨hbusy, ⟨cur, hcur⟩, ?_⟩
  rcases hcase with hempty | ⟨head, rest, hhead, hch⟩
  · left
    rw [TransmitComplete_idle env d cur q hbusy hcur hq hempty] at h
    injection h with h
    subst h
    refine ⟨rfl, rfl, ?_, ?_⟩
    · simp [scheduledEvents, List.filterMap_append]
    · cases hslot : transmitSlot d.trace with
      | none => simp [transmitSlot_append, slotStep, hslot]
      | some o => cases o <;> simp [transmitSlot_append, slotStep, hslot]
  · right
    rw [TransmitComplete_next env d cur head rest q hbusy hcur hq hhead hch] at h
    injection h with h
    subst h
    refine ⟨rfl, ⟨head, rfl⟩,
      ⟨env.CalculateBytesTxTime (head.GetSize env) + d.m_tInterframeGap, ?_⟩, ?_⟩
    · split <;> simp [scheduledEvents, List.filterMap_append]
    · cases hslot : transmitSlot d.trace with
      | none => split <;> simp [transmitSlot_append, slotStep, hslot]
      | some o => split <;> cases o <;> simp [transmitSlot_append, slotStep, hslot]

/-- In every reachable state the device is BUSY exactly when one completion event is pending,
holds a current frame exactly when it is BUSY, and the slot was never filled twice. -/
theorem Reachable_invariant (env : Env) (s : Simulation) (h : Reachable env s) :
    (scheduledEvents s.device.trace).length =
        s.fired + (if s.device.m_txMachineState = .BUSY then 1 else 0) ∧
      (s.device.m_currentPkt = none ↔ s.device.m_txMachineState = .READY) ∧
      transmitSlot s.device.trace = some (decide (s.device.m_txMachineState = .BUSY)) := by
  induction h with
  | start d hd =>
    obtain ⟨hst, hcur, -, htr⟩ := hd
    simp [hst, hcur, htr, scheduledEvents, transmitSlot]
  | next s s' a hs hen hstep ih =>
    obtain ⟨ih1, ih2, ih3⟩ := ih
    cases a with
    | send packet protocolNumber =>
      simp only [Simulation.step] at hstep
      split at hstep
      · rename_i r d' hsend
        injection hstep with hstep
        subst hstep
        simp only
        rcases Send_effect env s.device d' packet protocolNumber r hsend with
          ⟨h1, h2, h3, h4⟩ | ⟨hready, h1, ⟨head, h2⟩, ⟨t, h3⟩, h4⟩
        · rw [h1, h2, h3, h4]
          exact ⟨ih1, ih2, ih3⟩
        · rw [h1, h2, h3, h4, ih3]
          simp [hready] at ih1 ⊢
          omega
      · cases hstep
    | complete =>
      simp only [Simulation.step] at hstep
      split at hstep
      · rename_i d' hcomp
        injection hstep with hstep
        subst hstep
        simp only
        obtain ⟨hbusy, -, hcase⟩ := TransmitComplete_effect env s.device d' hcomp
        simp only [Simulation.enabled] at hen
        rcases hcase with ⟨h1, h2, h3, h4⟩ | ⟨h1, ⟨head, h2⟩, ⟨t, h3⟩, h4⟩
        · rw [h1, h2, h3, h4, ih3]
          simp [hbusy] at ih1 ⊢
          omega
        · rw [h1, h2, h3, h4, ih3]
          simp [hbusy] at ih1 ⊢
          omega
      · cases hstep

/-- On a READY device `TransmitStart` does not fail its assertion. -/
theorem TransmitStart_ready_error (env : Env) (d : PointToPointNetDevice) (p : Packet)
    (hready : d.m_txMachineState = .READY) :
    TransmitStart env d p ≠ .error .mustBeReady := by
  by_cases hch : d.m_channel = true
  · rw [TransmitStart_ready env d p hready hch]
    simp
  · simp [TransmitStart, hready, hch]

/-- The end of `Send` never fails the assertion of `TransmitStart`. -/
theorem SendEnqueue_error (env : Env) (d : PointToPointNetDevice) (g : Packet) :
    SendEnqueue env d g ≠ .error .mustBeReady := by
  cases hq : d.m_queue with
  | none => simp [SendEnqueue, hq]
  | some q =>
    by_cases hacc : q.m_packets.length < q.m_maxSize
    · cases hst : d.m_txMachineState with
      | BUSY => rw [SendEnqueue_busy env d g q hq hacc hst]; simp
      | READY =>
        have hne : ∃ head rest, q.m_packets ++ [g] = head :: rest := by
          cases hp : q.m_packets with
          | nil => exact ⟨g, [], rfl⟩
          | cons a l => exact ⟨a, l ++ [g], rfl⟩
        obtain ⟨head, rest, hhead⟩ := hne
        unfold SendEnqueue
        simp only [emit_m_queue, hq, Queue.Enqueue, hacc, if_true, emit_m_txMachineState,
          hst, Queue.Dequeue, hhead]
        exact TransmitStart_ready_error _ _ _ (by simp [hst])
    · rw [SendEnqueue_refused env d g q hq hacc]; simp

/-- The compression branch fails only by reading a header the packet does not hold. -/
theorem SendCompress_error (env : Env) (d : PointToPointNetDevice) (p : Packet) (e : Fatal)
    (h : SendCompress env d p = .error e) : e = .notDeserializable := by
  rcases p with ⟨hs, data⟩
  rcases hs with _ | ⟨h1, hs⟩
  · simp [SendCompress, Packet.RemoveHeaderPpp, bind, Except.bind] at h; exact h.symm
  cases h1 <;> first
    | (simp [SendCompress, Packet.RemoveHeaderPpp, bind, Except.bind] at h; exact h.symm)
    | skip
  rcases hs with _ | ⟨h2, hs⟩
  · simp [SendCompress, Packet.RemoveHeaderPpp, Packet.RemoveHeaderIpv4, bind,
      Except.bind] at h
    exact h.symm
  cases h2 <;> first
    | (simp [SendCompress, Packet.RemoveHeaderPpp, Packet.RemoveHeaderIpv4, bind,
        Except.bind] at h; exact h.symm)
    | skip
  rcases hs with _ | ⟨h3, hs⟩
  · simp [SendCompress, Packet.RemoveHeaderPpp, Packet.RemoveHeaderIpv4,
      Packet.RemoveHeaderUdp, bind, Except.bind] at h
    exact h.symm
  cases h3 <;> first
    | (simp [SendCompress, Packet.RemoveHeaderPpp, Packet.RemoveHeaderIpv4,
        Packet.RemoveHeaderUdp, bind, Except.bind] at h; exact h.symm)
    | skip
  rcases hs with _ | ⟨h4, hs⟩
  · simp [SendCompress, Packet.RemoveHeaderPpp, Packet.RemoveHeaderIpv4,
      Packet.RemoveHeaderUdp, Packet.RemoveHeaderSeqTs, bind, Except.bind] at h
    exact h.symm
  cases h4 <;> first
    | (simp [SendCompress, Packet.RemoveHeaderPpp, Packet.RemoveHeaderIpv4,
        Packet.RemoveHeaderUdp, Packet.RemoveHeaderSeqTs, bind, Except.bind] at h
       exact h.symm)
    | skip
  rcases hs with _ | ⟨h5, hs⟩
  · rw [SendCompress_frame] at h
    cases h
  · simp [SendCompress, Packet.RemoveHeaderPpp, Packet.RemoveHeaderIpv4,
      Packet.RemoveHeaderUdp, Packet.RemoveHeaderSeqTs, Packet.CopyData, bind,
      Except.bind] at h
    exact h.symm

/-- The decompression branch fails only by reading a header the packet does not hold. -/
theorem ReceiveDecompress_error (env : Env) (d : PointToPointNetDevice) (p : Packet)
    (e : Fatal) (h : ReceiveDecompress env d p = .error e) : e = .notDeserializable := by
  rcases p with ⟨hs, data⟩
  rcases hs with _ | ⟨h1, hs⟩
  · simp [ReceiveDecompress, Packet.RemoveHeaderPpp, bind, Except.bind] at h; exact h.symm
  cases h1 <;> first
    | (simp [ReceiveDecompress, Packet.RemoveHeaderPpp, bind, Except.bind] at h
       exact h.symm)
    | skip
  rcases hs with _ | ⟨h2, hs⟩
  · simp [ReceiveDecompress, Packet.RemoveHeaderPpp, Packet.RemoveHeaderIpv4, bind,
      Except.bind] at h
    exact h.symm
  cases h2 <;> first
    | (simp [ReceiveDecompress, Packet.RemoveHeaderPpp, Packet.RemoveHeaderIpv4, bind,
        Except.bind] at h; exact h.symm)
    | skip
  rcases hs with _ | ⟨h3, hs⟩
  · simp [ReceiveDecompress, Packet.RemoveHeaderPpp, Packet.RemoveHeaderIpv4,
      Packet.RemoveHeaderUdp, bind, Except.bind] at h
    exact h.symm
  cases h3 <;> first
    | (simp [ReceiveDecompress, Packet.RemoveHeaderPpp, Packet.RemoveHeaderIpv4,
        Packet.RemoveHeaderUdp, bind, Except.bind] at h; exact h.symm)
    | skip
  rcases hs with _ | ⟨h4, hs⟩
  · simp [ReceiveDecompress, Packet.RemoveHeaderPpp, Packet.RemoveHeaderIpv4,
      Packet.RemoveHeaderUdp, Packet.RemoveHeaderSeqTs, bind, Except.bind] at h
    exact h.symm
  cases h4 <;> first
    | (simp [ReceiveDecompress, Packet.RemoveHeaderPpp, Packet.RemoveHeaderIpv4,
        Packet.RemoveHeaderUdp, Packet.RemoveHeaderSeqTs, bind, Except.bind] at h
       exact h.symm)
    | skip
  rcases hs with _ | ⟨h5, hs⟩
  · rw [ReceiveDecompress_frame] at h
    cases h
  · simp [ReceiveDecompress, Packet.RemoveHeaderPpp, Packet.RemoveHeaderIpv4,
      Packet.RemoveHeaderUdp, Packet.RemoveHeaderSeqTs, Packet.CopyData, bind,
      Except.bind] at h
    exact h.symm

/-- Method `Send` never fails the assertion of `TransmitStart`. -/
theorem Send_error (env : Env) (d : PointToPointNetDevice) (packet : Packet)
    (protocolNumber : Nat) : Send env d packet protocolNumber ≠ .error .mustBeReady := by
  by_cases hup : d.m_linkUp = true
  · rw [Send_linkUp env d _ _ hup]
    cases htag : EtherToPpp protocolNumber with
    | error e =>
      unfold EtherToPpp at htag
      split_ifs at htag
      injection htag with htag
      subst htag
      simp
    | ok tag =>
      simp only
      split_ifs with hc
      · cases hsc : SendCompress env d (packet.AddHeader (.ppp ⟨tag⟩)) with
        | error e =>
          have := SendCompress_error _ _ _ _ hsc
          subst this
          simp
        | ok v =>
          obtain ⟨g, d1⟩ := v
          exact SendEnqueue_error env d1 g
      · exact SendEnqueue_error env d _
  · rw [Send_linkDown env d packet protocolNumber (by simpa using hup)]
    simp

/-- Method `TransmitComplete` never fails the assertion of `TransmitStart`. -/
theorem TransmitComplete_error (env : Env) (d : PointToPointNetDevice) :
    TransmitComplete env d ≠ .error .mustBeReady := by
  by_cases hbusy : d.m_txMachineState = .BUSY
  · cases hcur : d.m_currentPkt with
    | none => simp [TransmitComplete, hbusy, hcur]
    | some cur =>
      cases hq : d.m_queue with
      | none => simp [TransmitComplete, hbusy, hcur, hq]
      | some q =>
        cases hp : q.m_packets with
        | nil => rw [TransmitComplete_idle env d cur q hbusy hcur hq hp]; simp
        | cons head rest =>
          unfold TransmitComplete
          simp only [hbusy, ne_eq, not_true_eq_false, if_false, hcur, emit_m_queue, hq,
            Queue.Dequeue, hp]
          split
          · simp
          · rename_i e heq
            intro hcontra
            injection hcontra with hcontra
            subst hcontra
            exact TransmitStart_ready_error _ _ _ (by simp) heq
  · simp [TransmitComplete, hbusy]

/-- The run of the compression branch on a frame of PPP, IPv4, UDP and SeqTs headers around
`data`. -/
theorem SendCompressRun_frame (env : Env) (d : PointToPointNetDevice) (ppp : PppHeader)
    (ipv4Header : Ipv4Header) (udpHeader : UdpHeader) (seqTsHeader : SeqTsHeader)
    (data : List Nat) :
    SendCompressRun env d
        ⟨[.ppp ppp, .ipv4 ipv4Header, .udp udpHeader, .seqTs seqTsHeader], data⟩ =
      ⟨d.emit (.zlibCompress (protocolString ++ data)),
        .ok ⟨.ppp ⟨0x4021⟩ :: rebuiltChain env ipv4Header udpHeader seqTsHeader
            (env.zlib_compress_string (protocolString ++ data)),
          env.zlib_compress_string (protocolString ++ data)⟩⟩ := by
  simp [SendCompressRun, Packet.RemoveHeaderPpp, Packet.RemoveHeaderIpv4,
    Packet.RemoveHeaderUdp, Packet.RemoveHeaderSeqTs, Packet.CopyData, Packet.Create,
    Packet.AddHeader, Packet.GetSize, Header.GetSerializedSize, AddHeader, EtherToPpp,
    rebuiltChain, Nat.add_assoc]

/-- The run of the decompression branch on a frame of PPP, IPv4, UDP and SeqTs headers around
`cData`. -/
theorem ReceiveDecompressRun_frame (env : Env) (d : PointToPointNetDevice) (ppp : PppHeader)
    (ipv4Header : Ipv4Header) (udpHeader : UdpHeader) (seqTsHeader : SeqTsHeader)
    (cData : List Nat) :
    ReceiveDecompressRun env d
        ⟨[.ppp ppp, .ipv4 ipv4Header, .udp udpHeader, .seqTs seqTsHeader], cData⟩ =
      ⟨d.emit (.zlibDecompress cData),
        .ok ⟨.ppp ⟨0x0021⟩ :: rebuiltChain env ipv4Header udpHeader seqTsHeader
            ((env.zlib_decompress_string cData).drop 6),
          (env.zlib_decompress_string cData).drop 6⟩⟩ := by
  simp only [ReceiveDecompressRun, Packet.RemoveHeaderPpp, Packet.RemoveHeaderIpv4,
    Packet.RemoveHeaderUdp, Packet.RemoveHeaderSeqTs, Packet.CopyData, substr_head,
    substr_tail]
  simp [Packet.Create, Packet.AddHeader, Packet.GetSize, Header.GetSerializedSize, AddHeader,
    EtherToPpp, rebuiltChain, Nat.add_assoc]

/-- On a frame that is not made of PPP, IPv4, UDP and SeqTs headers the run of the
compression branch ends in a failed read, the device as it was. -/
theorem SendCompressRun_cases (env : Env) (d : PointToPointNetDevice) (p : Packet) :
    (∃ t i u s, p.headers = [.ppp t, .ipv4 i, .udp u, .seqTs s]) ∨
      SendCompressRun env d p = ⟨d, .error .notDeserializable⟩ := by
  rcases p with ⟨hs, data⟩
  rcases hs with _ | ⟨h1, hs⟩
  · right; simp [SendCompressRun, Packet.RemoveHeaderPpp]
  cases h1 <;> first
    | (right; simp [SendCompressRun, Packet.RemoveHeaderPpp]; done)
    | skip
  rcases hs with _ | ⟨h2, hs⟩
  · right; simp [SendCompressRun, Packet.RemoveHeaderPpp, Packet.RemoveHeaderIpv4]
  cases h2 <;> first
    | (right; simp [SendCompressRun, Packet.RemoveHeaderPpp, Packet.RemoveHeaderIpv4]; done)
    | skip
  rcases hs with _ | ⟨h3, hs⟩
  · right
    simp [SendCompressRun, Packet.RemoveHeaderPpp, Packet.RemoveHeaderIpv4,
      Packet.RemoveHeaderUdp]
  cases h3 <;> first
    | (right; simp [SendCompressRun, Packet.RemoveHeaderPpp, Packet.RemoveHeaderIpv4,
        Packet.RemoveHeaderUdp]; done)
    | skip
  rcases hs with _ | ⟨h4, hs⟩
  · right
    simp [SendCompressRun, Packet.RemoveHeaderPpp, Packet.RemoveHeaderIpv4,
      Packet.RemoveHeaderUdp, Packet.RemoveHeaderSeqTs]
  cases h4 <;> first
    | (right; simp [SendCompressRun, Packet.RemoveHeaderPpp, Packet.RemoveHeaderIpv4,
        Packet.RemoveHeaderUdp, Packet.RemoveHeaderSeqTs]; done)
    | skip
  rcases hs with _ | ⟨h5, hs⟩
  · left; exact ⟨_, _, _, _, rfl⟩
  · right
    simp [SendCompressRun, Packet.RemoveHeaderPpp, Packet.RemoveHeaderIpv4,
      Packet.RemoveHeaderUdp, Packet.RemoveHeaderSeqTs, Packet.CopyData]

/-- On a frame that is not made of PPP, IPv4, UDP and SeqTs headers the run of the
decompression branch ends in a failed read, the device as it was. -/
theorem ReceiveDecompressRun_cases (env : Env) (d : PointToPointNetDevice) (p : Packet) :
    (∃ t i u s, p.headers = [.ppp t, .ipv4 i, .udp u, .seqTs s]) ∨
      ReceiveDecompressRun env d p = ⟨d, .error .notDeserializable⟩ := by
  rcases p with ⟨hs, data⟩
  rcases hs with _ | ⟨h1, hs⟩
  · right; simp [ReceiveDecompressRun, Packet.RemoveHeaderPpp]
  cases h1 <;> first
    | (right; simp [ReceiveDecompressRun, Packet.RemoveHeaderPpp]; done)
    | skip
  rcases hs with _ | ⟨h2, hs⟩
  · right; simp [ReceiveDecompressRun, Packet.RemoveHeaderPpp, Packet.RemoveHeaderIpv4]
  cases h2 <;> first
    | (right; simp [ReceiveDecompressRun, Packet.RemoveHeaderPpp, Packet.RemoveHeaderIpv4]
       done)
    | skip
  rcases hs with _ | ⟨h3, hs⟩
  · right
    simp [ReceiveDecompressRun, Packet.RemoveHeaderPpp, Packet.RemoveHeaderIpv4,
      Packet.RemoveHeaderUdp]
  cases h3 <;> first
    | (right; simp [ReceiveDecompressRun, Packet.RemoveHeaderPpp, Packet.RemoveHeaderIpv4,
        Packet.RemoveHeaderUdp]; done)
    | skip
  rcases hs with _ | ⟨h4, hs⟩
  · right
    simp [ReceiveDecompressRun, Packet.RemoveHeaderPpp, Packet.RemoveHeaderIpv4,
      Packet.RemoveHeaderUdp, Packet.RemoveHeaderSeqTs]
  cases h4 <;> first
    | (right; simp [ReceiveDecompressRun, Packet.RemoveHeaderPpp, Packet.RemoveHeaderIpv4,
        Packet.RemoveHeaderUdp, Packet.RemoveHeaderSeqTs]; done)
    | skip
  rcases hs with _ | ⟨h5, hs⟩
  · left; exact ⟨_, _, _, _, rfl⟩
  · right
    simp [ReceiveDecompressRun, Packet.RemoveHeaderPpp, Packet.RemoveHeaderIpv4,
      Packet.RemoveHeaderUdp, Packet.RemoveHeaderSeqTs, Packet.CopyData]

/-- The compression branch returns what its run ends with. -/
theorem SendCompress_run (env : Env) (d : PointToPointNetDevice) (p : Packet) :
    SendCompress env d p = (SendCompressRun env d p).toExcept := by
  rcases SendCompressRun_cases env d p with ⟨t, i, u, s, hs⟩ | hfail
  · rcases p with ⟨hs', data⟩
    simp only at hs
    subst hs
    rw [SendCompress_frame, SendCompressRun_frame]
    simp [Ended.toExcept, rebuiltChain]
  · rw [hfail]
    cases h : SendCompress env d p with
    | error e =>
      rw [SendCompress_error env d p e h]
      rfl
    | ok v =>
      obtain ⟨g, d1⟩ := v
      obtain ⟨t, i, u, s, hshape⟩ := SendCompress_ok_shape _ _ _ _ _ h
      rw [hshape, SendCompressRun_frame] at hfail
      simp at hfail

/-- The decompression branch returns what its run ends with. -/
theorem ReceiveDecompress_run (env : Env) (d : PointToPointNetDevice) (p : Packet) :
    ReceiveDecompress env d p = (ReceiveDecompressRun env d p).toExcept := by
  rcases ReceiveDecompressRun_cases env d p with ⟨t, i, u, s, hs⟩ | hfail
  · rcases p with ⟨hs', data⟩
    simp only at hs
    subst hs
    rw [ReceiveDecompress_frame, ReceiveDecompressRun_frame]
    simp [Ended.toExcept, rebuiltChain]
  · rw [hfail]
    cases h : ReceiveDecompress env d p with
    | error e =>
      rw [ReceiveDecompress_error env d p e h]
      rfl
    | ok v =>
      obtain ⟨g, d1⟩ := v
      obtain ⟨t, i, u, s, hshape⟩ := ReceiveDecompress_ok_shape _ _ _ _ _ h
      rw [hshape, ReceiveDecompressRun_frame] at hfail
      simp at hfail

/-- Method `TransmitStart` returns what its run ends with. -/
theorem TransmitStart_run (env : Env) (d : PointToPointNetDevice) (p : Packet) :
    TransmitStart env d p = (TransmitStartRun env d p).toExcept := by
  unfold TransmitStart TransmitStartRun
  by_cases h1 : d.m_txMachineState = .READY
  · by_cases h2 : d.m_channel = true
    · by_cases h3 : env.channelTransmitStart p (env.CalculateBytesTxTime (p.GetSize env)) = true
      · simp [h1, h2, h3, emit, Ended.toExcept]
      · simp at h3
        simp [h1, h2, h3, emit, Ended.toExcept]
    · simp at h2
      simp [h1, h2, emit, Ended.toExcept]
  · simp [h1, Ended.toExcept]

/-- Method `TransmitComplete` returns what its run ends with. -/
theorem TransmitComplete_run (env : Env) (d : PointToPointNetDevice) :
    TransmitComplete env d = (TransmitCompleteRun env d).toDevice := by
  unfold TransmitComplete TransmitCompleteRun
  by_cases h1 : d.m_txMachineState = .BUSY
  · cases hcur : d.m_currentPkt with
    | none => simp [h1, hcur, Ended.toDevice]
    | some cur =>
      cases hq : d.m_queue with
      | none => simp [h1, hcur, hq, Ended.toDevice, emit]
      | some q =>
        cases hp : q.m_packets with
        | nil => simp [h1, hcur, hq, Ended.toDevice, emit, Queue.Dequeue, hp]
        | cons head rest =>
          simp only [h1, hcur, hq, emit, Queue.Dequeue, hp, ne_eq, not_true_eq_false,
            if_false, TransmitStart_run]
          generalize TransmitStartRun env _ head = r
          rcases r with ⟨dev, res⟩
          cases res <;> simp [Ended.toDevice, Ended.toExcept, bind, Except.bind]
  · simp [h1, Ended.toDevice]

/-- The end of `Send` returns what its run ends with. -/
theorem SendEnqueue_run (env : Env) (d : PointToPointNetDevice) (p : Packet) :
    SendEnqueue env d p = (SendEnqueueRun env d p).toExcept := by
  unfold SendEnqueue SendEnqueueRun
  cases hq : d.m_queue with
  | none => simp [emit, hq, Ended.toExcept]
  | some q =>
    rcases q with ⟨pk, mx⟩
    by_cases hlt : pk.length < mx
    · by_cases hr : d.m_txMachineState = .READY
      · cases pk with
        | nil =>
          simp only [emit, hq, Queue.Enqueue, hlt, hr, Queue.Dequeue, TransmitStart_run,
            if_true, List.nil_append]
        | cons head rest =>
          simp only [emit, hq, Queue.Enqueue, hlt, hr, Queue.Dequeue, TransmitStart_run,
            if_true, List.cons_append]
      · simp [emit, hq, Queue.Enqueue, hlt, hr, Ended.toExcept]
    · simp [emit, hq, Queue.Enqueue, hlt, Ended.toExcept]

/-- Method `Send` returns what its run ends with. -/
theorem Send_run (env : Env) (d : PointToPointNetDevice) (packet : Packet)
    (protocolNumber : Nat) :
    Send env d packet protocolNumber = (SendRun env d packet protocolNumber).toExcept := by
  by_cases hup : d.m_linkUp = true
  · rw [Send_linkUp env d packet protocolNumber hup]
    unfold SendRun
    cases htag : EtherToPpp protocolNumber with
    | error e => simp [hup, AddHeader, htag, Ended.toExcept]
    | ok tag =>
      by_cases hc : d.compress = true ∧ tag = 33
      · simp only [hup, AddHeader, htag, Packet.PeekHeaderPpp, Packet.AddHeader, hc,
          SendCompress_run, SendEnqueue_run]
        generalize SendCompressRun env d _ = r
        rcases r with ⟨dev, res⟩
        cases res <;> simp [Ended.toExcept]
      · simp [hup, AddHeader, htag, Packet.PeekHeaderPpp, Packet.AddHeader, hc,
          SendEnqueue_run]
  · simp at hup
    simp [Send, SendRun, hup, Ended.toExcept, pure, Except.pure]

/-- Method `Receive` returns what its run ends with. -/
theorem Receive_run (env : Env) (d : PointToPointNetDevice) (packet : Packet) :
    Receive env d packet = (ReceiveRun env d packet).toDevice := by
  unfold Receive ReceiveRun
  by_cases hnode : d.m_node = true
  swap
  · simp at hnode
    simp [hnode, Ended.toDevice]
  by_cases hflag : d.m_receiveErrorModel = true ∧ env.IsCorrupt packet = true
  · simp [hnode, hflag, Ended.toDevice, pure, Except.pure]
  cases hpeek : packet.PeekHeaderPpp with
  | error e =>
    simp [hnode, hflag, hpeek, Ended.toDevice, bind, Except.bind, pure, Except.pure]
  | ok ppp =>
    by_cases hb : d.decompress = true ∧ ppp.m_protocol = 16417
    · simp only [hnode, hflag, hpeek, hb, ReceiveDecompress_run, bind, Except.bind, pure,
        Except.pure, if_false, if_true, Bool.true_eq_false, and_self]
      generalize ReceiveDecompressRun env d packet = br
      rcases br with ⟨dev, res⟩
      cases res with
      | error e => simp [Ended.toExcept, Ended.toDevice]
      | ok g =>
        simp only [Ended.toExcept]
        cases hproc : ProcessHeader g with
        | error e => simp [Ended.toDevice]
        | ok v =>
          obtain ⟨g', protocol⟩ := v
          cases hp : dev.m_promiscCallback
          · simp only [emit, hp, Bool.false_eq_true, if_false]
            cases hgr : GetRemote env _ <;> simp [Ended.toDevice, hgr]
          · simp only [emit, hp, if_true]
            cases hgr1 : GetRemote env _ with
            | error e => simp [Ended.toDevice, hgr1]
            | ok r1 =>
              simp only []
              cases hgr2 : GetRemote env _ <;> simp [Ended.toDevice, hgr1, hgr2]
    · simp only [hnode, hflag, hpeek, hb, bind, Except.bind, pure,
        Except.pure, if_false, Bool.true_eq_false]
      cases hproc : ProcessHeader packet with
      | error e => simp [Ended.toDevice]
      | ok v =>
        obtain ⟨g', protocol⟩ := v
        cases hp : d.m_promiscCallback
        · simp only [emit, hp, Bool.false_eq_true, if_false]
          cases hgr : GetRemote env _ <;> simp [Ended.toDevice, hgr]
        · simp only [emit, hp, if_true]
          cases hgr1 : GetRemote env _ with
          | error e => simp [Ended.toDevice, hgr1]
          | ok r1 =>
            simp only []
            cases hgr2 : GetRemote env _ <;> simp [Ended.toDevice, hgr1, hgr2]

/-- The run of `Receive` on a frame the error model flags, on a device with its node. -/
theorem ReceiveRun_corrupt (env : Env) (d : PointToPointNetDevice) (packet : Packet)
    (hnode : d.m_node = true)
    (hm : d.m_receiveErrorModel = true) (hc : env.IsCorrupt packet = true) :
    ReceiveRun env d packet = ⟨d.emit (.phyRxDropTrace packet), .ok ()⟩ := by
  simp [ReceiveRun, hnode, hm, hc]

/-- The run of `Receive` on an attached device when the frame is not flagged and the
decompression branch is not taken. -/
theorem ReceiveRun_pass (env : Env) (d : PointToPointNetDevice) (tag protocol : Nat)
    (headers : List Header) (payload : List Nat) (hatt : attached env d)
    (hnc : ¬ (d.m_receiveErrorModel = true ∧
      env.IsCorrupt ⟨.ppp ⟨tag⟩ :: headers, payload⟩ = true))
    (hbranch : ¬ (d.decompress = true ∧ tag = 16417))
    (hproto : PppToEther tag = .ok protocol) :
    ReceiveRun env d ⟨.ppp ⟨tag⟩ :: headers, payload⟩ =
      ⟨{ d with
        trace := d.trace ++
          [.snifferTrace ⟨.ppp ⟨tag⟩ :: headers, payload⟩,
            .promiscSnifferTrace ⟨.ppp ⟨tag⟩ :: headers, payload⟩,
            .phyRxEndTrace ⟨.ppp ⟨tag⟩ :: headers, payload⟩] ++
          (if d.m_promiscCallback = true then
            [.macPromiscRxTrace ⟨.ppp ⟨tag⟩ :: headers, payload⟩,
              .promiscCallback ⟨headers, payload⟩ protocol]
           else []) ++
          [.macRxTrace ⟨.ppp ⟨tag⟩ :: headers, payload⟩,
            .rxCallback ⟨headers, payload⟩ protocol] }, .ok ()⟩ := by
  obtain ⟨r, hr⟩ := GetRemote_attached env d hatt
  have hnode : d.m_node = true := hatt.1
  cases hp : d.m_promiscCallback <;>
    simp [ReceiveRun, hnode, hnc, hbranch, Packet.PeekHeaderPpp, ProcessHeader, emit,
      Packet.RemoveHeaderPpp, hproto, hp, hr]

/-- The run of `Receive` when the decompression branch is not taken and `PppToEther` does
not know the tag: it ends in the assertion, after the three traces of the frame. -/
theorem ReceiveRun_badtag (env : Env) (d : PointToPointNetDevice) (tag : Nat) (e : Fatal)
    (headers : List Header) (payload : List Nat) (hnode : d.m_node = true)
    (hnc : ¬ (d.m_receiveErrorModel = true ∧
      env.IsCorrupt ⟨.ppp ⟨tag⟩ :: headers, payload⟩ = true))
    (hbranch : ¬ (d.decompress = true ∧ tag = 16417))
    (hproto : PppToEther tag = .error e) :
    ReceiveRun env d ⟨.ppp ⟨tag⟩ :: headers, payload⟩ =
      ⟨{ d with
        trace := d.trace ++
          [.snifferTrace ⟨.ppp ⟨tag⟩ :: headers, payload⟩,
            .promiscSnifferTrace ⟨.ppp ⟨tag⟩ :: headers, payload⟩,
            .phyRxEndTrace ⟨.ppp ⟨tag⟩ :: headers, payload⟩] }, .error e⟩ := by
  simp [ReceiveRun, hnode, hnc, hbranch, Packet.PeekHeaderPpp, ProcessHeader, emit,
    Packet.RemoveHeaderPpp, hproto]

/-- The run of `Receive` on a frame that does not begin with a PPP header ends in the failed
read, the device as it was. -/
theorem ReceiveRun_nopeek (env : Env) (d : PointToPointNetDevice) (packet : Packet)
    (e : Fatal) (hnode : d.m_node = true)
    (hnc : ¬ (d.m_receiveErrorModel = true ∧ env.IsCorrupt packet = true))
    (hpeek : packet.PeekHeaderPpp = .error e) :
    ReceiveRun env d packet = ⟨d, .error e⟩ := by
  simp [ReceiveRun, hnode, hnc, hpeek]

/-- The run of `Receive` when the decompression branch is taken on a frame that is not made
of PPP, IPv4, UDP and SeqTs headers: it ends in the failed read, the device as it was. -/
theorem ReceiveRun_short (env : Env) (d : PointToPointNetDevice) (packet : Packet)
    (hnode : d.m_node = true)
    (hnc : ¬ (d.m_receiveErrorModel = true ∧ env.IsCorrupt packet = true))
    (hdec : d.decompress = true) (hpeek : packet.PeekHeaderPpp = .ok ⟨0x4021⟩)
    (hshape : ¬ ∃ t i u s, packet.headers = [.ppp t, .ipv4 i, .udp u, .seqTs s]) :
    ReceiveRun env d packet = ⟨d, .error .notDeserializable⟩ := by
  rcases ReceiveDecompressRun_cases env d packet with h | h
  · exact absurd h hshape
  · simp [ReceiveRun, hnode, hnc, hpeek, hdec, h]

/-- The run of `Receive` on an attached device when the decompression branch is taken on a
frame of PPP, IPv4, UDP and SeqTs headers. -/
theorem ReceiveRun_decompress (env : Env) (d : PointToPointNetDevice)
    (ipv4Header : Ipv4Header) (udpHeader : UdpHeader) (seqTsHeader : SeqTsHeader)
    (cData : List Nat) (hatt : attached env d)
    (hnc : ¬ (d.m_receiveErrorModel = true ∧ env.IsCorrupt
      ⟨[.ppp ⟨0x4021⟩, .ipv4 ipv4Header, .udp udpHeader, .seqTs seqTsHeader], cData⟩ = true))
    (hdec : d.decompress = true) :
    ReceiveRun env d
        ⟨[.ppp ⟨0x4021⟩, .ipv4 ipv4Header, .udp udpHeader, .seqTs seqTsHeader], cData⟩ =
      ⟨{ d with
        trace := d.trace ++
          [.zlibDecompress cData,
            .snifferTrace ⟨.ppp ⟨0x0021⟩ :: rebuiltChain env ipv4Header udpHeader seqTsHeader
              ((env.zlib_decompress_string cData).drop 6),
              (env.zlib_decompress_string cData).drop 6⟩,
            .promiscSnifferTrace ⟨.ppp ⟨0x0021⟩ ::
              rebuiltChain env ipv4Header udpHeader seqTsHeader
                ((env.zlib_decompress_string cData).drop 6),
              (env.zlib_decompress_string cData).drop 6⟩,
            .phyRxEndTrace ⟨.ppp ⟨0x0021⟩ :: rebuiltChain env ipv4Header udpHeader seqTsHeader
              ((env.zlib_decompress_string cData).drop 6),
              (env.zlib_decompress_string cData).drop 6⟩] ++
          (if d.m_promiscCallback = true then
            [.macPromiscRxTrace ⟨.ppp ⟨0x0021⟩ ::
              rebuiltChain env ipv4Header udpHeader seqTsHeader
                ((env.zlib_decompress_string cData).drop 6),
              (env.zlib_decompress_string cData).drop 6⟩,
              .promiscCallback ⟨rebuiltChain env ipv4Header udpHeader seqTsHeader
                ((env.zlib_decompress_string cData).drop 6),
                (env.zlib_decompress_string cData).drop 6⟩ 0x0800]
           else []) ++
          [.macRxTrace ⟨.ppp ⟨0x0021⟩ :: rebuiltChain env ipv4Header udpHeader seqTsHeader
              ((env.zlib_decompress_string cData).drop 6),
              (env.zlib_decompress_string cData).drop 6⟩,
            .rxCallback ⟨rebuiltChain env ipv4Header udpHeader seqTsHeader
              ((env.zlib_decompress_string cData).drop 6),
              (env.zlib_decompress_string cData).drop 6⟩ 0x0800] }, .ok ()⟩ := by
  obtain ⟨r, hr⟩ := GetRemote_attached env d hatt
  have hnode : d.m_node = true := hatt.1
  have hpr : PppToEther 33 = .ok 0x0800 := rfl
  cases hp : d.m_promiscCallback <;>
    simp [ReceiveRun, hnode, hnc, hdec, Packet.PeekHeaderPpp, ReceiveDecompressRun_frame,
      ProcessHeader, emit, Packet.RemoveHeaderPpp, hpr, hp, hr]

/-- The run of `Send` with the link up and compression enabled on an IPv4 packet that is not
made of IPv4, UDP and SeqTs headers: it ends in the failed read, the device as it was. -/
theorem SendRun_short (env : Env) (d : PointToPointNetDevice) (packet : Packet)
    (hup : d.m_linkUp = true) (hc : d.compress = true)
    (hshape : ¬ ∃ i u s, packet.headers = [.ipv4 i, .udp u, .seqTs s]) :
    SendRun env d packet 0x0800 = ⟨d, .error .notDeserializable⟩ := by
  have htag : AddHeader packet 0x0800 = .ok (packet.AddHeader (.ppp ⟨0x0021⟩)) := rfl
  rcases SendCompressRun_cases env d (packet.AddHeader (.ppp ⟨0x0021⟩)) with h | h
  · obtain ⟨t, i, u, s, hs⟩ := h
    simp only [Packet.AddHeader, List.cons.injEq] at hs
    exact absurd ⟨i, u, s, hs.2⟩ hshape
  · simp [SendRun, hup, htag, Packet.PeekHeaderPpp, Packet.AddHeader, hc] at h ⊢
    simp [h]

/-- The lists of headers that `isHeaderChain` accepts. -/
theorem isHeaderChain_iff (hs : List Header) :
    isHeaderChain hs = true ↔ ∃ i u s, hs = [.ipv4 i, .udp u, .seqTs s] := by
  constructor
  · intro h
    unfold isHeaderChain at h
    split at h
    · exact ⟨_, _, _, rfl⟩
    · cases h
  · rintro ⟨i, u, s, rfl⟩
    rfl

/-- The run of `Receive` on an attached device and a frame the error model does not flag:
either the frame is deliverable, the run returns and the receive callback was called once,
or the run fails without any callback. No drop trace fires either way. -/
theorem ReceiveRun_unflagged (env : Env) (d : PointToPointNetDevice) (packet : Packet)
    (hatt : attached env d)
    (hnc : ¬ (d.m_receiveErrorModel = true ∧ env.IsCorrupt packet = true)) :
    (deliverable d packet = true ∧ (ReceiveRun env d packet).result = .ok () ∧
      rxDrops (ReceiveRun env d packet).device.trace = rxDrops d.trace ∧
      ∃ p protocol, rxCallbacks (ReceiveRun env d packet).device.trace =
        rxCallbacks d.trace ++ [(p, protocol)]) ∨
    (deliverable d packet = false ∧ (∃ e, (ReceiveRun env d packet).result = .error e) ∧
      rxDrops (ReceiveRun env d packet).device.trace = rxDrops d.trace ∧
      rxCallbacks (ReceiveRun env d packet).device.trace = rxCallbacks d.trace ∧
      promiscCallbacks (ReceiveRun env d packet).device.trace = promiscCallbacks d.trace) := by
  have hnode : d.m_node = true := hatt.1
  have hnohead : ∀ hs payload,
      Packet.PeekHeaderPpp ⟨hs, payload⟩ = .error .notDeserializable →
      deliverable d ⟨hs, payload⟩ = false →
      ¬ (d.m_receiveErrorModel = true ∧ env.IsCorrupt ⟨hs, payload⟩ = true) →
      (deliverable d ⟨hs, payload⟩ = false ∧
        (∃ e, (ReceiveRun env d ⟨hs, payload⟩).result = .error e) ∧
        rxDrops (ReceiveRun env d ⟨hs, payload⟩).device.trace = rxDrops d.trace ∧
        rxCallbacks (ReceiveRun env d ⟨hs, payload⟩).device.trace = rxCallbacks d.trace ∧
        promiscCallbacks (ReceiveRun env d ⟨hs, payload⟩).device.trace =
          promiscCallbacks d.trace) := by
    intro hs payload hpeek hdel hnc
    rw [ReceiveRun_nopeek env d _ _ hnode hnc hpeek]
    exact ⟨hdel, ⟨_, rfl⟩, rfl, rfl, rfl⟩
  rcases packet with ⟨hs, payload⟩
  rcases hs with _ | ⟨h1, hs⟩
  · exact Or.inr (hnohead _ _ rfl rfl hnc)
  cases h1 with
  | ppp t =>
    rcases t with ⟨tag⟩
    by_cases hb : d.decompress = true ∧ tag = 16417
    · obtain ⟨hd, htag⟩ := hb
      subst htag
      have hpr : PppToEther 16417 = .ok 0x0800 := rfl
      by_cases hshape : ∃ i u s, hs = [.ipv4 i, .udp u, .seqTs s]
      · obtain ⟨i, u, s, rfl⟩ := hshape
        left
        rw [ReceiveRun_decompress env d i u s payload hatt hnc hd]
        refine ⟨by simp [deliverable, hpr, isHeaderChain], rfl, ?_,
          ⟨rebuiltChain env i u s ((env.zlib_decompress_string payload).drop 6),
            (env.zlib_decompress_string payload).drop 6⟩, 0x0800, ?_⟩
        · split <;> simp [rxDrops, List.filterMap_append]
        · split <;> simp [rxCallbacks, List.filterMap_append]
      · right
        have hchain : isHeaderChain hs = false := by
          cases h : isHeaderChain hs
          · rfl
          · exact absurd ((isHeaderChain_iff hs).1 h) hshape
        have hsh : ¬ ∃ t i u s, (Packet.mk (.ppp ⟨16417⟩ :: hs) payload).headers =
            [.ppp t, .ipv4 i, .udp u, .seqTs s] := by
          rintro ⟨t, i, u, s, h⟩
          simp only [List.cons.injEq] at h
          exact hshape ⟨i, u, s, h.2⟩
        rw [ReceiveRun_short env d _ hnode hnc hd rfl hsh]
        exact ⟨by simp [deliverable, hpr, hd, hchain], ⟨_, rfl⟩, rfl, rfl, rfl⟩
    · cases hpr : PppToEther tag with
      | error e =>
        right
        rw [ReceiveRun_badtag env d tag e hs payload hnode hnc hb hpr]
        refine ⟨by simp [deliverable, hpr], ⟨_, rfl⟩, ?_, ?_, ?_⟩
        · simp [rxDrops, List.filterMap_append]
        · simp [rxCallbacks, List.filterMap_append]
        · simp [promiscCallbacks, List.filterMap_append]
      | ok protocol =>
        left
        rw [ReceiveRun_pass env d tag protocol hs payload hatt hnc hb hpr]
        have hdel : deliverable d ⟨.ppp ⟨tag⟩ :: hs, payload⟩ = true := by
          have hb' : (d.decompress && tag == 16417) = false := by
            cases hdc : d.decompress
            · rfl
            · have : tag ≠ 16417 := fun h => hb ⟨hdc, h⟩
              simpa using this
          simp [deliverable, hpr, hb']
        refine ⟨hdel, rfl, ?_, ⟨hs, payload⟩, protocol, ?_⟩
        · split <;> simp [rxDrops, List.filterMap_append]
        · split <;> simp [rxCallbacks, List.filterMap_append]
  | ipv4 _ => exact Or.inr (hnohead _ _ rfl rfl hnc)
  | udp _ => exact Or.inr (hnohead _ _ rfl rfl hnc)
  | seqTs _ => exact Or.inr (hnohead _ _ rfl rfl hnc)

end PointToPointNetDevice

/-! ## The claims on protocol maps, drops and the state machine -/

namespace PointToPointNetDevice

/-- Claim C11: unsupported protocol. For every value `proto`, `PppToEther` ends in its
assertion failure "PPP Protocol number not defined1!" exactly when `proto` is outside
0x0021, 0x4021, 0x0057, and `EtherToPpp` ends in its assertion failure "PPP Protocol number
not defined2!" exactly when `proto` is outside 0x0800, 0x0801, 0x86DD; each returns a mapped
value only for the members of its set. -/
theorem unsupported_protocol (proto : Nat) :
    (PppToEther proto = .error .pppProtocolNotDefined1 ↔
      ¬ (proto = 0x0021 ∨ proto = 0x4021 ∨ proto = 0x0057)) ∧
    (EtherToPpp proto = .error .pppProtocolNotDefined2 ↔
      ¬ (proto = 0x0800 ∨ proto = 0x0801 ∨ proto = 0x86DD)) ∧
    ((∃ v, PppToEther proto = .ok v) ↔
      (proto = 0x0021 ∨ proto = 0x4021 ∨ proto = 0x0057)) ∧
    ((∃ v, EtherToPpp proto = .ok v) ↔
      (proto = 0x0800 ∨ proto = 0x0801 ∨ proto = 0x86DD)) := by
  refine ⟨?_, ?_, ?_, ?_⟩
  · unfold PppToEther
    split_ifs with h1 h2 h3 <;> simp <;> omega
  · unfold EtherToPpp
    split_ifs with h1 h2 h3 <;> simp <;> omega
  · unfold PppToEther
    split_ifs with h1 h2 h3 <;> simp <;> omega
  · unfold EtherToPpp
    split_ifs with h1 h2 h3 <;> simp <;> omega

/-- Counterexample to C12 as stated: there are no four distinct values that are exactly the
link tags `PppToEther` accepts. -/
theorem four_tags_counterexample :
    ¬ ∃ t1 t2 t3 t4 : Nat,
      t1 ≠ t2 ∧ t1 ≠ t3 ∧ t1 ≠ t4 ∧ t2 ≠ t3 ∧ t2 ≠ t4 ∧ t3 ≠ t4 ∧
      ∀ tag, (∃ v, PppToEther tag = .ok v) ↔ (tag = t1 ∨ tag = t2 ∨ tag = t3 ∨ tag = t4) := by
  rintro ⟨t1, t2, t3, t4, h12, h13, h14, h23, h24, h34, h⟩
  have key : ∀ t, (∃ v, PppToEther t = .ok v) → t = 0x0021 ∨ t = 0x4021 ∨ t = 0x0057 := by
    rintro t ⟨v, hv⟩
    rcases (PppToEther_ok_iff t v).1 hv with ⟨h, _⟩ | ⟨h, _⟩ | ⟨h, _⟩ <;> simp [h]
  have k1 := key t1 ((h t1).2 (Or.inl rfl))
  have k2 := key t2 ((h t2).2 (Or.inr (Or.inl rfl)))
  have k3 := key t3 ((h t3).2 (Or.inr (Or.inr (Or.inl rfl))))
  have k4 := key t4 ((h t4).2 (Or.inr (Or.inr (Or.inr rfl))))
  omega

/-- Claim C12, amended: in both source files `PppToEther` accepts exactly three link tags,
the plain tag 0x0021 and the compressed tag 0x4021 of IPv4, both mapped to 0x0800, and the
plain tag 0x0057 of IPv6, mapped to 0x86DD; there is no compressed tag for IPv6. -/
theorem three_tags (tag v : Nat) :
    (PppToEther tag = .ok v ↔
      (tag = 0x0021 ∧ v = 0x0800) ∨ (tag = 0x4021 ∧ v = 0x0800) ∨
        (tag = 0x0057 ∧ v = 0x86DD)) ∧
    (TopLevel.PppToEther tag = .ok v ↔
      (tag = 0x0021 ∧ v = 0x0800) ∨ (tag = 0x4021 ∧ v = 0x0800) ∨
        (tag = 0x0057 ∧ v = 0x86DD)) :=
  ⟨PppToEther_ok_iff tag v, PppToEther_ok_iff tag v⟩

/-- Counterexample to C13 as stated: a frame the error model does not flag, tagged 0x1234,
received by a device with its node and channel. `Receive` ends in the assertion of
`PppToEther` after the three traces of the frame; the receive callback is not invoked. -/
theorem unknown_tag_counterexample :
    attached (exampleEnv List.reverse List.reverse) (exampleDevice false false) ∧
    ¬ ((exampleDevice false false).m_receiveErrorModel = true ∧
      (exampleEnv List.reverse List.reverse).IsCorrupt ⟨[.ppp ⟨0x1234⟩], [1, 2, 3]⟩ = true) ∧
    ReceiveRun (exampleEnv List.reverse List.reverse) (exampleDevice false false)
        ⟨[.ppp ⟨0x1234⟩], [1, 2, 3]⟩ =
      ⟨{ exampleDevice false false with
          trace := [.snifferTrace ⟨[.ppp ⟨0x1234⟩], [1, 2, 3]⟩,
            .promiscSnifferTrace ⟨[.ppp ⟨0x1234⟩], [1, 2, 3]⟩,
            .phyRxEndTrace ⟨[.ppp ⟨0x1234⟩], [1, 2, 3]⟩] },
        .error .pppProtocolNotDefined1⟩ ∧
    Receive (exampleEnv List.reverse List.reverse) (exampleDevice false false)
        ⟨[.ppp ⟨0x1234⟩], [1, 2, 3]⟩ = .error .pppProtocolNotDefined1 ∧
    rxCallbacks (ReceiveRun (exampleEnv List.reverse List.reverse) (exampleDevice false false)
        ⟨[.ppp ⟨0x1234⟩], [1, 2, 3]⟩).device.trace = [] :=
  ⟨⟨rfl, rfl, rfl, Or.inr rfl⟩, by decide, rfl, rfl, rfl⟩

/-- Claim C13, amended: corrupt-frame drop on a device that has its node. `Receive` returns
what the run `ReceiveRun` ends with. If an error model is installed and flags the frame, the
run returns after firing the receive drop trace once and nothing else, whatever the frame
holds: no header is read and no callback is invoked. Otherwise, on a device whose channel
joins it to one other device, the drop trace does not fire; the receive callback is invoked
exactly once, and the run returns, when the frame is deliverable (a PPP header comes first,
`PppToEther` accepts its tag and, where the decompression branch is taken, the IPv4, UDP
and SeqTs headers follow); for every other frame the run ends in a failure and no callback
is invoked. -/
theorem receive_corrupt_drop (env : Env) (d : PointToPointNetDevice) (packet : Packet)
    (hnode : d.m_node = true) :
    Receive env d packet = (ReceiveRun env d packet).toDevice ∧
    (d.m_receiveErrorModel = true ∧ env.IsCorrupt packet = true →
      ReceiveRun env d packet = ⟨d.emit (.phyRxDropTrace packet), .ok ()⟩ ∧
      Receive env d packet = .ok (d.emit (.phyRxDropTrace packet)) ∧
      (d.emit (.phyRxDropTrace packet)).trace = d.trace ++ [.phyRxDropTrace packet]) ∧
    (¬ (d.m_receiveErrorModel = true ∧ env.IsCorrupt packet = true) → attached env d →
      rxDrops (ReceiveRun env d packet).device.trace = rxDrops d.trace ∧
      (deliverable d packet = true →
        (ReceiveRun env d packet).result = .ok () ∧
        ∃ p protocol, rxCallbacks (ReceiveRun env d packet).device.trace =
          rxCallbacks d.trace ++ [(p, protocol)]) ∧
      (deliverable d packet = false →
        (∃ e, (ReceiveRun env d packet).result = .error e ∧
          Receive env d packet = .error e) ∧
        rxCallbacks (ReceiveRun env d packet).device.trace = rxCallbacks d.trace ∧
        promiscCallbacks (ReceiveRun env d packet).device.trace =
          promiscCallbacks d.trace)) := by
  refine ⟨Receive_run env d packet, fun hc => ⟨ReceiveRun_corrupt env d packet hnode hc.1 hc.2,
    Receive_corrupt env d packet hnode hc.1 hc.2, rfl⟩, fun hnc hatt => ?_⟩
  rcases ReceiveRun_unflagged env d packet hatt hnc with
    ⟨hdel, hres, hdrops, hcb⟩ | ⟨hndel, ⟨e, he⟩, hdrops, hcb, hpcb⟩
  · refine ⟨hdrops, fun _ => ⟨hres, hcb⟩, fun h => ?_⟩
    rw [hdel] at h
    cases h
  · refine ⟨hdrops, fun h => ?_, fun _ => ⟨⟨e, he, ?_⟩, hcb, hpcb⟩⟩
    · rw [hndel] at h
      cases h
    · rw [Receive_run, Ended.toDevice, he]

/-- Witness of C13 amended: a flagged frame without any header is dropped, an unflagged
plain frame is delivered once, an unflagged frame tagged 0x1234 is not delivered. -/
theorem receive_corrupt_drop_witness :
    (ReceiveRun { exampleEnv List.reverse List.reverse with IsCorrupt := fun _ => true }
        { exampleDevice false true with m_receiveErrorModel := true } ⟨[], [1, 2, 3]⟩ =
      ⟨{ exampleDevice false true with
          m_receiveErrorModel := true, trace := [.phyRxDropTrace ⟨[], [1, 2, 3]⟩] },
        .ok ()⟩) ∧
    deliverable (exampleDevice false true) ⟨[.ppp ⟨0x0021⟩], [1, 2, 3]⟩ = true ∧
    ((ReceiveRun (exampleEnv List.reverse List.reverse) (exampleDevice false true)
        ⟨[.ppp ⟨0x0021⟩], [1, 2, 3]⟩).result = .ok () ∧
      ∃ p protocol,
        rxCallbacks (ReceiveRun (exampleEnv List.reverse List.reverse)
          (exampleDevice false true) ⟨[.ppp ⟨0x0021⟩], [1, 2, 3]⟩).device.trace =
            rxCallbacks (exampleDevice false true).trace ++ [(p, protocol)]) ∧
    deliverable (exampleDevice false true) ⟨[.ppp ⟨0x1234⟩], [1, 2, 3]⟩ = false ∧
    rxCallbacks (ReceiveRun (exampleEnv List.reverse List.reverse)
      (exampleDevice false true) ⟨[.ppp ⟨0x1234⟩], [1, 2, 3]⟩).device.trace =
        rxCallbacks (exampleDevice false true).trace :=
  ⟨((receive_corrupt_drop
      { exampleEnv List.reverse List.reverse with IsCorrupt := fun _ => true }
      { exampleDevice false true with m_receiveErrorModel := true } ⟨[], [1, 2, 3]⟩ rfl).2.1
      ⟨rfl, rfl⟩).1,
    rfl,
    ((receive_corrupt_drop (exampleEnv List.reverse List.reverse) (exampleDevice false true)
      ⟨[.ppp ⟨0x0021⟩], [1, 2, 3]⟩ rfl).2.2 (by decide) ⟨rfl, rfl, rfl, Or.inr rfl⟩).2.1 rfl,
    rfl,
    (((receive_corrupt_drop (exampleEnv List.reverse List.reverse) (exampleDevice false true)
      ⟨[.ppp ⟨0x1234⟩], [1, 2, 3]⟩ rfl).2.2 (by decide) ⟨rfl, rfl, rfl, Or.inr rfl⟩).2.2
      rfl).2.1⟩

/-- Claim C14: queue overflow (scenario D). With the link up and the queue at capacity,
every `Send` that returns has returned false, has fired the transmit drop trace exactly once
(on the frame it offered to the queue), has left `m_txMachineState`, `m_currentPkt` and the
queue as they were and has scheduled no completion event; and `Send` does return false for
every accepted protocol number and, in the compression branch, every packet of IPv4, UDP
and SeqTs headers. -/
theorem send_queue_overflow (env : Env) (d : PointToPointNetDevice) (packet : Packet)
    (protocolNumber : Nat) (q : Queue)
    (hup : d.m_linkUp = true) (hq : d.m_queue = some q)
    (hfull : ¬ q.m_packets.length < q.m_maxSize) :
    (∀ r d', Send env d packet protocolNumber = .ok (r, d') →
      r = false ∧
      (∃ g, offeredToQueue d'.trace = offeredToQueue d.trace ++ [g] ∧
        txDrops d'.trace = txDrops d.trace ++ [g]) ∧
      d'.m_txMachineState = d.m_txMachineState ∧
      d'.m_currentPkt = d.m_currentPkt ∧
      d'.m_queue = d.m_queue ∧
      scheduledEvents d'.trace = scheduledEvents d.trace) ∧
    (∀ tag, EtherToPpp protocolNumber = .ok tag →
      (¬ (d.compress = true ∧ tag = 0x0021) ∨
        ∃ i u s, packet.headers = [.ipv4 i, .udp u, .seqTs s]) →
      ∃ d', Send env d packet protocolNumber = .ok (false, d')) := by
  constructor
  · intro r d' h
    obtain ⟨g, pre, hpre, he⟩ := Send_ok_enqueue env d d' packet protocolNumber r hup h
    rw [SendEnqueue_refused env { d with trace := d.trace ++ pre } g q hq hfull] at he
    injection he with he
    injection he with hr hd
    subst hd
    refine ⟨hr.symm, ⟨g, ?_, ?_⟩, rfl, rfl, rfl, ?_⟩ <;>
      rcases hpre with rfl | ⟨x, rfl⟩ <;>
        simp [offeredToQueue, txDrops, scheduledEvents, List.filterMap_append]
  · intro tag htag hshape
    obtain ⟨g, pre, -, he⟩ := Send_eq_enqueue env d packet protocolNumber tag hup htag hshape
    rw [SendEnqueue_refused env { d with trace := d.trace ++ pre } g q hq hfull] at he
    exact ⟨_, he⟩

/-- Witness of C14: a queue of capacity 0. -/
theorem send_queue_overflow_witness :
    ¬ (0 : Nat) < 0 ∧
    ∃ d', Send (exampleEnv List.reverse List.reverse)
        { exampleDevice false false with m_queue := some { m_packets := [], m_maxSize := 0 } }
        (exampleDatagram [104, 105]) 0x0800 = .ok (false, d') :=
  ⟨by decide,
    (send_queue_overflow (exampleEnv List.reverse List.reverse)
      { exampleDevice false false with m_queue := some { m_packets := [], m_maxSize := 0 } }
      (exampleDatagram [104, 105]) 0x0800 { m_packets := [], m_maxSize := 0 } rfl rfl
      (by decide)).2 0x0021 rfl (Or.inl (by decide))⟩

/-- Claim C15: no double start. In every state reachable from the constructed device by
`Send` calls and firings of scheduled completion events, no further `Send` and no firing
fails the assertion of `TransmitStart`; over the whole history no frame was put in the
transmit slot while it was occupied, the slot being occupied now exactly when the device is
BUSY; the device holds a current frame exactly when it is BUSY; and at most one completion
event is pending. -/
theorem no_double_start (env : Env) (s : Simulation) (h : Reachable env s) :
    (∀ a, s.enabled a → s.step env a ≠ .error .mustBeReady) ∧
    transmitSlot s.device.trace = some (decide (s.device.m_txMachineState = .BUSY)) ∧
    (s.device.m_currentPkt = none ↔ s.device.m_txMachineState = .READY) ∧
    (scheduledEvents s.device.trace).length ≤ s.fired + 1 := by
  obtain ⟨h1, h2, h3⟩ := Reachable_invariant env s h
  refine ⟨?_, h3, h2, ?_⟩
  · intro a _
    cases a with
    | send packet protocolNumber =>
      simp only [Simulation.step]
      split
      · simp
      · rename_i e heq
        intro hcontra
        injection hcontra with hcontra
        subst hcontra
        exact Send_error env s.device packet protocolNumber heq
    | complete =>
      simp only [Simulation.step]
      split
      · simp
      · rename_i e heq
        intro hcontra
        injection hcontra with hcontra
        subst hcontra
        exact TransmitComplete_error env s.device heq
  · rw [h1]
    split <;> omega

/-- Witness of C15: the state reached by one `Send`. -/
theorem no_double_start_witness :
    ∃ s, Reachable (exampleEnv List.reverse List.reverse) s ∧
      s.device.m_txMachineState = .BUSY ∧
      transmitSlot s.device.trace = some true ∧
      (scheduledEvents s.device.trace).length ≤ s.fired + 1 := by
  have h0 : Reachable (exampleEnv List.reverse List.reverse)
      { device := exampleDevice true false, fired := 0 } :=
    .start _ ⟨rfl, rfl, fun q hq => by cases hq; rfl, rfl⟩
  have h1 := Reachable.next _ _ (.send (exampleDatagram [104, 105]) 0x0800) h0 trivial rfl
  exact ⟨_, h1, rfl, (no_double_start _ _ h1).2.1, (no_double_start _ _ h1).2.2.2⟩

/-- Claim C16: READY to BUSY. On a READY device with a channel, `TransmitStart (p)` returns
the answer of the channel, sets the state to BUSY, records `p` as the current frame,
schedules exactly one completion event, at the delay `CalculateBytesTxTime (size p)` plus
the interframe gap, and hands `p` to the channel exactly once, with the duration
`CalculateBytesTxTime (size p)` without the gap. -/
theorem transmit_start_ready_to_busy (env : Env) (d : PointToPointNetDevice) (p : Packet)
    (hready : d.m_txMachineState = .READY) (hch : d.m_channel = true) :
    ∃ d',
      TransmitStart env d p =
        .ok (env.channelTransmitStart p (env.CalculateBytesTxTime (p.GetSize env)), d') ∧
      d'.m_txMachineState = .BUSY ∧
      d'.m_currentPkt = some p ∧
      scheduledEvents d'.trace = scheduledEvents d.trace ++
        [env.CalculateBytesTxTime (p.GetSize env) + d.m_tInterframeGap] ∧
      channelCalls d'.trace = channelCalls d.trace ++
        [(p, env.CalculateBytesTxTime (p.GetSize env),
          env.channelTransmitStart p (env.CalculateBytesTxTime (p.GetSize env)))] := by
  refine ⟨_, TransmitStart_ready env d p hready hch, rfl, rfl, ?_, ?_⟩
  · split <;> simp [scheduledEvents, List.filterMap_append]
  · split <;> simp [channelCalls, List.filterMap_append]

/-- Witness of C16: a frame of 5 bytes at 8 time units per byte. -/
theorem transmit_start_ready_to_busy_witness :
    ∃ d',
      TransmitStart (exampleEnv List.reverse List.reverse) (exampleDevice false false)
        ⟨[.ppp ⟨0x0021⟩], [1, 2, 3]⟩ = .ok (true, d') ∧
      d'.m_txMachineState = .BUSY ∧
      d'.m_currentPkt = some ⟨[.ppp ⟨0x0021⟩], [1, 2, 3]⟩ ∧
      scheduledEvents d'.trace = [40] ∧
      channelCalls d'.trace = [(⟨[.ppp ⟨0x0021⟩], [1, 2, 3]⟩, 40, true)] :=
  transmit_start_ready_to_busy (exampleEnv List.reverse List.reverse)
    (exampleDevice false false) ⟨[.ppp ⟨0x0021⟩], [1, 2, 3]⟩ rfl rfl

/-- Claim C17: BUSY to READY. On a BUSY device with a current frame and a queue,
`TransmitComplete` fires the end-of-transmission trace on the current frame and clears it.
If the queue is empty the device ends READY with no current frame and no event scheduled.
If the queue is not empty (and the channel is attached) its head is removed and becomes the
current frame, and the device ends BUSY with exactly one new completion event scheduled. -/
theorem transmit_complete_busy_to_ready (env : Env) (d : PointToPointNetDevice)
    (cur : Packet) (q : Queue)
    (hbusy : d.m_txMachineState = .BUSY) (hcur : d.m_currentPkt = some cur)
    (hq : d.m_queue = some q) :
    (q.m_packets = [] →
      ∃ d', TransmitComplete env d = .ok d' ∧
        d'.m_txMachineState = .READY ∧
        d'.m_currentPkt = none ∧
        d'.m_queue = some q ∧
        d'.trace = d.trace ++ [.phyTxEndTrace cur, .dequeue none] ∧
        scheduledEvents d'.trace = scheduledEvents d.trace) ∧
    (∀ head rest, q.m_packets = head :: rest → d.m_channel = true →
      ∃ d', TransmitComplete env d = .ok d' ∧
        d'.m_txMachineState = .BUSY ∧
        d'.m_currentPkt = some head ∧
        d'.m_queue = some { q with m_packets := rest } ∧
        (∃ es, d'.trace = d.trace ++ .phyTxEndTrace cur :: es) ∧
        scheduledEvents d'.trace = scheduledEvents d.trace ++
          [env.CalculateBytesTxTime (head.GetSize env) + d.m_tInterframeGap]) := by
  constructor
  · intro hempty
    exact ⟨_, TransmitComplete_idle env d cur q hbusy hcur hq hempty, rfl, rfl, rfl, rfl,
      by simp [scheduledEvents, List.filterMap_append]⟩
  · intro head rest hhead hch
    refine ⟨_, TransmitComplete_next env d cur head rest q hbusy hcur hq hhead hch, rfl, rfl,
      rfl, ⟨_, by simp; rfl⟩, ?_⟩
    split <;> simp [scheduledEvents, List.filterMap_append]

/-- Witness of C17: a BUSY device with an empty queue. -/
theorem transmit_complete_busy_to_ready_witness :
    ∃ d',
      TransmitComplete (exampleEnv List.reverse List.reverse)
        { exampleDevice false false with
          m_txMachineState := .BUSY
          m_currentPkt := some ⟨[.ppp ⟨0x0021⟩], [1, 2, 3]⟩ } = .ok d' ∧
      d'.m_txMachineState = .READY ∧
      d'.m_currentPkt = none ∧
      d'.m_queue = some { m_packets := [], m_maxSize := 100 } ∧
      d'.trace = [.phyTxEndTrace ⟨[.ppp ⟨0x0021⟩], [1, 2, 3]⟩, .dequeue none] ∧
      scheduledEvents d'.trace = [] :=
  (transmit_complete_busy_to_ready (exampleEnv List.reverse List.reverse)
    { exampleDevice false false with
      m_txMachineState := .BUSY
      m_currentPkt := some ⟨[.ppp ⟨0x0021⟩], [1, 2, 3]⟩ }
    ⟨[.ppp ⟨0x0021⟩], [1, 2, 3]⟩ { m_packets := [], m_maxSize := 100 } rfl rfl rfl).1 rfl

/-- Claim C18: `Send` on an idle or busy link. With the link up and a queue that accepts
the frame, every `Send` that returns has offered one frame `g` to the queue. If the device
was READY, the head of the queue (after `g` was added) has been dequeued and has become the
current frame, the device is BUSY, exactly one completion event has been scheduled, and
the value returned is the answer the channel gave for that frame. If the device was BUSY,
`g` stays at the end of the queue, state and current frame are unchanged, no event is
scheduled, the channel is not called, and the value returned is true. `Send` does return
for every accepted protocol number (in the compression branch: every packet of IPv4, UDP
and SeqTs headers) when a READY device has its channel. -/
theorem send_idle_or_busy (env : Env) (d : PointToPointNetDevice) (packet : Packet)
    (protocolNumber : Nat) (q : Queue)
    (hup : d.m_linkUp = true) (hq : d.m_queue = some q)
    (hacc : q.m_packets.length < q.m_maxSize) :
    (∀ r d', Send env d packet protocolNumber = .ok (r, d') →
      ∃ g, offeredToQueue d'.trace = offeredToQueue d.trace ++ [g] ∧
        (d.m_txMachineState = .READY →
          ∃ head rest, q.m_packets ++ [g] = head :: rest ∧
            d'.m_queue = some { q with m_packets := rest } ∧
            d'.m_txMachineState = .BUSY ∧
            d'.m_currentPkt = some head ∧
            scheduledEvents d'.trace = scheduledEvents d.trace ++
              [env.CalculateBytesTxTime (head.GetSize env) + d.m_tInterframeGap] ∧
            channelCalls d'.trace = channelCalls d.trace ++
              [(head, env.CalculateBytesTxTime (head.GetSize env), r)]) ∧
        (d.m_txMachineState = .BUSY →
          d'.m_queue = some { q with m_packets := q.m_packets ++ [g] } ∧
            d'.m_txMachineState = .BUSY ∧
            d'.m_currentPkt = d.m_currentPkt ∧
            scheduledEvents d'.trace = scheduledEvents d.trace ∧
            channelCalls d'.trace = channelCalls d.trace ∧
            r = true)) ∧
    (∀ tag, EtherToPpp protocolNumber = .ok tag →
      (¬ (d.compress = true ∧ tag = 0x0021) ∨
        ∃ i u s, packet.headers = [.ipv4 i, .udp u, .seqTs s]) →
      (d.m_txMachineState = .READY → d.m_channel = true) →
      ∃ r d', Send env d packet protocolNumber = .ok (r, d')) := by
  constructor
  · intro r d' h
    obtain ⟨g, pre, hpre, he⟩ := Send_ok_enqueue env d d' packet protocolNumber r hup h
    refine ⟨g, ?_, ?_, ?_⟩
    · have := (SendEnqueue_trace _ _ _ _ _ he).1
      rcases hpre with rfl | ⟨x, rfl⟩ <;>
        simpa [offeredToQueue, List.filterMap_append] using this
    · intro hready
      obtain ⟨q', hq', hcase⟩ := SendEnqueue_ok_cases _ _ _ _ _ he
      have hqq : q' = q := by
        have : some q' = some q := hq'.symm.trans hq
        injection this
      subst hqq
      rcases hcase with hfull | ⟨-, hbusy⟩ | ⟨-, -, hch, head, rest, hhead⟩
      · exact absurd hacc hfull
      · have : d.m_txMachineState = .BUSY := hbusy
        rw [hready] at this
        cases this
      · rw [SendEnqueue_ready env { d with trace := d.trace ++ pre } g head rest q' hq hacc
          hready hch hhead] at he
        injection he with he
        injection he with hr hd
        subst hd
        subst hr
        refine ⟨head, rest, hhead, rfl, rfl, rfl, ?_, ?_⟩ <;>
          rcases hpre with rfl | ⟨x, rfl⟩ <;> split <;>
            simp [scheduledEvents, channelCalls, List.filterMap_append]
    · intro hbusy
      rw [SendEnqueue_busy env { d with trace := d.trace ++ pre } g q hq hacc hbusy] at he
      injection he with he
      injection he with hr hd
      subst hd
      refine ⟨rfl, hbusy, rfl, ?_, ?_, hr.symm⟩ <;>
        rcases hpre with rfl | ⟨x, rfl⟩ <;>
          simp [scheduledEvents, channelCalls, List.filterMap_append]
  · intro tag htag hshape hch
    obtain ⟨g, pre, -, he⟩ := Send_eq_enqueue env d packet protocolNumber tag hup htag hshape
    obtain ⟨r, d', h⟩ := SendEnqueue_returns env { d with trace := d.trace ++ pre } g q hq hch
    exact ⟨r, d', he.trans h⟩

/-- Witness of C18: a BUSY device with an empty queue of capacity 100. -/
theorem send_idle_or_busy_witness :
    (0 : Nat) < 100 ∧
    ∃ d',
      Send (exampleEnv List.reverse List.reverse)
        { exampleDevice false false with m_txMachineState := .BUSY }
        (exampleDatagram [104, 105]) 0x0800 = .ok (true, d') ∧
      ∃ g, offeredToQueue d'.trace = [g] ∧
        d'.m_queue = some { m_packets := [g], m_maxSize := 100 } ∧
        d'.m_txMachineState = .BUSY := by
  refine ⟨by decide, _, rfl, ?_⟩
  obtain ⟨g, h1, -, h3⟩ := (send_idle_or_busy (exampleEnv List.reverse List.reverse)
    { exampleDevice false false with m_txMachineState := .BUSY }
    (exampleDatagram [104, 105]) 0x0800 { m_packets := [], m_maxSize := 100 } rfl rfl
    (by decide)).1 _ _ rfl
  exact ⟨g, h1, (h3 rfl).1, (h3 rfl).2.1⟩

/-- Counterexample to C19 as stated: a received frame of 5 bytes tagged 0x4021 and an
outbound packet of 3 bytes are not dropped. `Receive` and `Send` do not return on them: the
runs end in the failed read of a header, with no drop trace fired. -/
theorem short_frame_counterexample :
    Packet.GetSize (exampleEnv List.reverse List.reverse) ⟨[.ppp ⟨0x4021⟩], [1, 2, 3]⟩ = 5 ∧
    Receive (exampleEnv List.reverse List.reverse) (exampleDevice false true)
      ⟨[.ppp ⟨0x4021⟩], [1, 2, 3]⟩ = .error .notDeserializable ∧
    rxDrops (ReceiveRun (exampleEnv List.reverse List.reverse) (exampleDevice false true)
      ⟨[.ppp ⟨0x4021⟩], [1, 2, 3]⟩).device.trace = [] ∧
    Send (exampleEnv List.reverse List.reverse) (exampleDevice true false)
      ⟨[], [1, 2, 3]⟩ 0x0800 = .error .notDeserializable ∧
    txDrops (SendRun (exampleEnv List.reverse List.reverse) (exampleDevice true false)
      ⟨[], [1, 2, 3]⟩ 0x0800).device.trace = [] :=
  ⟨rfl, rfl, rfl, rfl, rfl⟩

/-- Claim C19, amended: for every received frame tagged 0x4021 with decompression enabled
(on a device with its node, the frame not flagged by the error model), and every outbound
IPv4 packet with compression enabled and the link up, whose size is below the combined size
of the PPP, IPv4, UDP and SeqTs headers, the stripping of the headers fails before the codec
is called and the failure is not handled. The run of `Receive`, and of `Send`, ends with it
and the device is then what it was before the call: nothing was added to its trace, so no
drop trace fired, the codec was not called, and the frame was neither delivered nor offered
to the queue. -/
theorem short_frame_unhandled (env : Env) (d : PointToPointNetDevice) (packet : Packet) :
    (d.m_node = true → d.decompress = true →
      ¬ (d.m_receiveErrorModel = true ∧ env.IsCorrupt packet = true) →
      packet.PeekHeaderPpp = .ok ⟨0x4021⟩ →
      packet.GetSize env < env.pppHeaderSize + env.ipv4HeaderSize + env.udpHeaderSize +
        env.seqTsHeaderSize →
      ReceiveRun env d packet = ⟨d, .error .notDeserializable⟩ ∧
      Receive env d packet = .error .notDeserializable) ∧
    (d.compress = true → d.m_linkUp = true →
      env.pppHeaderSize + packet.GetSize env < env.pppHeaderSize + env.ipv4HeaderSize +
        env.udpHeaderSize + env.seqTsHeaderSize →
      SendRun env d packet 0x0800 = ⟨d, .error .notDeserializable⟩ ∧
      Send env d packet 0x0800 = .error .notDeserializable) := by
  constructor
  · intro hnode hdec hnc hpeek hshort
    have hsh : ¬ ∃ t i u s, packet.headers = [.ppp t, .ipv4 i, .udp u, .seqTs s] := by
      rintro ⟨t, i, u, s, h⟩
      simp [Packet.GetSize, h, Header.GetSerializedSize] at hshort
      omega
    have hrun := ReceiveRun_short env d packet hnode hnc hdec hpeek hsh
    refine ⟨hrun, ?_⟩
    rw [Receive_run, hrun]
    rfl
  · intro hc hup hshort
    have hsh : ¬ ∃ i u s, packet.headers = [.ipv4 i, .udp u, .seqTs s] := by
      rintro ⟨i, u, s, h⟩
      simp [Packet.GetSize, h, Header.GetSerializedSize] at hshort
      omega
    have hrun := SendRun_short env d packet hup hc hsh
    refine ⟨hrun, ?_⟩
    rw [Send_run, hrun]
    rfl

/-- Witness of C19 amended: frames that hold the PPP and IPv4 headers only. -/
theorem short_frame_unhandled_witness :
    (ReceiveRun (exampleEnv List.reverse List.reverse) (exampleDevice false true)
        ⟨[.ppp ⟨0x4021⟩, .ipv4 (exampleIpv4 3)], [1, 2, 3]⟩ =
      ⟨exampleDevice false true, .error .notDeserializable⟩ ∧
      Receive (exampleEnv List.reverse List.reverse) (exampleDevice false true)
        ⟨[.ppp ⟨0x4021⟩, .ipv4 (exampleIpv4 3)], [1, 2, 3]⟩ = .error .notDeserializable) ∧
    (SendRun (exampleEnv List.reverse List.reverse) (exampleDevice true false)
        ⟨[.ipv4 (exampleIpv4 3)], [1, 2, 3]⟩ 0x0800 =
      ⟨exampleDevice true false, .error .notDeserializable⟩ ∧
      Send (exampleEnv List.reverse List.reverse) (exampleDevice true false)
        ⟨[.ipv4 (exampleIpv4 3)], [1, 2, 3]⟩ 0x0800 = .error .notDeserializable) :=
  ⟨(short_frame_unhandled (exampleEnv List.reverse List.reverse) (exampleDevice false true)
      ⟨[.ppp ⟨0x4021⟩, .ipv4 (exampleIpv4 3)], [1, 2, 3]⟩).1 rfl rfl (by decide) rfl
      (by decide),
    (short_frame_unhandled (exampleEnv List.reverse List.reverse) (exampleDevice true false)
      ⟨[.ipv4 (exampleIpv4 3)], [1, 2, 3]⟩).2 rfl rfl (by decide)⟩

/-- Counterexample to C20 as stated: with a codec whose encoded buffers all start with the
byte 120, the payload 1, 2, 3 is not an encoded buffer, yet `Receive` fires no drop trace
and hands a frame to the receive callback. -/
theorem undecodable_payload_counterexample :
    (∀ x, (exampleEnv (fun x => 120 :: x) List.tail).zlib_compress_string x ≠ [1, 2, 3]) ∧
    ∃ d',
      Receive (exampleEnv (fun x => 120 :: x) List.tail) (exampleDevice false true)
        ⟨[.ppp ⟨0x4021⟩, .ipv4 (exampleIpv4 23), .udp (exampleUdp 15), .seqTs exampleSeqTs],
          [1, 2, 3]⟩ = .ok d' ∧
      rxDrops d'.trace = [] ∧
      rxCallbacks d'.trace =
        [(⟨[.ipv4 (exampleIpv4 20), .udp (exampleUdp 12), .seqTs exampleSeqTs], []⟩,
          0x0800)] :=
  ⟨fun x h => by simp [exampleEnv] at h, _, rfl, rfl, rfl⟩

/-- Claim C20, amended: for every received frame tagged 0x4021 with decompression enabled
(not flagged by the error model, on a device that has its node and its channel), whatever
its payload, `Receive` calls the decoder once on the payload, does not check the result, fires no receive drop trace and invokes
the receive callback once, with what the decoder returned less its first six bytes under
the rebuilt headers and with protocol 0x0800. -/
theorem decode_result_delivered (env : Env) (d : PointToPointNetDevice)
    (ipv4Header : Ipv4Header) (udpHeader : UdpHeader) (seqTsHeader : SeqTsHeader)
    (cData : List Nat) (hatt : attached env d)
    (hnc : ¬ (d.m_receiveErrorModel = true ∧ env.IsCorrupt
      ⟨[.ppp ⟨0x4021⟩, .ipv4 ipv4Header, .udp udpHeader, .seqTs seqTsHeader], cData⟩ = true))
    (hdec : d.decompress = true) :
    ∃ d',
      Receive env d
          ⟨[.ppp ⟨0x4021⟩, .ipv4 ipv4Header, .udp udpHeader, .seqTs seqTsHeader], cData⟩ =
        .ok d' ∧
      decodeCalls d'.trace = decodeCalls d.trace ++ [cData] ∧
      rxDrops d'.trace = rxDrops d.trace ∧
      rxCallbacks d'.trace = rxCallbacks d.trace ++
        [(⟨rebuiltChain env ipv4Header udpHeader seqTsHeader
            ((env.zlib_decompress_string cData).drop 6),
          (env.zlib_decompress_string cData).drop 6⟩, 0x0800)] := by
  refine ⟨_, Receive_decompress env d ipv4Header udpHeader seqTsHeader cData hatt hnc hdec,
    ?_, ?_, ?_⟩ <;> split <;>
    simp [decodeCalls, rxDrops, rxCallbacks, List.filterMap_append]

/-- Witness of C20 amended: the payload 1, 2, 3 with a decoder that drops the first byte. -/
theorem decode_result_delivered_witness :
    ∃ d',
      Receive (exampleEnv (fun x => 120 :: x) List.tail) (exampleDevice false true)
        ⟨[.ppp ⟨0x4021⟩, .ipv4 (exampleIpv4 23), .udp (exampleUdp 15), .seqTs exampleSeqTs],
          [1, 2, 3]⟩ = .ok d' ∧
      decodeCalls d'.trace = [[1, 2, 3]] ∧
      rxDrops d'.trace = [] ∧
      rxCallbacks d'.trace =
        [(⟨[.ipv4 (exampleIpv4 20), .udp (exampleUdp 12), .seqTs exampleSeqTs], []⟩,
          0x0800)] :=
  decode_result_delivered (exampleEnv (fun x => 120 :: x) List.tail)
    (exampleDevice false true) (exampleIpv4 23) (exampleUdp 15) exampleSeqTs [1, 2, 3]
    (exampleDevice_attached _ _ _ _) (by decide) rfl

end PointToPointNetDevice

/-! ## Lemmas about the queue, the codec calls and the second source file -/

namespace PointToPointNetDevice

/-- A returning `Send` keeps the account of the queue: the frames it accepted are the frames
handed to the channel followed by the frames that wait; and a READY device has none waiting. -/
theorem Send_queue (env : Env) (d d' : PointToPointNetDevice) (packet : Packet)
    (protocolNumber : Nat) (r : Bool)
    (h : Send env d packet protocolNumber = .ok (r, d'))
    (hacc : acceptedByQueue d.trace = handedToChannel d.trace ++ d.queued)
    (hidle : d.m_txMachineState = .READY → d.queued = []) :
    acceptedByQueue d'.trace = handedToChannel d'.trace ++ d'.queued ∧
      (d'.m_txMachineState = .READY → d'.queued = []) := by
  by_cases hup : d.m_linkUp = true
  · obtain ⟨g, pre, hpre, he⟩ := Send_ok_enqueue env d d' packet protocolNumber r hup h
    obtain ⟨q, hq, hcase⟩ := SendEnqueue_ok_cases _ _ _ _ _ he
    simp only at hq
    have hqd : d.queued = q.m_packets := by simp [queued, hq]
    rw [hqd] at hacc hidle
    rcases hcase with hfull | ⟨hacc', hbusy⟩ | ⟨hacc', hready, hch, head, rest, hhead⟩
    · rw [SendEnqueue_refused env { d with trace := d.trace ++ pre } g q hq hfull] at he
      injection he with he
      injection he with hr hd
      subst hd
      have hq' : queued { d with
          trace := d.trace ++ pre ++ [.macTxTrace g, .enqueue g false, .macTxDropTrace g] } =
          q.m_packets := by simp [queued, hq]
      rw [hq']
      refine ⟨?_, hidle⟩
      rcases hpre with rfl | ⟨x, rfl⟩ <;>
        simp [acceptedByQueue, handedToChannel, List.filterMap_append] <;>
        simpa [acceptedByQueue, handedToChannel] using hacc
    · rw [SendEnqueue_busy env { d with trace := d.trace ++ pre } g q hq hacc' hbusy] at he
      injection he with he
      injection he with hr hd
      subst hd
      simp only at hbusy
      refine ⟨?_, ?_⟩
      · rcases hpre with rfl | ⟨x, rfl⟩ <;>
          simp [acceptedByQueue, handedToChannel, List.filterMap_append, queued] <;>
          rw [← List.append_assoc] <;>
          simpa [acceptedByQueue, handedToChannel] using congrArg (· ++ [g]) hacc
      · intro hr
        simp [hbusy] at hr
    · rw [SendEnqueue_ready env { d with trace := d.trace ++ pre } g head rest q hq hacc'
        hready hch hhead] at he
      injection he with he
      injection he with hr hd
      subst hd
      refine ⟨?_, ?_⟩
      · have key : acceptedByQueue d.trace ++ [g] =
            handedToChannel d.trace ++ [head] ++ rest := by
          rw [hacc, List.append_assoc, hhead, List.append_assoc]
          rfl
        rcases hpre with rfl | ⟨x, rfl⟩ <;> split <;>
          simp [acceptedByQueue, handedToChannel, List.filterMap_append, queued] <;>
          simpa [acceptedByQueue, handedToChannel] using key
      · intro hr
        simp at hr
  · have hdown : d.m_linkUp = false := by simpa using hup
    rw [Send_linkDown env d packet protocolNumber hdown] at h
    injection h with h
    injection h with hr hd
    subst hd
    refine ⟨?_, hidle⟩
    simpa [acceptedByQueue, handedToChannel, List.filterMap_append, emit, queued] using hacc

/-- A returning `TransmitComplete` keeps the account of the queue, and leaves the device READY
only with an empty queue. -/
theorem TransmitComplete_queue (env : Env) (d d' : PointToPointNetDevice)
    (h : TransmitComplete env d = .ok d')
    (hacc : acceptedByQueue d.trace = handedToChannel d.trace ++ d.queued) :
    acceptedByQueue d'.trace = handedToChannel d'.trace ++ d'.queued ∧
      (d'.m_txMachineState = .READY → d'.queued = []) := by
  obtain ⟨hbusy, cur, q, hcur, hq, hcase⟩ := TransmitComplete_ok_cases env d d' h
  have hqd : d.queued = q.m_packets := by simp [queued, hq]
  rw [hqd] at hacc
  rcases hcase with hempty | ⟨head, rest, hhead, hch⟩
  · rw [TransmitComplete_idle env d cur q hbusy hcur hq hempty] at h
    injection h with h
    subst h
    refine ⟨?_, fun _ => by simp [queued, hempty]⟩
    simpa [acceptedByQueue, handedToChannel, List.filterMap_append, queued] using hacc
  · rw [TransmitComplete_next env d cur head rest q hbusy hcur hq hhead hch] at h
    injection h with h
    subst h
    refine ⟨?_, ?_⟩
    · have key : acceptedByQueue d.trace = handedToChannel d.trace ++ [head] ++ rest := by
        rw [hacc, hhead, List.append_assoc]
        rfl
      split <;>
        simp [acceptedByQueue, handedToChannel, List.filterMap_append, queued] <;>
        simpa [acceptedByQueue, handedToChannel] using key
    · intro hr
      simp at hr

/-- In every reachable state the frames the queue accepted are the frames handed to the
channel followed by the frames that wait, and a READY device has no frame waiting. -/
theorem Reachable_queue (env : Env) (s : Simulation) (h : Reachable env s) :
    acceptedByQueue s.device.trace = handedToChannel s.device.trace ++ s.device.queued ∧
      (s.device.m_txMachineState = .READY → s.device.queued = []) := by
  induction h with
  | start d hd =>
    obtain ⟨-, -, hq, htr⟩ := hd
    have hqd : d.queued = [] := by
      unfold queued
      cases hm : d.m_queue with
      | none => rfl
      | some q => exact hq q hm
    simp [htr, hqd, acceptedByQueue, handedToChannel]
  | next s s' a hs hen hstep ih =>
    obtain ⟨ih1, ih2⟩ := ih
    cases a with
    | send packet protocolNumber =>
      simp only [Simulation.step] at hstep
      split at hstep
      · rename_i r d' hsend
        injection hstep with hstep
        subst hstep
        exact Send_queue env s.device d' packet protocolNumber r hsend ih1 ih2
      · cases hstep
    | complete =>
      simp only [Simulation.step] at hstep
      split at hstep
      · rename_i d' hcomp
        injection hstep with hstep
        subst hstep
        exact TransmitComplete_queue env s.device d' hcomp ih1
      · cases hstep

/-- A returning `TransmitStart (p)` calls no codec, hands `p` to the channel and keeps it as
the current frame. -/
theorem TransmitStart_codec (env : Env) (d d' : PointToPointNetDevice) (p : Packet) (r : Bool)
    (h : TransmitStart env d p = .ok (r, d')) :
    encodeCalls d'.trace = encodeCalls d.trace ∧
      decodeCalls d'.trace = decodeCalls d.trace ∧
      handedToChannel d'.trace = handedToChannel d.trace ++ [p] ∧
      d'.m_currentPkt = some p ∧ d'.m_queue = d.m_queue := by
  obtain ⟨hready, hch⟩ := TransmitStart_ok env d p r d' h
  rw [TransmitStart_ready env d p hready hch] at h
  injection h with h
  injection h with hr hd
  subst hd
  refine ⟨?_, ?_, ?_, rfl, rfl⟩ <;> split <;>
    simp [encodeCalls, decodeCalls, handedToChannel, List.filterMap_append]

/-- A returning `TransmitComplete` calls no codec and moves at most the head of the queue to
the channel. -/
theorem TransmitComplete_codec (env : Env) (d d' : PointToPointNetDevice)
    (h : TransmitComplete env d = .ok d') :
    encodeCalls d'.trace = encodeCalls d.trace ∧
      decodeCalls d'.trace = decodeCalls d.trace ∧
      handedToChannel d'.trace ++ d'.queued = handedToChannel d.trace ++ d.queued := by
  obtain ⟨hbusy, cur, q, hcur, hq, hcase⟩ := TransmitComplete_ok_cases env d d' h
  have hqd : d.queued = q.m_packets := by simp [queued, hq]
  rcases hcase with hempty | ⟨head, rest, hhead, hch⟩
  · rw [TransmitComplete_idle env d cur q hbusy hcur hq hempty] at h
    injection h with h
    subst h
    simp [encodeCalls, decodeCalls, handedToChannel, List.filterMap_append, queued, hq]
  · rw [TransmitComplete_next env d cur head rest q hbusy hcur hq hhead hch] at h
    injection h with h
    subst h
    rw [hqd, hhead]
    refine ⟨?_, ?_, ?_⟩ <;> split <;>
      simp [encodeCalls, decodeCalls, handedToChannel, List.filterMap_append, queued]

/-- On a BUSY device with a current frame `TransmitComplete` fails none of its assertions:
it can only end in a null pointer. -/
theorem TransmitComplete_asserts (env : Env) (d : PointToPointNetDevice) (cur : Packet)
    (hbusy : d.m_txMachineState = .BUSY) (hcur : d.m_currentPkt = some cur) (e : Fatal)
    (h : TransmitComplete env d = .error e) : e = .nullPointer := by
  cases hq : d.m_queue with
  | none =>
    simp [TransmitComplete, hbusy, hcur, hq, emit] at h
    exact h.symm
  | some q =>
    cases hp : q.m_packets with
    | nil =>
      rw [TransmitComplete_idle env d cur q hbusy hcur hq hp] at h
      cases h
    | cons head rest =>
      by_cases hch : d.m_channel = true
      · rw [TransmitComplete_next env d cur head rest q hbusy hcur hq hp hch] at h
        cases h
      · simp [TransmitComplete, hbusy, hcur, hq, emit, Queue.Dequeue, hp, TransmitStart,
          hch] at h
        exact h.symm

end PointToPointNetDevice

namespace TopLevel

/-- A step of the `Except` monad after a result. -/
theorem Except_bind_ok {ε α β : Type} (a : α) (f : α → Except ε β) :
    (Except.ok a : Except ε α).bind f = f a := rfl

/-- A step of the `Except` monad after a failure. -/
theorem Except_bind_error {ε α β : Type} (e : ε) (f : α → Except ε β) :
    (Except.error e : Except ε α).bind f = .error e := rfl

/-- The call `AddHeader (p, 2049)` puts the tag 0x4021 on the frame. -/
theorem AddHeader_2049 (p : Packet) :
    AddHeader p 2049 = .ok (p.AddHeader (.ppp ⟨0x4021⟩)) := rfl

/-- The call `AddHeader (p, 2048)` puts the tag 0x0021 on the frame. -/
theorem AddHeader_2048 (p : Packet) :
    AddHeader p 2048 = .ok (p.AddHeader (.ppp ⟨0x0021⟩)) := rfl

/-- For a string of at least 1100 bytes `substr (size-1100, size)` is its last 1100 bytes. -/
theorem substr_last (str : List Nat) (h : str.length < 2 ^ 32) (hlen : 1100 ≤ str.length) :
    payloadStart (str.length % 2 ^ 32) = str.length - 1100 ∧
      PointToPointNetDevice.substr str (payloadStart (str.length % 2 ^ 32))
          (str.length % 2 ^ 32) =
        .ok (str.drop (str.length - 1100)) := by
  have hs : payloadStart (str.length % 2 ^ 32) = str.length - 1100 := by
    unfold payloadStart
    omega
  refine ⟨hs, ?_⟩
  rw [hs, Nat.mod_eq_of_lt h]
  unfold PointToPointNetDevice.substr
  rw [if_neg (by omega)]
  rw [List.take_of_length_le (by simp)]

/-- For a string of fewer than 1100 bytes `size-1100` wraps and `substr` throws. -/
theorem substr_wraps (str : List Nat) (h : str.length < 2 ^ 32) (hlen : str.length < 1100) :
    payloadStart (str.length % 2 ^ 32) = str.length + 2 ^ 32 - 1100 ∧
      PointToPointNetDevice.substr str (payloadStart (str.length % 2 ^ 32))
          (str.length % 2 ^ 32) =
        .error .outOfRange := by
  have hs : payloadStart (str.length % 2 ^ 32) = str.length + 2 ^ 32 - 1100 := by
    unfold payloadStart
    omega
  refine ⟨hs, ?_⟩
  rw [hs, Nat.mod_eq_of_lt h]
  unfold PointToPointNetDevice.substr
  rw [if_pos (by omega)]

/-- The compression branch on a packet of fewer than 1100 bytes ends in the exception of
`substr`. -/
theorem SendCompress_short (env : Env) (serialize : Header → List Nat)
    (compressedInit : List Nat) (packet : Packet) (ppp : PppHeader)
    (h : (CopyData serialize packet).length < 2 ^ 32)
    (hlen : (CopyData serialize packet).length < 1100) :
    SendCompress env serialize compressedInit (packet.AddHeader (.ppp ppp)) =
      .error .outOfRange := by
  have hsub := (substr_wraps _ h hlen).2
  unfold SendCompress
  simp only [Packet.RemoveHeaderPpp, Packet.AddHeader, bind]
  rw [Except_bind_ok]
  rw [hsub, Except_bind_error]

/-- The compression branch on a packet of IPv4, UDP and SeqTs headers and at least 1100 bytes
returns a frame tagged 0x4021 with the same three headers. -/
theorem SendCompress_long (env : Env) (serialize : Header → List Nat)
    (compressedInit : List Nat) (ppp : PppHeader) (ipv4Header : Ipv4Header)
    (udpHeader : UdpHeader) (seqTsHeader : SeqTsHeader) (data : List Nat)
    (h : (CopyData serialize
      ⟨[.ipv4 ipv4Header, .udp udpHeader, .seqTs seqTsHeader], data⟩).length < 2 ^ 32)
    (hlen : 1100 ≤ (CopyData serialize
      ⟨[.ipv4 ipv4Header, .udp udpHeader, .seqTs seqTsHeader], data⟩).length) :
    ∃ c, SendCompress env serialize compressedInit
        ⟨[.ppp ppp, .ipv4 ipv4Header, .udp udpHeader, .seqTs seqTsHeader], data⟩ =
      .ok ⟨[.ppp ⟨0x4021⟩, .ipv4 ipv4Header, .udp udpHeader, .seqTs seqTsHeader], c⟩ := by
  have hsub := (substr_last _ h hlen).2
  have key : ∀ r, SendCompress env serialize compressedInit
      ⟨[.ppp ppp, .ipv4 ipv4Header, .udp udpHeader, .seqTs seqTsHeader], data⟩ = r →
      ∃ c, r =
        .ok ⟨[.ppp ⟨0x4021⟩, .ipv4 ipv4Header, .udp udpHeader, .seqTs seqTsHeader], c⟩ := by
    intro r hr
    unfold SendCompress at hr
    simp only [Packet.RemoveHeaderPpp, bind] at hr
    rw [Except_bind_ok] at hr
    rw [hsub, Except_bind_ok] at hr
    simp only [Packet.RemoveHeaderIpv4, Packet.RemoveHeaderUdp, Packet.RemoveHeaderSeqTs,
      Except_bind_ok, AddHeader_2049, Packet.Create, Packet.AddHeader] at hr
    exact ⟨_, hr.symm⟩
  exact key _ rfl

/-- With the link up and compression enabled, `Send` of an IPv4 packet runs the compression
branch and then the end of `Send`. -/
theorem Send_compress_branch (env : Env) (serialize : Header → List Nat)
    (compressedInit : List Nat) (d : PointToPointNetDevice) (packet : Packet)
    (hup : d.m_linkUp = true) (hc : d.compress = true) :
    Send env serialize compressedInit d packet 0x0800 =
      (SendCompress env serialize compressedInit (packet.AddHeader (.ppp ⟨0x0021⟩))).bind
        (fun g => PointToPointNetDevice.SendEnqueue env d g) := by
  have htag : AddHeader packet 0x0800 = .ok (packet.AddHeader (.ppp ⟨0x0021⟩)) := rfl
  have hpeek : (packet.AddHeader (.ppp ⟨0x0021⟩)).PeekHeaderPpp = .ok ⟨0x0021⟩ := rfl
  unfold Send
  simp only [bind, hup, hc]
  rw [if_neg (by decide)]
  simp only [pure, Except.pure]
  rw [Except_bind_ok, htag, Except_bind_ok, hpeek, Except_bind_ok, if_pos ⟨trivial, rfl⟩]

/-- When the compression branch returns a frame, `Send` offers that frame to the queue. -/
theorem Send_compressed (env : Env) (serialize : Header → List Nat)
    (compressedInit : List Nat) (d : PointToPointNetDevice) (packet g : Packet)
    (hup : d.m_linkUp = true) (hc : d.compress = true)
    (hsc : SendCompress env serialize compressedInit (packet.AddHeader (.ppp ⟨0x0021⟩)) =
      .ok g) :
    Send env serialize compressedInit d packet 0x0800 =
      PointToPointNetDevice.SendEnqueue env d g := by
  rw [Send_compress_branch env serialize compressedInit d packet hup hc, hsc, Except_bind_ok]

/-- With the link up and compression enabled, `Send` of an IPv4 packet of fewer than 1100 bytes
ends in the exception of `substr`. -/
theorem Send_short (env : Env) (serialize : Header → List Nat)
    (compressedInit : List Nat) (d : PointToPointNetDevice) (packet : Packet)
    (hup : d.m_linkUp = true) (hc : d.compress = true)
    (h : (CopyData serialize packet).length < 2 ^ 32)
    (hlen : (CopyData serialize packet).length < 1100) :
    Send env serialize compressedInit d packet 0x0800 = .error .outOfRange := by
  rw [Send_compress_branch env serialize compressedInit d packet hup hc,
    SendCompress_short env serialize compressedInit packet ⟨0x0021⟩ h hlen, Except_bind_error]

/-- The decompression branch returns the bytes it received five times over, under the
headers it received. -/
theorem ReceiveDecompress_repeats (serialize : Header → List Nat) (ppp : PppHeader)
    (ipv4Header : Ipv4Header) (udpHeader : UdpHeader) (seqTsHeader : SeqTsHeader)
    (c : List Nat) :
    ReceiveDecompress serialize
        ⟨[.ppp ppp, .ipv4 ipv4Header, .udp udpHeader, .seqTs seqTsHeader], c⟩ =
      .ok ⟨[.ppp ⟨0x0021⟩, .ipv4 ipv4Header, .udp udpHeader, .seqTs seqTsHeader],
        c ++ c ++ c ++ c ++ c⟩ := by
  simp [ReceiveDecompress, Packet.RemoveHeaderPpp, Packet.RemoveHeaderIpv4,
    Packet.RemoveHeaderUdp, Packet.RemoveHeaderSeqTs, CopyData, serializeHeaders,
    Packet.Create, Packet.AddHeader, AddHeader_2048, bind, Except.bind]

/-- The frame `Receive` hands to the receive callback when the decompression branch is taken. -/
theorem Receive_repeats (env : Env) (serialize : Header → List Nat)
    (d : PointToPointNetDevice) (ipv4Header : Ipv4Header) (udpHeader : UdpHeader)
    (seqTsHeader : SeqTsHeader) (c : List Nat)
    (hatt : PointToPointNetDevice.attached env d)
    (hnc : ¬ (d.m_receiveErrorModel = true ∧ env.IsCorrupt
      ⟨[.ppp ⟨0x4021⟩, .ipv4 ipv4Header, .udp udpHeader, .seqTs seqTsHeader], c⟩ = true))
    (hdec : d.decompress = true) :
    ∃ d', Receive env serialize d
        ⟨[.ppp ⟨0x4021⟩, .ipv4 ipv4Header, .udp udpHeader, .seqTs seqTsHeader], c⟩ = .ok d' ∧
      rxDrops d'.trace = rxDrops d.trace ∧
      rxCallbacks d'.trace = rxCallbacks d.trace ++
        [(⟨[.ipv4 ipv4Header, .udp udpHeader, .seqTs seqTsHeader], c ++ c ++ c ++ c ++ c⟩,
          0x0800)] := by
  have key : ∀ r, Receive env serialize d
      ⟨[.ppp ⟨0x4021⟩, .ipv4 ipv4Header, .udp udpHeader, .seqTs seqTsHeader], c⟩ = r →
      ∃ d', r = .ok d' ∧
        rxDrops d'.trace = rxDrops d.trace ∧
        rxCallbacks d'.trace = rxCallbacks d.trace ++
          [(⟨[.ipv4 ipv4Header, .udp udpHeader, .seqTs seqTsHeader],
            c ++ c ++ c ++ c ++ c⟩, 0x0800)] := by
    intro r hr
    obtain ⟨rem, hrem⟩ := PointToPointNetDevice.GetRemote_attached env d hatt
    have hnode : d.m_node = true := hatt.1
    by_cases hp : d.m_promiscCallback = true
    · simp [Receive, hnode, hnc, Packet.PeekHeaderPpp, bind, Except.bind, hdec,
        ReceiveDecompress_repeats, ProcessHeader, Packet.RemoveHeaderPpp, PppToEther,
        pure, Except.pure, hp, hrem, PointToPointNetDevice.emit] at hr
      subst hr
      exact ⟨_, rfl, by simp [rxDrops, List.filterMap_append],
        by simp [rxCallbacks, List.filterMap_append]⟩
    · simp [Receive, hnode, hnc, Packet.PeekHeaderPpp, bind, Except.bind, hdec,
        ReceiveDecompress_repeats, ProcessHeader, Packet.RemoveHeaderPpp, PppToEther,
        pure, Except.pure, hp, hrem, PointToPointNetDevice.emit] at hr
      subst hr
      exact ⟨_, rfl, by simp [rxDrops, List.filterMap_append],
        by simp [rxCallbacks, List.filterMap_append]⟩
  exact key _ rfl

/-- The letter b occurs once in `examplePayload`. -/
theorem examplePayload_count : List.count 98 examplePayload = 1 := by
  unfold examplePayload
  rw [List.count_append, List.count_replicate]
  rfl

/-- No string repeated five times is `examplePayload`. -/
theorem repeated_ne_examplePayload (c : List Nat) : c ++ c ++ c ++ c ++ c ≠ examplePayload := by
  intro h
  have := congrArg (List.count 98) h
  rw [examplePayload_count] at this
  simp only [List.count_append] at this
  omega

/-- The length of `examplePayload`. -/
theorem examplePayload_length : examplePayload.length = 1100 := by
  unfold examplePayload
  rw [List.length_append, List.length_replicate]
  rfl

/-- The compression branch on a packet of IPv4, UDP and SeqTs headers and at least 1100
bytes: the payload of the frame it returns is computed from "0x0021" followed by the last
1100 bytes of the packet. -/
theorem SendCompress_last (env : Env) (serialize : Header → List Nat)
    (compressedInit : List Nat) (ppp : PppHeader) (ipv4Header : Ipv4Header)
    (udpHeader : UdpHeader) (seqTsHeader : SeqTsHeader) (data str2 : List Nat)
    (h : (CopyData serialize
      ⟨[.ipv4 ipv4Header, .udp udpHeader, .seqTs seqTsHeader], data⟩).length < 2 ^ 32)
    (hlen : 1100 ≤ (CopyData serialize
      ⟨[.ipv4 ipv4Header, .udp udpHeader, .seqTs seqTsHeader], data⟩).length)
    (hstr2 : str2 = PointToPointNetDevice.protocolString ++
      (CopyData serialize ⟨[.ipv4 ipv4Header, .udp udpHeader, .seqTs seqTsHeader], data⟩).drop
        ((CopyData serialize
          ⟨[.ipv4 ipv4Header, .udp udpHeader, .seqTs seqTsHeader], data⟩).length - 1100)) :
    SendCompress env serialize compressedInit
        ⟨[.ppp ppp, .ipv4 ipv4Header, .udp udpHeader, .seqTs seqTsHeader], data⟩ =
      .ok ⟨[.ppp ⟨0x4021⟩, .ipv4 ipv4Header, .udp udpHeader, .seqTs seqTsHeader],
        cString (writeBuffer (str2.length + 1) compressedInit
          (env.deflate ((cString str2 ++ [0]).take
            ((cString (cString str2 ++ [0])).length + 1))))⟩ := by
  have hsub := (substr_last _ h hlen).2
  subst hstr2
  unfold SendCompress
  simp only [Packet.RemoveHeaderPpp, bind]
  rw [Except_bind_ok]
  rw [hsub, Except_bind_ok]
  simp only [Packet.RemoveHeaderIpv4, Packet.RemoveHeaderUdp, Packet.RemoveHeaderSeqTs,
    Except_bind_ok, AddHeader_2049, Packet.Create, Packet.AddHeader]

/-- On a packet of at least 1100 bytes the compression branch does not end in the exception
of `substr`, whatever headers the packet holds. -/
theorem SendCompress_in_range (env : Env) (serialize : Header → List Nat)
    (compressedInit : List Nat) (packet : Packet) (ppp : PppHeader)
    (h : (CopyData serialize packet).length < 2 ^ 32)
    (hlen : 1100 ≤ (CopyData serialize packet).length) :
    SendCompress env serialize compressedInit (packet.AddHeader (.ppp ppp)) ≠
      .error .outOfRange := by
  have hsub := (substr_last _ h hlen).2
  intro hfail
  unfold SendCompress at hfail
  simp only [Packet.RemoveHeaderPpp, Packet.AddHeader, bind] at hfail
  rw [Except_bind_ok] at hfail
  rw [hsub, Except_bind_ok] at hfail
  rcases packet with ⟨hs, payload⟩
  rcases hs with _ | ⟨h1, hs⟩
  · simp only [Packet.RemoveHeaderIpv4, Except_bind_error] at hfail
    cases hfail
  cases h1 <;> first
    | (simp only [Packet.RemoveHeaderIpv4, Except_bind_error] at hfail; cases hfail)
    | skip
  simp only [Packet.RemoveHeaderIpv4, Except_bind_ok] at hfail
  rcases hs with _ | ⟨h2, hs⟩
  · simp only [Packet.RemoveHeaderUdp, Except_bind_error] at hfail
    cases hfail
  cases h2 <;> first
    | (simp only [Packet.RemoveHeaderUdp, Except_bind_error] at hfail; cases hfail)
    | skip
  simp only [Packet.RemoveHeaderUdp, Except_bind_ok] at hfail
  rcases hs with _ | ⟨h3, hs⟩
  · simp only [Packet.RemoveHeaderSeqTs, Except_bind_error] at hfail
    cases hfail
  cases h3 <;> simp only [Packet.RemoveHeaderSeqTs, Except_bind_error] at hfail <;>
    cases hfail

end TopLevel

/-! ## The claims on disposal, ordering, link state and the second source file -/

namespace PointToPointNetDevice

/-- Counterexample to C21 as stated: a device that one `Send` has made BUSY, with its
completion event pending, is disposed; the event then ends `TransmitComplete` in the
assertion failure "m_currentPkt zero". -/
theorem stale_completion_counterexample :
    ∃ d r,
      Send (exampleEnv List.reverse List.reverse) (exampleDevice false false)
        ⟨[], [1, 2, 3]⟩ 0x0800 = .ok (r, d) ∧
      d.m_txMachineState = .BUSY ∧
      scheduledEvents d.trace = [40] ∧
      TransmitComplete (exampleEnv List.reverse List.reverse) (DoDispose d) =
        .error .currentPktZero :=
  ⟨_, _, rfl, rfl, rfl, rfl⟩

/-- Claim C21, amended: for every device disposed (`DoDispose`) while BUSY, the later firing
of the pending completion event is not a no-op: the device is still BUSY, so
`TransmitComplete` passes its first assertion and sets the state to READY, and it ends in
the failure of its second assertion, "m_currentPkt zero", which comes before the released
queue is dereferenced, before any transmission is started and before any event is
scheduled: at the failure the device is the disposed device with the state READY, and its
trace is the trace it had. -/
theorem stale_completion_asserts (env : Env) (d : PointToPointNetDevice)
    (hbusy : d.m_txMachineState = .BUSY) :
    (DoDispose d).m_txMachineState = .BUSY ∧
    (DoDispose d).m_currentPkt = none ∧
    (DoDispose d).m_queue = none ∧
    TransmitComplete env (DoDispose d) = .error .currentPktZero ∧
    TransmitCompleteRun env (DoDispose d) =
      ⟨{ DoDispose d with m_txMachineState := .READY }, .error .currentPktZero⟩ ∧
    (TransmitCompleteRun env (DoDispose d)).device.m_txMachineState = .READY ∧
    (TransmitCompleteRun env (DoDispose d)).device.m_queue = none ∧
    (TransmitCompleteRun env (DoDispose d)).device.trace = d.trace ∧
    handedToChannel (TransmitCompleteRun env (DoDispose d)).device.trace =
      handedToChannel d.trace ∧
    scheduledEvents (TransmitCompleteRun env (DoDispose d)).device.trace =
      scheduledEvents d.trace := by
  have hrun : TransmitCompleteRun env (DoDispose d) =
      ⟨{ DoDispose d with m_txMachineState := .READY }, .error .currentPktZero⟩ := by
    simp [TransmitCompleteRun, DoDispose, hbusy]
  refine ⟨hbusy, rfl, rfl, ?_, hrun, ?_, ?_, ?_, ?_, ?_⟩
  · simp [TransmitComplete, DoDispose, hbusy]
  all_goals rw [hrun]
  all_goals rfl

/-- Witness of C21 amended: a BUSY device with a current frame, disposed. -/
theorem stale_completion_asserts_witness :
    TransmitComplete (exampleEnv List.reverse List.reverse)
      (DoDispose { exampleDevice false false with
        m_txMachineState := .BUSY
        m_currentPkt := some ⟨[.ppp ⟨0x0021⟩], [1, 2, 3]⟩ }) = .error .currentPktZero ∧
    TransmitCompleteRun (exampleEnv List.reverse List.reverse)
      (DoDispose { exampleDevice false false with
        m_txMachineState := .BUSY
        m_currentPkt := some ⟨[.ppp ⟨0x0021⟩], [1, 2, 3]⟩ }) =
      ⟨{ DoDispose { exampleDevice false false with
            m_txMachineState := .BUSY
            m_currentPkt := some ⟨[.ppp ⟨0x0021⟩], [1, 2, 3]⟩ } with
          m_txMachineState := .READY }, .error .currentPktZero⟩ :=
  ⟨(stale_completion_asserts (exampleEnv List.reverse List.reverse)
    { exampleDevice false false with
      m_txMachineState := .BUSY
      m_currentPkt := some ⟨[.ppp ⟨0x0021⟩], [1, 2, 3]⟩ } rfl).2.2.2.1,
   (stale_completion_asserts (exampleEnv List.reverse List.reverse)
    { exampleDevice false false with
      m_txMachineState := .BUSY
      m_currentPkt := some ⟨[.ppp ⟨0x0021⟩], [1, 2, 3]⟩ } rfl).2.2.2.2.1⟩

/-- Counterexample to C22 as stated: a decoded buffer that does not begin with "0x0021" loses
its first six bytes and the rest is delivered; a decoded buffer of three bytes is delivered
as an empty payload. No drop trace fires. -/
theorem payload_tag_counterexample :
    ¬ (protocolString <+: (exampleEnv id id).zlib_decompress_string [1, 2, 3, 4, 5, 6, 7, 8]) ∧
    (∃ d',
      Receive (exampleEnv id id) (exampleDevice false true)
        ⟨[.ppp ⟨0x4021⟩, .ipv4 (exampleIpv4 28), .udp (exampleUdp 20), .seqTs exampleSeqTs],
          [1, 2, 3, 4, 5, 6, 7, 8]⟩ = .ok d' ∧
      rxDrops d'.trace = [] ∧
      rxCallbacks d'.trace =
        [(⟨[.ipv4 (exampleIpv4 22), .udp (exampleUdp 14), .seqTs exampleSeqTs], [7, 8]⟩,
          0x0800)]) ∧
    ∃ d',
      Receive (exampleEnv id id) (exampleDevice false true)
        ⟨[.ppp ⟨0x4021⟩, .ipv4 (exampleIpv4 23), .udp (exampleUdp 15), .seqTs exampleSeqTs],
          [1, 2, 3]⟩ = .ok d' ∧
      rxDrops d'.trace = [] ∧
      rxCallbacks d'.trace =
        [(⟨[.ipv4 (exampleIpv4 20), .udp (exampleUdp 12), .seqTs exampleSeqTs], []⟩,
          0x0800)] :=
  ⟨by decide, ⟨_, rfl, rfl, rfl⟩, ⟨_, rfl, rfl, rfl⟩⟩

/-- Claim C22, amended: `Send` places the six bytes "0x0021" in front of the application
payload before encoding; on receipt the tag is not validated: for every decoded buffer,
whether or not it begins with that tag, `Receive` (on a device that has its node and its
channel, the frame not flagged by the error model) removes its first six bytes (all of it
when it is shorter), fires no drop trace and delivers the remainder under the rebuilt
headers with protocol 0x0800. -/
theorem payload_tag_not_validated (env : Env) (d : PointToPointNetDevice)
    (ipv4Header : Ipv4Header) (udpHeader : UdpHeader) (seqTsHeader : SeqTsHeader)
    (data cData : List Nat) (hatt : attached env d)
    (hnc : ¬ (d.m_receiveErrorModel = true ∧ env.IsCorrupt
      ⟨[.ppp ⟨0x4021⟩, .ipv4 ipv4Header, .udp udpHeader, .seqTs seqTsHeader], cData⟩ = true))
    (hdec : d.decompress = true) :
    (∃ g d1,
      SendCompress env d
        ⟨[.ppp ⟨0x0021⟩, .ipv4 ipv4Header, .udp udpHeader, .seqTs seqTsHeader], data⟩ =
          .ok (g, d1) ∧
      encodeCalls d1.trace = encodeCalls d.trace ++ [protocolString ++ data] ∧
      g.payload = env.zlib_compress_string (protocolString ++ data)) ∧
    protocolString.length = 6 ∧
    ∃ d',
      Receive env d
          ⟨[.ppp ⟨0x4021⟩, .ipv4 ipv4Header, .udp udpHeader, .seqTs seqTsHeader], cData⟩ =
        .ok d' ∧
      rxDrops d'.trace = rxDrops d.trace ∧
      rxCallbacks d'.trace = rxCallbacks d.trace ++
        [(⟨rebuiltChain env ipv4Header udpHeader seqTsHeader
            ((env.zlib_decompress_string cData).drop 6),
          (env.zlib_decompress_string cData).drop 6⟩, 0x0800)] := by
  refine ⟨⟨_, _, SendCompress_frame env d _ ipv4Header udpHeader seqTsHeader data, ?_, rfl⟩,
    rfl, _, Receive_decompress env d ipv4Header udpHeader seqTsHeader cData hatt hnc hdec,
    ?_, ?_⟩
  · simp [encodeCalls, List.filterMap_append, emit]
  · split <;> simp [rxDrops, List.filterMap_append]
  · split <;> simp [rxCallbacks, List.filterMap_append]

/-- Witness of C22 amended: the identity codec and the bytes 1 to 8. -/
theorem payload_tag_not_validated_witness :
    ∃ d',
      Receive (exampleEnv id id) (exampleDevice false true)
          ⟨[.ppp ⟨0x4021⟩, .ipv4 (exampleIpv4 28), .udp (exampleUdp 20), .seqTs exampleSeqTs],
            [1, 2, 3, 4, 5, 6, 7, 8]⟩ = .ok d' ∧
      rxDrops d'.trace = [] ∧
      rxCallbacks d'.trace =
        [(⟨[.ipv4 (exampleIpv4 22), .udp (exampleUdp 14), .seqTs exampleSeqTs], [7, 8]⟩,
          0x0800)] :=
  (payload_tag_not_validated (exampleEnv id id) (exampleDevice false true) (exampleIpv4 28)
    (exampleUdp 20) exampleSeqTs [104, 105] [1, 2, 3, 4, 5, 6, 7, 8]
    (exampleDevice_attached _ _ _ _) (by decide) rfl).2.2

end PointToPointNetDevice

namespace TopLevel

/-- Claim C23 fails on `src/point-to-point-net-device.cc`: `Send`, with compression enabled,
turns the datagram with the 1100-byte payload `examplePayload` into a frame tagged 0x4021
with some payload `c`; `Receive`, with decompression enabled on a device whose channel joins
it to one other device, hands the receive callback the bytes `c` five times over under the
headers it received, and that is not the original payload, whatever `deflate` computes. -/
theorem top_level_mirror_fails (env : Env) (compressedInit : List Nat)
    (ipv4Header : Ipv4Header) (udpHeader : UdpHeader) (seqTsHeader : SeqTsHeader) :
    ∃ c r d1 d2,
      Send env exampleSerialize compressedInit (exampleDevice true false)
        ⟨[.ipv4 ipv4Header, .udp udpHeader, .seqTs seqTsHeader], examplePayload⟩ 0x0800 =
          .ok (r, d1) ∧
      offeredToQueue d1.trace =
        [⟨[.ppp ⟨0x4021⟩, .ipv4 ipv4Header, .udp udpHeader, .seqTs seqTsHeader], c⟩] ∧
      Receive { env with channelNDevices := 2, channelDeviceIsThis := fun i => i == 0 }
        exampleSerialize (exampleDevice false true)
        ⟨[.ppp ⟨0x4021⟩, .ipv4 ipv4Header, .udp udpHeader, .seqTs seqTsHeader], c⟩ =
          .ok d2 ∧
      rxCallbacks d2.trace =
        [(⟨[.ipv4 ipv4Header, .udp udpHeader, .seqTs seqTsHeader], c ++ c ++ c ++ c ++ c⟩,
          0x0800)] ∧
      c ++ c ++ c ++ c ++ c ≠ examplePayload := by
  have hlen : (CopyData exampleSerialize
      ⟨[.ipv4 ipv4Header, .udp udpHeader, .seqTs seqTsHeader], examplePayload⟩).length =
      1140 := by
    simp only [CopyData, serializeHeaders, exampleSerialize, List.length_append,
      List.length_replicate, examplePayload_length, List.length_nil]
  obtain ⟨c, hc⟩ := SendCompress_long env exampleSerialize compressedInit ⟨0x0021⟩ ipv4Header
    udpHeader seqTsHeader examplePayload (by rw [hlen]; norm_num) (by rw [hlen]; norm_num)
  have hsend := Send_compressed env exampleSerialize compressedInit (exampleDevice true false)
    ⟨[.ipv4 ipv4Header, .udp udpHeader, .seqTs seqTsHeader], examplePayload⟩ _ rfl rfl hc
  obtain ⟨r, d1, hd1⟩ := PointToPointNetDevice.SendEnqueue_returns env
    (exampleDevice true false)
    ⟨[.ppp ⟨0x4021⟩, .ipv4 ipv4Header, .udp udpHeader, .seqTs seqTsHeader], c⟩
    { m_packets := [], m_maxSize := 100 } rfl (fun _ => rfl)
  obtain ⟨d2, hd2, -, hcb⟩ := Receive_repeats
    { env with channelNDevices := 2, channelDeviceIsThis := fun i => i == 0 }
    exampleSerialize (exampleDevice false true) ipv4Header udpHeader seqTsHeader c
    ⟨rfl, rfl, rfl, Or.inr rfl⟩ (by simp [exampleDevice]) rfl
  refine ⟨c, r, d1, d2, hsend.trans hd1, ?_, hd2, ?_, repeated_ne_examplePayload c⟩
  · have := (PointToPointNetDevice.SendEnqueue_trace env _ _ r d1 hd1).1
    simpa [offeredToQueue, exampleDevice] using this
  · simpa [rxCallbacks, exampleDevice] using hcb

end TopLevel

namespace PointToPointNetDevice

/-- Claim C24: transmission order and integrity. In every state reachable from the
constructed device by `Send` calls and completion events, the frames the queue accepted
are, in order and unchanged, the frames handed to the channel followed by the frames still
waiting in the queue; once every scheduled completion event has fired, the frames handed to
the channel are exactly the frames the queue accepted. `TransmitStart` and
`TransmitComplete` call neither codec function: `TransmitStart (p)` hands `p` itself to the
channel, `TransmitComplete` moves at most the head of the queue to the channel. -/
theorem transmission_order (env : Env) (s : Simulation) (h : Reachable env s) :
    acceptedByQueue s.device.trace =
        handedToChannel s.device.trace ++ s.device.queued ∧
    (s.fired = (scheduledEvents s.device.trace).length →
      handedToChannel s.device.trace = acceptedByQueue s.device.trace) ∧
    (∀ d d' p r, TransmitStart env d p = .ok (r, d') →
      encodeCalls d'.trace = encodeCalls d.trace ∧
      decodeCalls d'.trace = decodeCalls d.trace ∧
      handedToChannel d'.trace = handedToChannel d.trace ++ [p] ∧
      d'.m_currentPkt = some p) ∧
    (∀ d d', TransmitComplete env d = .ok d' →
      encodeCalls d'.trace = encodeCalls d.trace ∧
      decodeCalls d'.trace = decodeCalls d.trace ∧
      handedToChannel d'.trace ++ d'.queued = handedToChannel d.trace ++ d.queued) := by
  obtain ⟨hacc, hidle⟩ := Reachable_queue env s h
  obtain ⟨hcount, -, -⟩ := Reachable_invariant env s h
  refine ⟨hacc, ?_, ?_, ?_⟩
  · intro hfired
    have hready : s.device.m_txMachineState = .READY := by
      cases hst : s.device.m_txMachineState with
      | READY => rfl
      | BUSY =>
        rw [hst] at hcount
        simp at hcount
        omega
    rw [hacc, hidle hready, List.append_nil]
  · intro d d' p r hts
    obtain ⟨h1, h2, h3, h4, -⟩ := TransmitStart_codec env d d' p r hts
    exact ⟨h1, h2, h3, h4⟩
  · intro d d' htc
    exact TransmitComplete_codec env d d' htc

/-- Witness of C24: two `Send` calls; the second frame waits in the queue. -/
theorem transmission_order_witness :
    ∃ s, Reachable (exampleEnv List.reverse List.reverse) s ∧
      s.device.queued = [(exampleDatagram [106]).AddHeader (.ppp ⟨0x0021⟩)] ∧
      acceptedByQueue s.device.trace =
        handedToChannel s.device.trace ++ s.device.queued := by
  have h0 : Reachable (exampleEnv List.reverse List.reverse)
      { device := exampleDevice false false, fired := 0 } :=
    .start _ ⟨rfl, rfl, fun q hq => by cases hq; rfl, rfl⟩
  have h1 := Reachable.next _ _ (.send (exampleDatagram [104, 105]) 0x0800) h0 trivial rfl
  have h2 := Reachable.next _ _ (.send (exampleDatagram [106]) 0x0800) h1 trivial rfl
  exact ⟨_, h2, rfl, (transmission_order _ _ h2).1⟩

/-- Claim C25: idle implies drained. In every state reachable from the constructed device
by `Send` calls and completion events, a READY device has an empty transmit queue; frames
wait in the queue only while the device is BUSY. -/
theorem idle_implies_drained (env : Env) (s : Simulation) (h : Reachable env s) :
    (s.device.m_txMachineState = .READY →
      ∀ q, s.device.m_queue = some q → q.m_packets = []) ∧
    (∀ q, s.device.m_queue = some q → q.m_packets ≠ [] →
      s.device.m_txMachineState = .BUSY) := by
  obtain ⟨-, hidle⟩ := Reachable_queue env s h
  have key : s.device.m_txMachineState = .READY →
      ∀ q, s.device.m_queue = some q → q.m_packets = [] := by
    intro hready q hq
    have := hidle hready
    simpa [queued, hq] using this
  refine ⟨key, ?_⟩
  intro q hq hne
  cases hst : s.device.m_txMachineState with
  | READY => exact absurd (key hst q hq) hne
  | BUSY => rfl

/-- Witness of C25: one `Send`, then its completion event. -/
theorem idle_implies_drained_witness :
    ∃ s, Reachable (exampleEnv List.reverse List.reverse) s ∧
      s.fired = 1 ∧
      s.device.m_txMachineState = .READY ∧
      ∀ q, s.device.m_queue = some q → q.m_packets = [] := by
  have h0 : Reachable (exampleEnv List.reverse List.reverse)
      { device := exampleDevice false false, fired := 0 } :=
    .start _ ⟨rfl, rfl, fun q hq => by cases hq; rfl, rfl⟩
  have h1 := Reachable.next _ _ (.send (exampleDatagram [104, 105]) 0x0800) h0 trivial rfl
  have h2 := Reachable.next _ _ .complete h1 Nat.zero_lt_one rfl
  exact ⟨_, h2, rfl, rfl, (idle_implies_drained _ _ h2).1 rfl⟩

/-- Claim C26: slot, state and event agreement. In every state reachable from the
constructed device by `Send` calls and completion events, the device is BUSY exactly when
`m_currentPkt` is not null, and the number of completion events scheduled and not yet
fired is 1 when BUSY and 0 when READY; so whenever a scheduled completion event fires, the
device is BUSY with a current frame and neither assertion of `TransmitComplete` fails. -/
theorem slot_state_event_agreement (env : Env) (s : Simulation) (h : Reachable env s) :
    (s.device.m_txMachineState = .BUSY ↔ s.device.m_currentPkt ≠ none) ∧
    (scheduledEvents s.device.trace).length - s.fired =
      (if s.device.m_txMachineState = .BUSY then 1 else 0) ∧
    s.fired ≤ (scheduledEvents s.device.trace).length ∧
    (s.enabled .complete →
      s.device.m_txMachineState = .BUSY ∧ s.device.m_currentPkt ≠ none ∧
      s.step env .complete ≠ .error .mustBeBusy ∧
      s.step env .complete ≠ .error .currentPktZero) := by
  obtain ⟨hcount, hcur, -⟩ := Reachable_invariant env s h
  have hiff : s.device.m_txMachineState = .BUSY ↔ s.device.m_currentPkt ≠ none := by
    rw [Ne, hcur]
    cases s.device.m_txMachineState <;> simp
  refine ⟨hiff, by omega, by omega, ?_⟩
  intro hen
  simp only [Simulation.enabled] at hen
  have hbusy : s.device.m_txMachineState = .BUSY := by
    cases hst : s.device.m_txMachineState with
    | BUSY => rfl
    | READY =>
      rw [hst] at hcount
      simp at hcount
      omega
  have hne := hiff.mp hbusy
  obtain ⟨cur, hc⟩ := Option.ne_none_iff_exists'.mp hne
  refine ⟨hbusy, hne, ?_, ?_⟩
  · intro herr
    simp only [Simulation.step] at herr
    split at herr
    · cases herr
    · rename_i e he
      injection herr with herr
      subst herr
      have := TransmitComplete_asserts env s.device cur hbusy hc _ he
      cases this
  · intro herr
    simp only [Simulation.step] at herr
    split at herr
    · cases herr
    · rename_i e he
      injection herr with herr
      subst herr
      have := TransmitComplete_asserts env s.device cur hbusy hc _ he
      cases this

/-- Witness of C26: the state reached by one `Send`. -/
theorem slot_state_event_agreement_witness :
    ∃ s, Reachable (exampleEnv List.reverse List.reverse) s ∧
      s.device.m_txMachineState = .BUSY ∧
      (scheduledEvents s.device.trace).length - s.fired = 1 ∧
      s.step (exampleEnv List.reverse List.reverse) .complete ≠ .error .mustBeBusy ∧
      s.step (exampleEnv List.reverse List.reverse) .complete ≠ .error .currentPktZero := by
  have h0 : Reachable (exampleEnv List.reverse List.reverse)
      { device := exampleDevice false false, fired := 0 } :=
    .start _ ⟨rfl, rfl, fun q hq => by cases hq; rfl, rfl⟩
  have h1 := Reachable.next _ _ (.send (exampleDatagram [104, 105]) 0x0800) h0 trivial rfl
  exact ⟨_, h1, rfl, (slot_state_event_agreement _ _ h1).2.1,
    ((slot_state_event_agreement _ _ h1).2.2.2 Nat.zero_lt_one).2.2⟩

/-- Claim C27: tag map round trip. `PppToEther (EtherToPpp (p))` is `p` for 0x0800 and
0x86DD and is 0x0800 for 0x0801; `EtherToPpp` is injective on the inputs it accepts;
`PppToEther` maps both 0x0021 and 0x4021 to 0x0800; the two source files define the same
maps. -/
theorem tag_map_round_trip :
    (EtherToPpp 0x0800 >>= PppToEther) = .ok 0x0800 ∧
    (EtherToPpp 0x86DD >>= PppToEther) = .ok 0x86DD ∧
    (EtherToPpp 0x0801 >>= PppToEther) = .ok 0x0800 ∧
    (∀ p p' tag, EtherToPpp p = .ok tag → EtherToPpp p' = .ok tag → p = p') ∧
    (PppToEther 0x0021 = .ok 0x0800 ∧ PppToEther 0x4021 = .ok 0x0800) ∧
    (∀ x, TopLevel.PppToEther x = PppToEther x) ∧
    (∀ x, TopLevel.EtherToPpp x = EtherToPpp x) := by
  refine ⟨rfl, rfl, rfl, ?_, ⟨rfl, rfl⟩, fun _ => rfl, fun _ => rfl⟩
  intro p p' tag h h'
  rw [EtherToPpp_ok_iff] at h h'
  omega

/-- Witness of C27: 0x0800 is the only protocol number mapped to the tag 0x0021. -/
theorem tag_map_round_trip_witness :
    EtherToPpp 0x0800 = .ok 0x0021 ∧ ∀ p, EtherToPpp p = .ok 0x0021 → 0x0800 = p :=
  ⟨rfl, fun p h => tag_map_round_trip.2.2.2.1 0x0800 p 0x0021 rfl h⟩

/-- Claim C28: link down. While `m_linkUp` is false, `Send` returns false after exactly one
call to a collaborator, the transmit drop trace on the packet as the caller gave it: no PPP
header is added, nothing is offered to the queue, the codec is not called, and queue,
transmit state, current frame and scheduled events are as before. -/
theorem send_link_down (env : Env) (d : PointToPointNetDevice) (packet : Packet)
    (protocolNumber : Nat) (hdown : d.m_linkUp = false) :
    ∃ d', Send env d packet protocolNumber = .ok (false, d') ∧
      d'.trace = d.trace ++ [.macTxDropTrace packet] ∧
      txDrops d'.trace = txDrops d.trace ++ [packet] ∧
      offeredToQueue d'.trace = offeredToQueue d.trace ∧
      encodeCalls d'.trace = encodeCalls d.trace ∧
      d'.m_queue = d.m_queue ∧
      d'.m_txMachineState = d.m_txMachineState ∧
      d'.m_currentPkt = d.m_currentPkt ∧
      scheduledEvents d'.trace = scheduledEvents d.trace := by
  refine ⟨_, Send_linkDown env d packet protocolNumber hdown, rfl, ?_, ?_, ?_, rfl, rfl, rfl, ?_⟩ <;>
    simp [emit, txDrops, offeredToQueue, encodeCalls, scheduledEvents, List.filterMap_append]

/-- Witness of C28: a device without channel, link down. -/
theorem send_link_down_witness :
    ∃ d', Send (exampleEnv List.reverse List.reverse)
        { exampleDevice true false with m_linkUp := false, m_channel := false }
        (exampleDatagram [1, 2, 3]) 0x0800 = .ok (false, d') ∧
      d'.trace = [.macTxDropTrace (exampleDatagram [1, 2, 3])] :=
  let ⟨d', h, ht, _⟩ := send_link_down (exampleEnv List.reverse List.reverse)
    { exampleDevice true false with m_linkUp := false, m_channel := false }
    (exampleDatagram [1, 2, 3]) 0x0800 rfl
  ⟨d', h, ht⟩

/-- Claim C29: channel refusal. On a READY device with a channel, a `TransmitStart (p)` that
the channel refuses returns false and fires the transmit drop trace `m_phyTxDropTrace` once,
yet leaves the device BUSY with `p` as current frame and one completion event scheduled.
Hence a `Send` that returns false although the queue accepted its frame has removed the
head of the queue, which is now the current frame of a BUSY device with one completion
event scheduled; and no `Send` on a BUSY device makes it READY. -/
theorem channel_refusal (env : Env) (d : PointToPointNetDevice)
    (hready : d.m_txMachineState = .READY) (hch : d.m_channel = true) :
    (∀ p, env.channelTransmitStart p (env.CalculateBytesTxTime (p.GetSize env)) = false →
      ∃ d', TransmitStart env d p = .ok (false, d') ∧
        phyTxDrops d'.trace = phyTxDrops d.trace ++ [p] ∧
        d'.m_txMachineState = .BUSY ∧
        d'.m_currentPkt = some p ∧
        scheduledEvents d'.trace = scheduledEvents d.trace ++
          [env.CalculateBytesTxTime (p.GetSize env) + d.m_tInterframeGap]) ∧
    (∀ packet protocolNumber q d', d.m_linkUp = true → d.m_queue = some q →
      q.m_packets.length < q.m_maxSize →
      Send env d packet protocolNumber = .ok (false, d') →
      ∃ g head rest, offeredToQueue d'.trace = offeredToQueue d.trace ++ [g] ∧
        q.m_packets ++ [g] = head :: rest ∧
        d'.m_queue = some { q with m_packets := rest } ∧
        channelCalls d'.trace = channelCalls d.trace ++
          [(head, env.CalculateBytesTxTime (head.GetSize env), false)] ∧
        phyTxDrops d'.trace = phyTxDrops d.trace ++ [head] ∧
        d'.m_txMachineState = .BUSY ∧
        d'.m_currentPkt = some head ∧
        scheduledEvents d'.trace = scheduledEvents d.trace ++
          [env.CalculateBytesTxTime (head.GetSize env) + d.m_tInterframeGap]) ∧
    (∀ d1 d2 packet protocolNumber r, d1.m_txMachineState = .BUSY →
      Send env d1 packet protocolNumber = .ok (r, d2) → d2.m_txMachineState = .BUSY) := by
  refine ⟨?_, ?_, ?_⟩
  · intro p href
    have hts := TransmitStart_ready env d p hready hch
    rw [href] at hts
    refine ⟨_, hts, ?_, rfl, rfl, ?_⟩
    · simp [phyTxDrops, List.filterMap_append]
    · simp [scheduledEvents, List.filterMap_append]
  · intro packet protocolNumber q d' hup hq hacc hsend
    obtain ⟨g, pre, hpre, he⟩ := Send_ok_enqueue env d d' packet protocolNumber false hup hsend
    have hne : q.m_packets ++ [g] ≠ [] := by simp
    obtain ⟨head, rest, hhead⟩ := List.exists_cons_of_ne_nil hne
    rw [SendEnqueue_ready env { d with trace := d.trace ++ pre } g head rest q hq hacc hready
      hch hhead] at he
    injection he with he
    injection he with hr hd
    subst hd
    refine ⟨g, head, rest, ?_, hhead, rfl, ?_, ?_, rfl, rfl, ?_⟩
    · rcases hpre with rfl | ⟨x, rfl⟩ <;>
        simp [offeredToQueue, List.filterMap_append, hr]
    · rcases hpre with rfl | ⟨x, rfl⟩ <;>
        simp [channelCalls, List.filterMap_append, hr]
    · rcases hpre with rfl | ⟨x, rfl⟩ <;>
        simp [phyTxDrops, List.filterMap_append, hr]
    · rcases hpre with rfl | ⟨x, rfl⟩ <;>
        simp [scheduledEvents, List.filterMap_append, hr]
  · intro d1 d2 packet protocolNumber r hbusy hsend
    rcases Send_effect env d1 d2 packet protocolNumber r hsend with ⟨h1, -⟩ | ⟨-, h1, -⟩
    · rw [h1, hbusy]
    · exact h1

/-- Witness of C29: a channel that refuses every frame. -/
theorem channel_refusal_witness :
    ∃ d',
      TransmitStart
        { exampleEnv List.reverse List.reverse with channelTransmitStart := fun _ _ => false }
        (exampleDevice false false) ⟨[.ppp ⟨0x0021⟩], [1, 2, 3]⟩ = .ok (false, d') ∧
      phyTxDrops d'.trace = [⟨[.ppp ⟨0x0021⟩], [1, 2, 3]⟩] ∧
      d'.m_txMachineState = .BUSY ∧
      d'.m_currentPkt = some ⟨[.ppp ⟨0x0021⟩], [1, 2, 3]⟩ ∧
      scheduledEvents d'.trace = [40] :=
  (channel_refusal
    { exampleEnv List.reverse List.reverse with channelTransmitStart := fun _ _ => false }
    (exampleDevice false false) rfl rfl).1 ⟨[.ppp ⟨0x0021⟩], [1, 2, 3]⟩ rfl

end PointToPointNetDevice

namespace TopLevel

/-- Claim C30: payload extraction bounds in `src/point-to-point-net-device.cc`. The
compression branch of `Send` takes `substr (size-1100, size)` of the bytes of the packet,
`size` being an unsigned 32-bit count. For a packet of at least 1100 bytes the start index
is `size - 1100`, within bounds, and the extracted payload is the last 1100 bytes: the
branch does not end in the exception of `substr`, and on a packet of IPv4, UDP and SeqTs
headers it returns the frame whose payload is deflated from "0x0021" followed by those last
1100 bytes, which `Send` then takes to the queue. For a packet of fewer than 1100 bytes the
difference wraps to `size + 2^32 - 1100`, beyond the end of the string, the extraction
throws `std::out_of_range`, and the branch, and `Send` with it, fails instead of producing a
frame. -/
theorem payload_extraction_bounds (env : Env) (serialize : Header → List Nat)
    (compressedInit : List Nat) (d : PointToPointNetDevice) (packet : Packet)
    (h : (CopyData serialize packet).length < 2 ^ 32) :
    (1100 ≤ (CopyData serialize packet).length →
      payloadStart ((CopyData serialize packet).length % 2 ^ 32) =
        (CopyData serialize packet).length - 1100 ∧
      payloadStart ((CopyData serialize packet).length % 2 ^ 32) ≤
        (CopyData serialize packet).length ∧
      PointToPointNetDevice.substr (CopyData serialize packet)
          (payloadStart ((CopyData serialize packet).length % 2 ^ 32))
          ((CopyData serialize packet).length % 2 ^ 32) =
        .ok ((CopyData serialize packet).drop ((CopyData serialize packet).length - 1100)) ∧
      ((CopyData serialize packet).drop
        ((CopyData serialize packet).length - 1100)).length = 1100 ∧
      (CopyData serialize packet).drop ((CopyData serialize packet).length - 1100) <:+
        CopyData serialize packet ∧
      (∀ ppp, SendCompress env serialize compressedInit (packet.AddHeader (.ppp ppp)) ≠
        .error .outOfRange) ∧
      (∀ i u s str2, packet.headers = [.ipv4 i, .udp u, .seqTs s] →
        str2 = PointToPointNetDevice.protocolString ++
          (CopyData serialize packet).drop ((CopyData serialize packet).length - 1100) →
        (∀ ppp, SendCompress env serialize compressedInit (packet.AddHeader (.ppp ppp)) =
          .ok ⟨[.ppp ⟨0x4021⟩, .ipv4 i, .udp u, .seqTs s],
            cString (writeBuffer (str2.length + 1) compressedInit
              (env.deflate ((cString str2 ++ [0]).take
                ((cString (cString str2 ++ [0])).length + 1))))⟩) ∧
        (d.m_linkUp = true → d.compress = true →
          Send env serialize compressedInit d packet 0x0800 =
            PointToPointNetDevice.SendEnqueue env d
              ⟨[.ppp ⟨0x4021⟩, .ipv4 i, .udp u, .seqTs s],
                cString (writeBuffer (str2.length + 1) compressedInit
                  (env.deflate ((cString str2 ++ [0]).take
                    ((cString (cString str2 ++ [0])).length + 1))))⟩))) ∧
    ((CopyData serialize packet).length < 1100 →
      payloadStart ((CopyData serialize packet).length % 2 ^ 32) =
        (CopyData serialize packet).length + 2 ^ 32 - 1100 ∧
      (CopyData serialize packet).length <
        payloadStart ((CopyData serialize packet).length % 2 ^ 32) ∧
      PointToPointNetDevice.substr (CopyData serialize packet)
          (payloadStart ((CopyData serialize packet).length % 2 ^ 32))
          ((CopyData serialize packet).length % 2 ^ 32) = .error .outOfRange ∧
      (∀ ppp, SendCompress env serialize compressedInit (packet.AddHeader (.ppp ppp)) =
        .error .outOfRange) ∧
      (d.m_linkUp = true → d.compress = true →
        Send env serialize compressedInit d packet 0x0800 = .error .outOfRange)) := by
  constructor
  · intro hlen
    obtain ⟨hs, hsub⟩ := substr_last _ h hlen
    refine ⟨hs, by omega, hsub, ?_, List.drop_suffix _ _, ?_, ?_⟩
    · rw [List.length_drop]
      omega
    · intro ppp
      exact SendCompress_in_range env serialize compressedInit packet ppp h hlen
    · intro i u s str2 hshape hstr2
      rcases packet with ⟨hs', data⟩
      simp only at hshape
      subst hshape
      have key : ∀ ppp, SendCompress env serialize compressedInit
          ⟨[.ppp ppp, .ipv4 i, .udp u, .seqTs s], data⟩ = _ :=
        fun ppp => SendCompress_last env serialize compressedInit ppp i u s data str2 h hlen
          hstr2
      refine ⟨key, fun hup hc => ?_⟩
      exact Send_compressed env serialize compressedInit d _ _ hup hc (key ⟨0x0021⟩)
  · intro hlen
    obtain ⟨hs, hsub⟩ := substr_wraps _ h hlen
    refine ⟨hs, by omega, hsub, ?_, ?_⟩
    · intro ppp
      exact SendCompress_short env serialize compressedInit packet ppp h hlen
    · intro hup hc
      exact Send_short env serialize compressedInit d packet hup hc h hlen

/-- Witness of C30: a datagram of 43 bytes and a datagram of 1140 bytes. -/
theorem payload_extraction_bounds_witness :
    ((CopyData exampleSerialize (exampleDatagram [1, 2, 3])).length = 43 ∧
      payloadStart 43 = 4294966239 ∧
      Send (exampleEnv List.reverse List.reverse) exampleSerialize []
        (exampleDevice true false) (exampleDatagram [1, 2, 3]) 0x0800 =
          .error .outOfRange) ∧
    ((CopyData exampleSerialize (exampleDatagram examplePayload)).length = 1140 ∧
      payloadStart 1140 = 40 ∧
      ((CopyData exampleSerialize (exampleDatagram examplePayload)).drop
        ((CopyData exampleSerialize (exampleDatagram examplePayload)).length - 1100)).length =
          1100 ∧
      Send (exampleEnv List.reverse List.reverse) exampleSerialize []
          (exampleDevice true false) (exampleDatagram examplePayload) 0x0800 =
        PointToPointNetDevice.SendEnqueue (exampleEnv List.reverse List.reverse)
          (exampleDevice true false)
          ⟨[.ppp ⟨0x4021⟩, .ipv4 (exampleIpv4 (8 + 12 + examplePayload.length)),
              .udp (exampleUdp (12 + examplePayload.length)), .seqTs exampleSeqTs],
            cString (writeBuffer
              ((PointToPointNetDevice.protocolString ++
                (CopyData exampleSerialize (exampleDatagram examplePayload)).drop
                  ((CopyData exampleSerialize (exampleDatagram examplePayload)).length -
                    1100)).length + 1) []
              ((exampleEnv List.reverse List.reverse).deflate
                ((cString (PointToPointNetDevice.protocolString ++
                  (CopyData exampleSerialize (exampleDatagram examplePayload)).drop
                    ((CopyData exampleSerialize (exampleDatagram examplePayload)).length -
                      1100)) ++ [0]).take
                  ((cString (cString (PointToPointNetDevice.protocolString ++
                    (CopyData exampleSerialize (exampleDatagram examplePayload)).drop
                      ((CopyData exampleSerialize (exampleDatagram examplePayload)).length -
                        1100)) ++ [0])).length + 1))))⟩) := by
  have hlen : (CopyData exampleSerialize (exampleDatagram examplePayload)).length = 1140 := by
    simp only [CopyData, serializeHeaders, exampleSerialize, exampleDatagram,
      List.length_append, List.length_replicate, examplePayload_length, List.length_nil]
  exact ⟨⟨rfl, rfl,
    ((payload_extraction_bounds (exampleEnv List.reverse List.reverse) exampleSerialize []
      (exampleDevice true false) (exampleDatagram [1, 2, 3]) (by decide)).2
        (by decide)).2.2.2.2 rfl rfl⟩,
    hlen, rfl,
    ((payload_extraction_bounds (exampleEnv List.reverse List.reverse) exampleSerialize []
      (exampleDevice true false) (exampleDatagram examplePayload)
        (by rw [hlen]; norm_num)).1 (by rw [hlen]; norm_num)).2.2.2.1,
    (((payload_extraction_bounds (exampleEnv List.reverse List.reverse) exampleSerialize []
      (exampleDevice true false) (exampleDatagram examplePayload)
        (by rw [hlen]; norm_num)).1 (by rw [hlen]; norm_num)).2.2.2.2.2.2 _ _ _ _ rfl rfl).2
      rfl rfl⟩

end TopLevel

end ns3
